import Mathlib

/-!
Verification of the perspective-correction and enhancement engine of the
pixnap document scanner (source: `src/utils/scannerHtml.ts`).

The JavaScript engine is shallowly embedded here.  Number arithmetic of the
source is modelled exactly over `ℚ` (and over `ℝ` for the two operations that
are genuinely irrational: Euclidean distances via `Math.sqrt` and the gamma
step via `Math.pow`), matching the "in exact arithmetic" reading of the
specification.  Buffers are modelled as total functions from indices to
values; each imperative loop body becomes the corresponding per-index
function.
-/

/-- Threshold used by the source for singularity detection (`1e-10`). -/
def eps : ℚ := 1 / 10 ^ 10

/-- JavaScript `Math.round`: round half toward positive infinity,
`⌊x + 1/2⌋`, on rationals. -/
def jsRoundQ (x : ℚ) : ℤ := ⌊x + 1 / 2⌋

/-- JavaScript `Math.round` on reals (used where the source computes with
square roots). -/
noncomputable def jsRound (x : ℝ) : ℤ := ⌊x + 1 / 2⌋

/-- `swapRows M i j` exchanges rows `i` and `j` of the augmented matrix,
mirroring `var tmp = M[col]; M[col] = M[maxRow]; M[maxRow] = tmp;`
(`solve`, scannerHtml.ts line 32). -/
def swapRows {n : ℕ} (M : Fin n → Fin (n + 1) → ℚ) (i j : Fin n) :
    Fin n → Fin (n + 1) → ℚ :=
  fun r c => M (Equiv.swap i j r) c

/-- Scan step of the partial-pivot search of `solve` (scannerHtml.ts lines
28-31): fold the candidate update
`if (Math.abs(M[row][col]) > Math.abs(M[maxRow][col])) maxRow = row;`
over a list of rows. -/
def pivotFold {n : ℕ} (M : Fin n → Fin (n + 1) → ℚ) (col : Fin n) :
    List (Fin n) → Fin n → Fin n
  | [], best => best
  | r :: rs, best =>
    pivotFold M col rs
      (if |M r col.castSucc| > |M best col.castSucc| then r else best)

/-- The pivot row selected for column `col`: scan the rows after `col` in
ascending order, with initial candidate `col` itself (`var maxRow = col`). -/
def pivotRow {n : ℕ} (M : Fin n → Fin (n + 1) → ℚ) (col : Fin n) : Fin n :=
  pivotFold M col ((List.finRange n).filter fun r => col < r) col

/-- One forward-elimination pass for column `col` (scannerHtml.ts lines
34-37): every row below `col` gets `f = M[row][col] / M[col][col]` times the
pivot row subtracted from its entries in columns `col … n`. -/
def reduceStep {n : ℕ} (M : Fin n → Fin (n + 1) → ℚ) (col : Fin n) :
    Fin n → Fin (n + 1) → ℚ :=
  fun r c =>
    if col < r ∧ (col : ℕ) ≤ (c : ℕ) then
      M r c - M r col.castSucc / M col col.castSucc * M col c
    else M r c

/-- One column step of `solve`: select the pivot row, swap it into place,
fail when its magnitude is below `1e-10` (line 33), else eliminate below. -/
def elimStep {n : ℕ} (M : Fin n → Fin (n + 1) → ℚ) (col : Fin n) :
    Option (Fin n → Fin (n + 1) → ℚ) :=
  let M1 := swapRows M col (pivotRow M col)
  if |M1 col col.castSucc| < eps then none else some (reduceStep M1 col)

/-- The `for (col …)` elimination loop of `solve` (lines 27-38), from
column `col` upward; the fuel argument counts the remaining iterations and
is always called with at least `n - col`. -/
def forwardElim (n : ℕ) : ℕ → ℕ → (Fin n → Fin (n + 1) → ℚ) →
    Option (Fin n → Fin (n + 1) → ℚ)
  | 0, _, M => some M
  | fuel + 1, col, M =>
    if h : col < n then
      match elimStep M ⟨col, h⟩ with
      | none => none
      | some M' => forwardElim n fuel (col + 1) M'
    else some M

/-- The elimination loop starting at column `col` eventually selects a pivot
of magnitude below `1e-10` (the failure condition of `solve`). -/
def hitsSmallPivot (n : ℕ) : ℕ → ℕ → (Fin n → Fin (n + 1) → ℚ) → Prop
  | 0, _, _ => False
  | fuel + 1, col, M =>
    if h : col < n then
      |M (pivotRow M ⟨col, h⟩) (Fin.castSucc ⟨col, h⟩)| < eps ∨
        hitsSmallPivot n fuel (col + 1)
          (reduceStep (swapRows M ⟨col, h⟩ (pivotRow M ⟨col, h⟩)) ⟨col, h⟩)
    else False

/-- Body of the back-substitution recurrence of `solve` (scannerHtml.ts
lines 39-44): `x[i] = (M[i][n] - Σ_{j>i} M[i][j]·x[j]) / M[i][i]`.  The fuel
argument bounds the recursion depth and is always at least `n - i`. -/
def backSubAux {n : ℕ} (M : Fin n → Fin (n + 1) → ℚ) : ℕ → Fin n → ℚ
  | 0, _ => 0
  | fuel + 1, i =>
    (M i (Fin.last n)
        - ∑ j ∈ Finset.univ.filter (fun j => i < j),
            M i (Fin.castSucc j) * backSubAux M fuel j)
      / M i (Fin.castSucc i)

/-- Back substitution of `solve`: the value of `x[i]`. -/
def backSub {n : ℕ} (M : Fin n → Fin (n + 1) → ℚ) (i : Fin n) : ℚ :=
  backSubAux M (n - (i : ℕ)) i

/-- The augmented matrix `[A | b]` built by `solve` (lines 22-26). -/
def augment {n : ℕ} (A : Fin n → Fin n → ℚ) (b : Fin n → ℚ) :
    Fin n → Fin (n + 1) → ℚ :=
  fun i j => if h : (j : ℕ) < n then A i ⟨j, h⟩ else b i

/-- `solve(A, b)` of scannerHtml.ts lines 20-46: Gaussian elimination with
partial pivoting on the augmented matrix, then back substitution; `none`
models the `return null` on a small pivot. -/
def solve (n : ℕ) (A : Fin n → Fin n → ℚ) (b : Fin n → ℚ) :
    Option (Fin n → ℚ) :=
  match forwardElim n n 0 (augment A b) with
  | none => none
  | some U => some (backSub U)

/-! ### Correctness infrastructure for `solve` -/

/-- Row `r` of the augmented matrix `M` is satisfied by `x`: the dot product
of its first `n` entries with `x` equals its last entry. -/
def SatA {n : ℕ} (M : Fin n → Fin (n + 1) → ℚ) (x : Fin n → ℚ) (r : Fin n) :
    Prop :=
  ∑ j : Fin n, M r (Fin.castSucc j) * x j = M r (Fin.last n)

/-- Row `r` of `M`, restricted to its first `n` columns, annihilates `x`. -/
def Sat0 {n : ℕ} (M : Fin n → Fin (n + 1) → ℚ) (x : Fin n → ℚ) (r : Fin n) :
    Prop :=
  ∑ j : Fin n, M r (Fin.castSucc j) * x j = 0

/-- The first `col` columns of `M` are upper triangular: every entry strictly
below the diagonal in a column `< col` is zero. -/
def Tri {n : ℕ} (col : ℕ) (M : Fin n → Fin (n + 1) → ℚ) : Prop :=
  ∀ r c : Fin n, (c : ℕ) < col → c < r → M r (Fin.castSucc c) = 0

/-- Every diagonal entry in the first `col` columns has magnitude `≥ eps`. -/
def DiagBig {n : ℕ} (col : ℕ) (M : Fin n → Fin (n + 1) → ℚ) : Prop :=
  ∀ i : Fin n, (i : ℕ) < col → eps ≤ |M i (Fin.castSucc i)|

/-- Coefficient matrix of the DLT system built by `computeHomography`
(scannerHtml.ts lines 50-58): correspondence `i` contributes row `2i`
`[sx, sy, 1, 0, 0, 0, -dx·sx, -dx·sy]` and row `2i+1`
`[0, 0, 0, sx, sy, 1, -dy·sx, -dy·sy]`. -/
def dltA (src dst : Fin 4 → ℚ × ℚ) : Fin 8 → Fin 8 → ℚ :=
  fun r =>
    let i : Fin 4 := ⟨(r : ℕ) / 2, by omega⟩
    let sx := (src i).1
    let sy := (src i).2
    let dx := (dst i).1
    let dy := (dst i).2
    if (r : ℕ) % 2 = 0 then ![sx, sy, 1, 0, 0, 0, -dx * sx, -dx * sy]
    else ![0, 0, 0, sx, sy, 1, -dy * sx, -dy * sy]

/-- Right-hand side of the DLT system: correspondence `i` contributes
`dx` at row `2i` and `dy` at row `2i+1`. -/
def dltB (src dst : Fin 4 → ℚ × ℚ) : Fin 8 → ℚ :=
  fun r =>
    let i : Fin 4 := ⟨(r : ℕ) / 2, by omega⟩
    if (r : ℕ) % 2 = 0 then (dst i).1 else (dst i).2

/-- `computeHomography(srcPts, dstPts)` of scannerHtml.ts lines 49-62:
solve the 8×8 DLT system and append the fixed entry `h8 = 1`, or fail. -/
def computeHomography (src dst : Fin 4 → ℚ × ℚ) : Option (Fin 9 → ℚ) :=
  match solve 8 (dltA src dst) (dltB src dst) with
  | none => none
  | some h => some (fun j => if hj : (j : ℕ) < 8 then h ⟨j, hj⟩ else 1)

/-- The homography stage of `processImage` (scannerHtml.ts lines 228-229):
`var H = computeHomography(srcPts, dstPts); if (!H) throw new
Error('Failed to compute homography');`. -/
def homographyStep (srcPts dstPts : Fin 4 → ℚ × ℚ) :
    Except String (Fin 9 → ℚ) :=
  match computeHomography srcPts dstPts with
  | none => Except.error "Failed to compute homography"
  | some H => Except.ok H

/-- The destination rectangle corners `[[0,0],[dw,0],[dw,dh],[0,dh]]` used
by `processImage` (scannerHtml.ts line 227). -/
def dstRect (dw dh : ℚ) : Fin 4 → ℚ × ℚ :=
  ![(0, 0), (dw, 0), (dw, dh), (0, dh)]

/-! ### 3×3 inversion (`invert3x3`, scannerHtml.ts 65-75) -/

/-- Determinant computed by `invert3x3` (scannerHtml.ts line 67) on a
row-major 9-entry matrix. -/
def det3 (m : Fin 9 → ℚ) : ℚ :=
  m 0 * (m 4 * m 8 - m 5 * m 7) - m 1 * (m 3 * m 8 - m 5 * m 6)
    + m 2 * (m 3 * m 7 - m 4 * m 6)

/-- `invert3x3(m)` of scannerHtml.ts lines 65-75: adjugate over determinant,
failing when `|det| < 1e-10`. -/
def invert3x3 (m : Fin 9 → ℚ) : Option (Fin 9 → ℚ) :=
  let det := det3 m
  if |det| < eps then none
  else
    some ![(m 4 * m 8 - m 5 * m 7) / det, (m 2 * m 7 - m 1 * m 8) / det,
           (m 1 * m 5 - m 2 * m 4) / det,
           (m 5 * m 6 - m 3 * m 8) / det, (m 0 * m 8 - m 2 * m 6) / det,
           (m 2 * m 3 - m 0 * m 5) / det,
           (m 3 * m 7 - m 4 * m 6) / det, (m 1 * m 6 - m 0 * m 7) / det,
           (m 0 * m 4 - m 1 * m 3) / det]

/-- Row-major product of two 3×3 matrices stored as 9-entry vectors. -/
def mat3mul (a b : Fin 9 → ℚ) : Fin 9 → ℚ :=
  ![a 0 * b 0 + a 1 * b 3 + a 2 * b 6,
    a 0 * b 1 + a 1 * b 4 + a 2 * b 7,
    a 0 * b 2 + a 1 * b 5 + a 2 * b 8,
    a 3 * b 0 + a 4 * b 3 + a 5 * b 6,
    a 3 * b 1 + a 4 * b 4 + a 5 * b 7,
    a 3 * b 2 + a 4 * b 5 + a 5 * b 8,
    a 6 * b 0 + a 7 * b 3 + a 8 * b 6,
    a 6 * b 1 + a 7 * b 4 + a 8 * b 7,
    a 6 * b 2 + a 7 * b 5 + a 8 * b 8]

/-- The 3×3 identity matrix stored row-major. -/
def idMat3 : Fin 9 → ℚ := ![1, 0, 0, 0, 1, 0, 0, 0, 1]

/-! ### Bilinear sampling and perspective warp (scannerHtml.ts 82-117) -/

/-- Round half to even on rationals, the rounding mode the
`Uint8ClampedArray` store applies to fractional values. -/
def roundEven (q : ℚ) : ℤ :=
  if q - ⌊q⌋ < 1 / 2 then ⌊q⌋
  else if 1 / 2 < q - ⌊q⌋ then ⌊q⌋ + 1
  else if ⌊q⌋ % 2 = 0 then ⌊q⌋ else ⌊q⌋ + 1

/-- The conversion a `Uint8ClampedArray` store performs: clamp to
`[0, 255]` and round ties to even. -/
def u8store (q : ℚ) : ℚ :=
  if q ≤ 0 then 0 else if 255 ≤ q then 255 else (roundEven q : ℚ)

/-- The four buffer offsets `idx00, idx10, idx01, idx11` computed by
`bilinear` (scannerHtml.ts lines 83-88): floor the sample position, clamp
`x1,y1` to the last valid column/row, clamp `x0,y0` to zero. -/
def bilinearIdx (sw sh : ℕ) (x y : ℚ) : ℤ × ℤ × ℤ × ℤ :=
  let x0 : ℤ := ⌊x⌋
  let y0 : ℤ := ⌊y⌋
  let x1 : ℤ := min (x0 + 1) ((sw : ℤ) - 1)
  let y1 : ℤ := min (y0 + 1) ((sh : ℤ) - 1)
  let x0' : ℤ := max 0 x0
  let y0' : ℤ := max 0 y0
  ((y0' * sw + x0') * 4, (y0' * sw + x1) * 4,
   (y1 * sw + x0') * 4, (y1 * sw + x1) * 4)

/-- `bilinear(srcData, sw, sh, x, y)` of scannerHtml.ts lines 82-96 for
color channel `c`: the weighted average of the four neighbouring samples
with fractional weights `fx = x - ⌊x⌋`, `fy = y - ⌊y⌋`. -/
def bilinear (src : ℤ → ℚ) (sw sh : ℕ) (x y : ℚ) (c : ℕ) : ℚ :=
  let idx := bilinearIdx sw sh x y
  let fx := x - ⌊x⌋
  let fy := y - ⌊y⌋
  src (idx.1 + c) * (1 - fx) * (1 - fy) + src (idx.2.1 + c) * fx * (1 - fy)
    + src (idx.2.2.1 + c) * (1 - fx) * fy + src (idx.2.2.2 + c) * fx * fy

/-- The inverse-mapped source position of destination pixel `(dx, dy)`
computed by `warp` (scannerHtml.ts lines 103-105): homogeneous coordinates
through `H_inv`, normalised by `w`. -/
def warpMap (Hinv : Fin 9 → ℚ) (dx dy : ℕ) : ℚ × ℚ :=
  let w := Hinv 6 * dx + Hinv 7 * dy + Hinv 8
  ((Hinv 0 * dx + Hinv 1 * dy + Hinv 2) / w,
   (Hinv 3 * dx + Hinv 4 * dy + Hinv 5) / w)

/-- Channel `ch` of destination pixel `(dx, dy)` produced by `warp`
(scannerHtml.ts lines 99-117): alpha is always 255; colour channels are the
stored bilinear sample when the mapped position is inside the source
bounds, and keep the zero-initialised background value otherwise. -/
def warpPixel (src : ℤ → ℚ) (sw sh : ℕ) (Hinv : Fin 9 → ℚ)
    (dx dy : ℕ) (ch : Fin 4) : ℚ :=
  let p := warpMap Hinv dx dy
  if ch = 3 then 255
  else if 0 ≤ p.1 ∧ p.1 < (sw : ℚ) ∧ 0 ≤ p.2 ∧ p.2 < (sh : ℚ) then
    u8store (bilinear src sw sh p.1 p.2 ch)
  else 0

/-- The identity inverse homography `[1,0,0,0,1,0,0,0,1]`. -/
def idH : Fin 9 → ℚ := ![1, 0, 0, 0, 1, 0, 0, 0, 1]

/-- A buffer whose entries are 8-bit values: each entry is a natural number
at most 255. -/
def Pix8 (src : ℤ → ℚ) : Prop := ∀ i : ℤ, ∃ k : ℕ, k ≤ 255 ∧ src i = k

/-! ### Adaptive threshold (`adaptiveThreshold`, scannerHtml.ts 120-143) -/

/-- Running row sum `Σ_{x'≤x} gray[y*w+x']` accumulated by the integral
pass of `adaptiveThreshold` (scannerHtml.ts lines 122-128). -/
def rowSum (g : ℕ → ℚ) (w y : ℕ) : ℕ → ℚ
  | 0 => g (y * w)
  | x + 1 => rowSum g w y x + g (y * w + (x + 1))

/-- The summed-area table of `adaptiveThreshold`: `integralTbl g w i j`
models `integral[i*(w+1)+j]`; the zero row and column stay at their
`Float64Array` initial value 0, and
`integral[(y+1)*(w+1)+(x+1)] = integral[y*(w+1)+(x+1)] + rowSum`. -/
def integralTbl (g : ℕ → ℚ) (w : ℕ) : ℕ → ℕ → ℚ
  | 0, _ => 0
  | _ + 1, 0 => 0
  | y + 1, x + 1 => integralTbl g w y (x + 1) + rowSum g w y x

/-- `adaptiveThreshold(gray, w, h, blockSize, C)` of scannerHtml.ts lines
120-143, at output pixel `(x, y)`: the window `[x1,x2]×[y1,y2]` is the
`blockSize`-centred square clipped to the image, its mean is obtained from
four integral-table lookups, and the pixel is 0 exactly when
`gray[y*w+x] < mean - C`, else 255. -/
def adaptiveThreshold (g : ℕ → ℚ) (w h blockSize : ℕ) (C : ℚ)
    (x y : ℕ) : ℚ :=
  let half := blockSize / 2
  let x1 := x - half
  let y1 := y - half
  let x2 := min (w - 1) (x + half)
  let y2 := min (h - 1) (y + half)
  let area : ℕ := (x2 - x1 + 1) * (y2 - y1 + 1)
  let sum := integralTbl g w (y2 + 1) (x2 + 1) - integralTbl g w y1 (x2 + 1)
    - integralTbl g w (y2 + 1) x1 + integralTbl g w y1 x1
  let mean := sum / (area : ℚ)
  if g (y * w + x) < mean - C then 0 else 255

/-- The mean of `g` over the centred square window of size `blockSize`
around `(x, y)`, clipped to the `w × h` image bounds, with the area divisor
adjusted to the clipped window — the specification's description of the
local mean. -/
def windowMean (g : ℕ → ℚ) (w h blockSize : ℕ) (x y : ℕ) : ℚ :=
  let half := blockSize / 2
  let x1 := x - half
  let y1 := y - half
  let x2 := min (w - 1) (x + half)
  let y2 := min (h - 1) (y + half)
  (∑ y' ∈ Finset.Icc y1 y2, ∑ x' ∈ Finset.Icc x1 x2, g (y' * w + x'))
    / (((x2 - x1 + 1) * (y2 - y1 + 1) : ℕ) : ℚ)

/-! ### Enhancement pixel maps (scannerHtml.ts 165-194) -/

/-- The per-pixel mapping of `enhanceGray` (scannerHtml.ts lines 170-175)
for percentile values `lo` and `hi`:
`range = hi - lo || 1`, `v = Math.round(((g - lo)/range)*255)` clamped to
`[0, 255]`. -/
def enhanceGrayPixel (lo hi g : ℚ) : ℚ :=
  let range := if hi - lo = 0 then 1 else hi - lo
  let v : ℤ := jsRoundQ ((g - lo) / range * 255)
  if v < 0 then 0 else if 255 < v then 255 else (v : ℚ)

/-- The per-pixel, per-channel mapping of `enhanceColor` (scannerHtml.ts
lines 186-192): percentile remap with clamping followed by the gamma-0.85
step `Math.round(Math.pow(v/255, 0.85)*255)`. -/
noncomputable def enhanceColorPixel (lo hi g : ℝ) : ℤ :=
  let range := if hi - lo = 0 then 1 else hi - lo
  let v := (g - lo) / range * 255
  let v2 := if v < 0 then 0 else if 255 < v then 255 else v
  jsRound ((v2 / 255) ^ (0.85 : ℝ) * 255)

/-! ### Destination geometry of `processImage` (scannerHtml.ts 209-227) -/

/-- `dist(p1, p2)` of scannerHtml.ts lines 77-79: Euclidean distance. -/
noncomputable def jsDist (p q : ℝ × ℝ) : ℝ :=
  Real.sqrt ((p.1 - q.1) * (p.1 - q.1) + (p.2 - q.2) * (p.2 - q.2))

/-- Conversion of a normalised corner to absolute pixel coordinates
(scannerHtml.ts lines 209-212): `[c.x*sw, c.y*sh]`. -/
def toAbs (c : ℝ × ℝ) (sw sh : ℝ) : ℝ × ℝ := (c.1 * sw, c.2 * sh)

/-- The pre-cap destination size of `processImage` (scannerHtml.ts lines
214-217): rounded maxima of opposite edge lengths, floored at 100. -/
noncomputable def preSize (tl tr br bl : ℝ × ℝ) : ℤ × ℤ :=
  (max (jsRound (max (jsDist tl tr) (jsDist bl br))) 100,
   max (jsRound (max (jsDist tl bl) (jsDist tr br))) 100)

/-- The destination size of `processImage` (scannerHtml.ts lines 214-224):
the pre-cap size, uniformly downscaled when either dimension exceeds 3000
(`scale = 3000 / Math.max(dw, dh)`). -/
noncomputable def destSize (tl tr br bl : ℝ × ℝ) : ℤ × ℤ :=
  let p := preSize tl tr br bl
  if 3000 < p.1 ∨ 3000 < p.2 then
    let scale : ℝ := 3000 / ((max p.1 p.2 : ℤ) : ℝ)
    (jsRound ((p.1 : ℝ) * scale), jsRound ((p.2 : ℝ) * scale))
  else p

/-- Destination size computed by `processImage` from normalised corners and
the source dimensions. -/
noncomputable def processDestSize (tl tr br bl : ℝ × ℝ) (sw sh : ℝ) :
    ℤ × ℤ :=
  destSize (toAbs tl sw sh) (toAbs tr sw sh) (toAbs br sw sh)
    (toAbs bl sw sh)

/-! ### Claim theorems -/

/-- Concrete corner set used in the C2 witness: the axis-aligned square
(0,0),(4,0),(4,4),(0,4), used as both source and destination. -/
def hwPts : Fin 4 → ℚ × ℚ := ![(0, 0), (4, 0), (4, 4), (0, 4)]

/-- Elimination state 0 of the C2 witness computation. -/
def hwW0 : Fin 8 → Fin 9 → ℚ := ![![0, 0, 1, 0, 0, 0, 0, 0, 0], ![0, 0, 0, 0, 0, 1, 0, 0, 0], ![4, 0, 1, 0, 0, 0, -16, 0, 4], ![0, 0, 0, 4, 0, 1, 0, 0, 0], ![4, 4, 1, 0, 0, 0, -16, -16, 4], ![0, 0, 0, 4, 4, 1, -16, -16, 4], ![0, 4, 1, 0, 0, 0, 0, 0, 0], ![0, 0, 0, 0, 4, 1, 0, -16, 4]]

/-- Elimination state 1 of the C2 witness computation. -/
def hwW1 : Fin 8 → Fin 9 → ℚ := ![![4, 0, 1, 0, 0, 0, -16, 0, 4], ![0, 0, 0, 0, 0, 1, 0, 0, 0], ![0, 0, 1, 0, 0, 0, 0, 0, 0], ![0, 0, 0, 4, 0, 1, 0, 0, 0], ![0, 4, 0, 0, 0, 0, 0, -16, 0], ![0, 0, 0, 4, 4, 1, -16, -16, 4], ![0, 4, 1, 0, 0, 0, 0, 0, 0], ![0, 0, 0, 0, 4, 1, 0, -16, 4]]

/-- Elimination state 2 of the C2 witness computation. -/
def hwW2 : Fin 8 → Fin 9 → ℚ := ![![4, 0, 1, 0, 0, 0, -16, 0, 4], ![0, 4, 0, 0, 0, 0, 0, -16, 0], ![0, 0, 1, 0, 0, 0, 0, 0, 0], ![0, 0, 0, 4, 0, 1, 0, 0, 0], ![0, 0, 0, 0, 0, 1, 0, 0, 0], ![0, 0, 0, 4, 4, 1, -16, -16, 4], ![0, 0, 1, 0, 0, 0, 0, 16, 0], ![0, 0, 0, 0, 4, 1, 0, -16, 4]]

/-- Elimination state 3 of the C2 witness computation. -/
def hwW3 : Fin 8 → Fin 9 → ℚ := ![![4, 0, 1, 0, 0, 0, -16, 0, 4], ![0, 4, 0, 0, 0, 0, 0, -16, 0], ![0, 0, 1, 0, 0, 0, 0, 0, 0], ![0, 0, 0, 4, 0, 1, 0, 0, 0], ![0, 0, 0, 0, 0, 1, 0, 0, 0], ![0, 0, 0, 4, 4, 1, -16, -16, 4], ![0, 0, 0, 0, 0, 0, 0, 16, 0], ![0, 0, 0, 0, 4, 1, 0, -16, 4]]

/-- Elimination state 4 of the C2 witness computation. -/
def hwW4 : Fin 8 → Fin 9 → ℚ := ![![4, 0, 1, 0, 0, 0, -16, 0, 4], ![0, 4, 0, 0, 0, 0, 0, -16, 0], ![0, 0, 1, 0, 0, 0, 0, 0, 0], ![0, 0, 0, 4, 0, 1, 0, 0, 0], ![0, 0, 0, 0, 0, 1, 0, 0, 0], ![0, 0, 0, 0, 4, 0, -16, -16, 4], ![0, 0, 0, 0, 0, 0, 0, 16, 0], ![0, 0, 0, 0, 4, 1, 0, -16, 4]]

/-- Elimination state 5 of the C2 witness computation. -/
def hwW5 : Fin 8 → Fin 9 → ℚ := ![![4, 0, 1, 0, 0, 0, -16, 0, 4], ![0, 4, 0, 0, 0, 0, 0, -16, 0], ![0, 0, 1, 0, 0, 0, 0, 0, 0], ![0, 0, 0, 4, 0, 1, 0, 0, 0], ![0, 0, 0, 0, 4, 0, -16, -16, 4], ![0, 0, 0, 0, 0, 1, 0, 0, 0], ![0, 0, 0, 0, 0, 0, 0, 16, 0], ![0, 0, 0, 0, 0, 1, 16, 0, 0]]

/-- Elimination state 6 of the C2 witness computation. -/
def hwW6 : Fin 8 → Fin 9 → ℚ := ![![4, 0, 1, 0, 0, 0, -16, 0, 4], ![0, 4, 0, 0, 0, 0, 0, -16, 0], ![0, 0, 1, 0, 0, 0, 0, 0, 0], ![0, 0, 0, 4, 0, 1, 0, 0, 0], ![0, 0, 0, 0, 4, 0, -16, -16, 4], ![0, 0, 0, 0, 0, 1, 0, 0, 0], ![0, 0, 0, 0, 0, 0, 0, 16, 0], ![0, 0, 0, 0, 0, 0, 16, 0, 0]]

/-- Elimination state 7 of the C2 witness computation. -/
def hwW7 : Fin 8 → Fin 9 → ℚ := ![![4, 0, 1, 0, 0, 0, -16, 0, 4], ![0, 4, 0, 0, 0, 0, 0, -16, 0], ![0, 0, 1, 0, 0, 0, 0, 0, 0], ![0, 0, 0, 4, 0, 1, 0, 0, 0], ![0, 0, 0, 0, 4, 0, -16, -16, 4], ![0, 0, 0, 0, 0, 1, 0, 0, 0], ![0, 0, 0, 0, 0, 0, 16, 0, 0], ![0, 0, 0, 0, 0, 0, 0, 16, 0]]

/-- Elimination state 8 of the C2 witness computation. -/
def hwW8 : Fin 8 → Fin 9 → ℚ := ![![4, 0, 1, 0, 0, 0, -16, 0, 4], ![0, 4, 0, 0, 0, 0, 0, -16, 0], ![0, 0, 1, 0, 0, 0, 0, 0, 0], ![0, 0, 0, 4, 0, 1, 0, 0, 0], ![0, 0, 0, 0, 4, 0, -16, -16, 4], ![0, 0, 0, 0, 0, 1, 0, 0, 0], ![0, 0, 0, 0, 0, 0, 16, 0, 0], ![0, 0, 0, 0, 0, 0, 0, 16, 0]]

/-- Solution of the witness DLT system. -/
def hwX : Fin 8 → ℚ := ![1, 0, 0, 0, 1, 0, 0, 0]

/-- The witness homography (the identity). -/
def hwH : Fin 9 → ℚ := ![1, 0, 0, 0, 1, 0, 0, 0, 1]


lemma tri_apply {n : ℕ} {col : ℕ} {M : Fin n → Fin (n + 1) → ℚ}
    (hT : Tri col M) (r : Fin n) (c : Fin (n + 1)) (hc : (c : ℕ) < col)
    (hcol : col ≤ n) (hcr : (c : ℕ) < (r : ℕ)) : M r c = 0 := by
  have hcn : (c : ℕ) < n := lt_of_lt_of_le hc hcol
  have : c = Fin.castSucc ⟨(c : ℕ), hcn⟩ := by
    apply Fin.ext
    simp
  rw [this]
  exact hT r ⟨(c : ℕ), hcn⟩ hc hcr

lemma pivotFold_ge {n : ℕ} (M : Fin n → Fin (n + 1) → ℚ) (col : Fin n) :
    ∀ (L : List (Fin n)) (best : Fin n), col ≤ best → (∀ r ∈ L, col ≤ r) →
      col ≤ pivotFold M col L best := by
  intro L
  induction L with
  | nil => intro best hb _; exact hb
  | cons r rs ih =>
    intro best hb hL
    simp only [pivotFold]
    apply ih
    · by_cases h : |M r col.castSucc| > |M best col.castSucc|
      · simpa [h] using hL r (by simp)
      · simpa [h] using hb
    · intro r' hr'
      exact hL r' (by simp [hr'])

lemma pivotRow_ge {n : ℕ} (M : Fin n → Fin (n + 1) → ℚ) (col : Fin n) :
    col ≤ pivotRow M col := by
  apply pivotFold_ge
  · exact le_refl col
  · intro r hr
    have : col < r := by
      have h2 := (List.mem_filter.mp hr).2
      exact of_decide_eq_true h2
    exact le_of_lt this

lemma eps_pos : 0 < eps := by norm_num [eps]

lemma satA_swap_iff {n : ℕ} (M : Fin n → Fin (n + 1) → ℚ) (i j : Fin n)
    (x : Fin n → ℚ) :
    (∀ r, SatA (swapRows M i j) x r) ↔ ∀ r, SatA M x r := by
  constructor
  · intro h r
    have := h ((Equiv.swap i j).symm r)
    simpa [SatA, swapRows] using this
  · intro h r
    exact h (Equiv.swap i j r)

lemma sat0_swap_iff {n : ℕ} (M : Fin n → Fin (n + 1) → ℚ) (i j : Fin n)
    (x : Fin n → ℚ) :
    (∀ r, Sat0 (swapRows M i j) x r) ↔ ∀ r, Sat0 M x r := by
  constructor
  · intro h r
    have := h ((Equiv.swap i j).symm r)
    simpa [Sat0, swapRows] using this
  · intro h r
    exact h (Equiv.swap i j r)

lemma reduce_row_lin {n : ℕ} (M : Fin n → Fin (n + 1) → ℚ) (col : Fin n)
    (hz : ∀ c : Fin (n + 1), (c : ℕ) < (col : ℕ) → M col c = 0)
    (r : Fin n) (hr : col < r) (c : Fin (n + 1)) :
    reduceStep M col r c
      = M r c - M r col.castSucc / M col col.castSucc * M col c := by
  unfold reduceStep
  by_cases hc : (col : ℕ) ≤ (c : ℕ)
  · simp [hr, hc]
  · have h0 : M col c = 0 := hz c (by omega)
    simp [hr, hc, h0]

lemma reduce_row_high {n : ℕ} (M : Fin n → Fin (n + 1) → ℚ) (col : Fin n)
    (r : Fin n) (hr : ¬ col < r) (c : Fin (n + 1)) :
    reduceStep M col r c = M r c := by
  unfold reduceStep
  simp [hr]

lemma dot_sub {n : ℕ} (u v : Fin (n + 1) → ℚ) (f : ℚ) (x : Fin n → ℚ) :
    ∑ j : Fin n, (u (Fin.castSucc j) - f * v (Fin.castSucc j)) * x j
      = ∑ j : Fin n, u (Fin.castSucc j) * x j
          - f * ∑ j : Fin n, v (Fin.castSucc j) * x j := by
  rw [Finset.mul_sum, ← Finset.sum_sub_distrib]
  apply Finset.sum_congr rfl
  intro j _
  ring

lemma satA_reduce_iff {n : ℕ} (M : Fin n → Fin (n + 1) → ℚ) (col : Fin n)
    (hz : ∀ c : Fin (n + 1), (c : ℕ) < (col : ℕ) → M col c = 0)
    (x : Fin n → ℚ) :
    (∀ r, SatA (reduceStep M col) x r) ↔ ∀ r, SatA M x r := by
  have hcol : ∀ (h : ∀ r, SatA (reduceStep M col) x r) , SatA M x col := by
    intro h
    have := h col
    unfold SatA at this ⊢
    simpa [reduce_row_high M col col (lt_irrefl col)] using this
  constructor
  · intro h r
    by_cases hr : col < r
    · have hrr := h r
      unfold SatA at hrr ⊢
      have hexp : ∀ c : Fin (n + 1), reduceStep M col r c
          = M r c - M r col.castSucc / M col col.castSucc * M col c :=
        reduce_row_lin M col hz r hr
      simp only [hexp] at hrr
      rw [dot_sub] at hrr
      have hc := hcol h
      unfold SatA at hc
      rw [hc] at hrr
      linarith [hrr]
    · have hrr := h r
      unfold SatA at hrr ⊢
      simpa [reduce_row_high M col r hr] using hrr
  · intro h r
    by_cases hr : col < r
    · unfold SatA
      have hexp : ∀ c : Fin (n + 1), reduceStep M col r c
          = M r c - M r col.castSucc / M col col.castSucc * M col c :=
        reduce_row_lin M col hz r hr
      simp only [hexp]
      rw [dot_sub]
      have h1 := h r
      have h2 := h col
      unfold SatA at h1 h2
      rw [h1, h2]
    · unfold SatA
      simpa [reduce_row_high M col r hr] using h r

lemma sat0_reduce_iff {n : ℕ} (M : Fin n → Fin (n + 1) → ℚ) (col : Fin n)
    (hz : ∀ c : Fin (n + 1), (c : ℕ) < (col : ℕ) → M col c = 0)
    (x : Fin n → ℚ) :
    (∀ r, Sat0 (reduceStep M col) x r) ↔ ∀ r, Sat0 M x r := by
  have hcol : ∀ (h : ∀ r, Sat0 (reduceStep M col) x r) , Sat0 M x col := by
    intro h
    have := h col
    unfold Sat0 at this ⊢
    simpa [reduce_row_high M col col (lt_irrefl col)] using this
  constructor
  · intro h r
    by_cases hr : col < r
    · have hrr := h r
      unfold Sat0 at hrr ⊢
      have hexp : ∀ c : Fin (n + 1), reduceStep M col r c
          = M r c - M r col.castSucc / M col col.castSucc * M col c :=
        reduce_row_lin M col hz r hr
      simp only [hexp] at hrr
      rw [dot_sub] at hrr
      have hc := hcol h
      unfold Sat0 at hc
      rw [hc] at hrr
      linarith [hrr]
    · have hrr := h r
      unfold Sat0 at hrr ⊢
      simpa [reduce_row_high M col r hr] using hrr
  · intro h r
    by_cases hr : col < r
    · unfold Sat0
      have hexp : ∀ c : Fin (n + 1), reduceStep M col r c
          = M r c - M r col.castSucc / M col col.castSucc * M col c :=
        reduce_row_lin M col hz r hr
      simp only [hexp]
      rw [dot_sub]
      have h1 := h r
      have h2 := h col
      unfold Sat0 at h1 h2
      rw [h1, h2]
      ring
    · unfold Sat0
      simpa [reduce_row_high M col r hr] using h r

lemma tri_swap {n : ℕ} {col : ℕ} {M : Fin n → Fin (n + 1) → ℚ}
    {i j : Fin n} (hi : col ≤ (i : ℕ)) (hj : col ≤ (j : ℕ))
    (hT : Tri col M) : Tri col (swapRows M i j) := by
  intro r c hc hcr
  unfold swapRows
  apply hT _ _ hc
  rw [Fin.lt_def]
  rw [Fin.lt_def] at hcr
  by_cases h1 : r = i
  · subst h1
    rw [Equiv.swap_apply_left]
    omega
  · by_cases h2 : r = j
    · subst h2
      rw [Equiv.swap_apply_right]
      omega
    · rw [Equiv.swap_apply_of_ne_of_ne h1 h2]
      omega

lemma elimStep_props {n : ℕ} {col : Fin n} {M M' : Fin n → Fin (n + 1) → ℚ}
    (hT : Tri (col : ℕ) M) (hstep : elimStep M col = some M') :
    Tri ((col : ℕ) + 1) M' ∧
    (DiagBig (col : ℕ) M → DiagBig ((col : ℕ) + 1) M') ∧
    (∀ x, ((∀ r, SatA M' x r) ↔ ∀ r, SatA M x r) ∧
          ((∀ r, Sat0 M' x r) ↔ ∀ r, Sat0 M x r)) := by
  unfold elimStep at hstep
  set p := pivotRow M col with hp
  set M1 := swapRows M col p with hM1
  by_cases hpiv : |M1 col col.castSucc| < eps
  · simp [hpiv] at hstep
  · simp only [if_neg hpiv] at hstep
    have hM' : M' = reduceStep M1 col := by
      exact (Option.some.injEq _ _).mp hstep.symm |>.symm ▸ rfl
    have hpge : (col : ℕ) ≤ (p : ℕ) := pivotRow_ge M col
    have hT1 : Tri (col : ℕ) M1 := tri_swap (le_refl _) hpge hT
    have hz : ∀ c : Fin (n + 1), (c : ℕ) < (col : ℕ) → M1 col c = 0 := by
      intro c hc
      exact tri_apply hT1 col c hc (le_of_lt col.isLt) hc
    have hdiag_ne : M1 col col.castSucc ≠ 0 := by
      intro h0
      apply hpiv
      rw [h0]
      simpa using eps_pos
    have hTri' : Tri ((col : ℕ) + 1) M' := by
      rw [hM']
      intro r c hc hcr
      by_cases hcc : (c : ℕ) < (col : ℕ)
      · have hno : ¬ ((col : ℕ) ≤ ((Fin.castSucc c : Fin (n + 1)) : ℕ)) := by
          simpa using by omega
        unfold reduceStep
        rw [if_neg (by
          intro hand
          exact hno hand.2)]
        exact hT1 r c hcc hcr
      · have hceq : (c : ℕ) = (col : ℕ) := by omega
        have hcr' : col < r := by
          have : (col : ℕ) < (r : ℕ) := by
            have := hcr
            rw [Fin.lt_def] at this
            omega
          rwa [Fin.lt_def]
        have hccast : Fin.castSucc c = Fin.castSucc col := by
          apply Fin.ext
          simpa using hceq
        unfold reduceStep
        rw [if_pos ⟨hcr', by simp [hccast]⟩]
        rw [hccast]
        field_simp
    refine ⟨hTri', ?_, ?_⟩
    · intro hD
      rw [hM']
      intro i hi
      by_cases hic : (i : ℕ) < (col : ℕ)
      · have hir : ¬ col < i := by
          rw [Fin.lt_def]
          omega
        rw [reduce_row_high M1 col i hir]
        have hswap_id : M1 i = M i := by
          rw [hM1]
          unfold swapRows
          have h1 : i ≠ col := by
            intro h
            rw [h] at hic
            omega
          have h2 : i ≠ p := by
            intro h
            rw [h] at hic
            omega
          simp [Equiv.swap_apply_of_ne_of_ne h1 h2]
        rw [hswap_id]
        exact hD i hic
      · have hieq : (i : ℕ) = (col : ℕ) := by omega
        have hie : i = col := Fin.ext hieq
        rw [hie, reduce_row_high M1 col col (lt_irrefl col)]
        exact le_of_not_lt hpiv
    · intro x
      constructor
      · rw [hM']
        rw [satA_reduce_iff M1 col hz x, hM1, satA_swap_iff]
      · rw [hM']
        rw [sat0_reduce_iff M1 col hz x, hM1, sat0_swap_iff]

lemma tri_mono {n : ℕ} {c1 c2 : ℕ} {M : Fin n → Fin (n + 1) → ℚ}
    (h : c2 ≤ c1) (hT : Tri c1 M) : Tri c2 M := by
  intro r c hc hcr
  exact hT r c (lt_of_lt_of_le hc h) hcr

lemma forwardElim_props {n : ℕ} :
    ∀ (fuel col : ℕ) (M U : Fin n → Fin (n + 1) → ℚ), n ≤ fuel + col →
      Tri col M → DiagBig col M → forwardElim n fuel col M = some U →
      Tri n U ∧ DiagBig n U ∧
        ∀ x, ((∀ r, SatA U x r) ↔ ∀ r, SatA M x r) ∧
             ((∀ r, Sat0 U x r) ↔ ∀ r, Sat0 M x r) := by
  intro fuel
  induction fuel with
  | zero =>
    intro col M U hn hT hD hF
    have hMU : M = U := by
      simpa [forwardElim] using hF
    subst hMU
    refine ⟨tri_mono (by omega) hT, ?_, ?_⟩
    · intro i _
      exact hD i (by omega)
    · intro x
      exact ⟨Iff.rfl, Iff.rfl⟩
  | succ fuel ih =>
    intro col M U hn hT hD hF
    by_cases hcol : col < n
    · rw [forwardElim, dif_pos hcol] at hF
      set cf : Fin n := ⟨col, hcol⟩ with hcf
      cases hstep : elimStep M cf with
      | none => rw [hstep] at hF; exact absurd hF (by simp)
      | some M1 =>
        rw [hstep] at hF
        have hprops := @elimStep_props n cf M M1 hT hstep
        have hT1 : Tri (col + 1) M1 := hprops.1
        have hD1 : DiagBig (col + 1) M1 := hprops.2.1 hD
        have hrec := ih (col + 1) M1 U (by omega) hT1 hD1 hF
        refine ⟨hrec.1, hrec.2.1, ?_⟩
        intro x
        constructor
        · rw [(hrec.2.2 x).1, (hprops.2.2 x).1]
        · rw [(hrec.2.2 x).2, (hprops.2.2 x).2]
    · rw [forwardElim, dif_neg hcol] at hF
      have hMU : M = U := by simpa using hF
      subst hMU
      refine ⟨tri_mono (by omega) hT, ?_, ?_⟩
      · intro i _
        exact hD i (by omega)
      · intro x
        exact ⟨Iff.rfl, Iff.rfl⟩

lemma forwardElim_none_iff {n : ℕ} :
    ∀ (fuel col : ℕ) (M : Fin n → Fin (n + 1) → ℚ),
      forwardElim n fuel col M = none ↔ hitsSmallPivot n fuel col M := by
  intro fuel
  induction fuel with
  | zero =>
    intro col M
    simp [forwardElim, hitsSmallPivot]
  | succ fuel ih =>
    intro col M
    by_cases hcol : col < n
    · rw [forwardElim, hitsSmallPivot, dif_pos hcol, dif_pos hcol]
      by_cases hpiv :
          |swapRows M ⟨col, hcol⟩ (pivotRow M ⟨col, hcol⟩) ⟨col, hcol⟩
            (Fin.castSucc ⟨col, hcol⟩)| < eps
      · have hstep : elimStep M ⟨col, hcol⟩ = none := by
          unfold elimStep
          rw [if_pos hpiv]
        rw [hstep]
        simp only [true_iff]
        left
        have : swapRows M ⟨col, hcol⟩ (pivotRow M ⟨col, hcol⟩) ⟨col, hcol⟩
            (Fin.castSucc ⟨col, hcol⟩)
            = M (pivotRow M ⟨col, hcol⟩) (Fin.castSucc ⟨col, hcol⟩) := by
          unfold swapRows
          rw [Equiv.swap_apply_left]
        rw [← this]
        exact hpiv
      · have hstep : elimStep M ⟨col, hcol⟩
            = some (reduceStep (swapRows M ⟨col, hcol⟩ (pivotRow M ⟨col, hcol⟩))
                ⟨col, hcol⟩) := by
          unfold elimStep
          rw [if_neg hpiv]
        rw [hstep]
        rw [ih]
        have hps : ¬ |M (pivotRow M ⟨col, hcol⟩) (Fin.castSucc ⟨col, hcol⟩)| < eps := by
          have : swapRows M ⟨col, hcol⟩ (pivotRow M ⟨col, hcol⟩) ⟨col, hcol⟩
              (Fin.castSucc ⟨col, hcol⟩)
              = M (pivotRow M ⟨col, hcol⟩) (Fin.castSucc ⟨col, hcol⟩) := by
            unfold swapRows
            rw [Equiv.swap_apply_left]
          rwa [this] at hpiv
        constructor
        · intro h
          exact Or.inr h
        · intro h
          rcases h with h | h
          · exact absurd h hps
          · exact h
    · rw [forwardElim, hitsSmallPivot, dif_neg hcol, dif_neg hcol]
      simp

lemma backSubAux_congr {n : ℕ} (M : Fin n → Fin (n + 1) → ℚ) :
    ∀ (fuel1 fuel2 : ℕ) (i : Fin n), n - (i : ℕ) ≤ fuel1 → n - (i : ℕ) ≤ fuel2 →
      backSubAux M fuel1 i = backSubAux M fuel2 i := by
  intro fuel1
  induction fuel1 with
  | zero =>
    intro fuel2 i h1 _
    have := i.isLt
    omega
  | succ f1 ih =>
    intro fuel2 i h1 h2
    have hi := i.isLt
    cases fuel2 with
    | zero => omega
    | succ f2 =>
      simp only [backSubAux]
      congr 2
      apply Finset.sum_congr rfl
      intro j hj
      have hij : i < j := (Finset.mem_filter.mp hj).2
      have hij' : (i : ℕ) < (j : ℕ) := hij
      have hjn := j.isLt
      rw [ih f2 j (by omega) (by omega)]

lemma backSub_eq {n : ℕ} (M : Fin n → Fin (n + 1) → ℚ) (i : Fin n) :
    backSub M i
      = (M i (Fin.last n)
          - ∑ j ∈ Finset.univ.filter (fun j => i < j),
              M i (Fin.castSucc j) * backSub M j)
        / M i (Fin.castSucc i) := by
  have hi := i.isLt
  obtain ⟨k, hk⟩ : ∃ k, n - (i : ℕ) = k + 1 := ⟨n - (i : ℕ) - 1, by omega⟩
  unfold backSub
  rw [hk]
  simp only [backSubAux]
  congr 2
  apply Finset.sum_congr rfl
  intro j hj
  have hij : i < j := (Finset.mem_filter.mp hj).2
  have hij' : (i : ℕ) < (j : ℕ) := hij
  have hjn := j.isLt
  rw [backSubAux_congr M k (n - (j : ℕ)) j (by omega) (by omega)]

lemma sum_split_at {n : ℕ} (f : Fin n → ℚ) (r : Fin n)
    (hlow : ∀ j : Fin n, j < r → f j = 0) :
    ∑ j : Fin n, f j = f r + ∑ j ∈ Finset.univ.filter (fun j => r < j), f j := by
  have h1 : ∑ j : Fin n, f j
      = ∑ j ∈ Finset.univ.filter (fun j => r ≤ j), f j := by
    symm
    apply Finset.sum_subset
    · intro j _
      simp
    · intro j _ hj
      apply hlow
      simp only [Finset.mem_filter, Finset.mem_univ, true_and] at hj
      exact lt_of_not_le hj
  have h2 : (Finset.univ.filter (fun j => r ≤ j) : Finset (Fin n))
      = insert r (Finset.univ.filter (fun j => r < j)) := by
    ext j
    simp only [Finset.mem_filter, Finset.mem_univ, true_and, Finset.mem_insert]
    constructor
    · intro h
      rcases eq_or_lt_of_le h with h' | h'
      · exact Or.inl h'.symm
      · exact Or.inr h'
    · intro h
      rcases h with h | h
      · exact le_of_eq h.symm
      · exact le_of_lt h
  rw [h1, h2, Finset.sum_insert (by simp)]

lemma diag_ne_zero {n : ℕ} {U : Fin n → Fin (n + 1) → ℚ}
    (hD : DiagBig n U) (i : Fin n) : U i (Fin.castSucc i) ≠ 0 := by
  intro h0
  have h1 := hD i i.isLt
  rw [h0] at h1
  simp at h1
  have h2 := eps_pos
  linarith

lemma backSub_solves {n : ℕ} {U : Fin n → Fin (n + 1) → ℚ}
    (hT : Tri n U) (hD : DiagBig n U) : ∀ r, SatA U (backSub U) r := by
  intro r
  unfold SatA
  rw [sum_split_at (fun j => U r (Fin.castSucc j) * backSub U j) r
    (fun j hj => by
      show U r (Fin.castSucc j) * backSub U j = 0
      rw [hT r j (j.isLt) hj]
      ring)]
  rw [backSub_eq U r]
  rw [mul_comm (U r (Fin.castSucc r)) _, div_mul_cancel₀ _ (diag_ne_zero hD r)]
  ring

lemma tri_homog_unique {n : ℕ} {U : Fin n → Fin (n + 1) → ℚ}
    (hT : Tri n U) (hD : DiagBig n U) (y : Fin n → ℚ)
    (hy : ∀ r, Sat0 U y r) : ∀ r, y r = 0 := by
  have key : ∀ m : ℕ, ∀ r : Fin n, n - (r : ℕ) ≤ m → y r = 0 := by
    intro m
    induction m with
    | zero =>
      intro r h
      have := r.isLt
      omega
    | succ m ih =>
      intro r _
      have h0 := hy r
      unfold Sat0 at h0
      rw [sum_split_at (fun j => U r (Fin.castSucc j) * y j) r
        (fun j hj => by
          show U r (Fin.castSucc j) * y j = 0
          rw [hT r j (j.isLt) hj]
          ring)] at h0
      have hsum0 : ∑ j ∈ Finset.univ.filter (fun j => r < j),
          U r (Fin.castSucc j) * y j = 0 := by
        apply Finset.sum_eq_zero
        intro j hj
        have hij : r < j := (Finset.mem_filter.mp hj).2
        have hij' : (r : ℕ) < (j : ℕ) := hij
        have hjn := j.isLt
        rw [ih j (by omega)]
        ring
      rw [hsum0, add_zero] at h0
      rcases mul_eq_zero.mp h0 with h | h
      · exact absurd h (diag_ne_zero hD r)
      · exact h
  intro r
  exact key n r (by omega)

lemma augment_castSucc {n : ℕ} (A : Fin n → Fin n → ℚ) (b : Fin n → ℚ)
    (i j : Fin n) : augment A b i (Fin.castSucc j) = A i j := by
  unfold augment
  rw [dif_pos (by simpa using j.isLt)]
  exact congrArg _ (Fin.ext (by simp))

lemma augment_last {n : ℕ} (A : Fin n → Fin n → ℚ) (b : Fin n → ℚ)
    (i : Fin n) : augment A b i (Fin.last n) = b i := by
  unfold augment
  rw [dif_neg (by simp)]

lemma satA_augment_iff {n : ℕ} (A : Fin n → Fin n → ℚ) (b : Fin n → ℚ)
    (x : Fin n → ℚ) (i : Fin n) :
    SatA (augment A b) x i ↔ ∑ j : Fin n, A i j * x j = b i := by
  unfold SatA
  rw [augment_last]
  constructor
  · intro h
    rw [← h]
    apply Finset.sum_congr rfl
    intro j _
    rw [augment_castSucc]
  · intro h
    rw [← h]
    apply Finset.sum_congr rfl
    intro j _
    rw [augment_castSucc]

lemma sat0_augment_iff {n : ℕ} (A : Fin n → Fin n → ℚ) (b : Fin n → ℚ)
    (y : Fin n → ℚ) (i : Fin n) :
    Sat0 (augment A b) y i ↔ ∑ j : Fin n, A i j * y j = 0 := by
  unfold Sat0
  constructor
  · intro h
    rw [← h]
    apply Finset.sum_congr rfl
    intro j _
    rw [augment_castSucc]
  · intro h
    rw [← h]
    apply Finset.sum_congr rfl
    intro j _
    rw [augment_castSucc]

lemma solve_sat {n : ℕ} {A : Fin n → Fin n → ℚ} {b : Fin n → ℚ}
    {x : Fin n → ℚ} (h : solve n A b = some x) :
    ∀ i, ∑ j : Fin n, A i j * x j = b i := by
  unfold solve at h
  cases hF : forwardElim n n 0 (augment A b) with
  | none => rw [hF] at h; exact absurd h (by simp)
  | some U =>
    rw [hF] at h
    have hx : x = backSub U := by
      have := (Option.some.injEq _ _).mp h
      exact this.symm
    have hprops := forwardElim_props n 0 (augment A b) U (by omega)
      (by intro r c hc _; omega)
      (by intro i hi; omega)
      hF
    have hU := backSub_solves hprops.1 hprops.2.1
    rw [← hx] at hU
    have hM0 : ∀ r, SatA (augment A b) x r := ((hprops.2.2 x).1).mp hU
    intro i
    exact (satA_augment_iff A b x i).mp (hM0 i)

lemma solve_kernel {n : ℕ} {A : Fin n → Fin n → ℚ} {b : Fin n → ℚ}
    {x : Fin n → ℚ} (h : solve n A b = some x) :
    ∀ y : Fin n → ℚ, (∀ i, ∑ j : Fin n, A i j * y j = 0) → ∀ i, y i = 0 := by
  unfold solve at h
  cases hF : forwardElim n n 0 (augment A b) with
  | none => rw [hF] at h; exact absurd h (by simp)
  | some U =>
    intro y hy
    have hprops := forwardElim_props n 0 (augment A b) U (by omega)
      (by intro r c hc _; omega)
      (by intro i hi; omega)
      hF
    have h0 : ∀ r, Sat0 (augment A b) y r := by
      intro r
      exact (sat0_augment_iff A b y r).mpr (hy r)
    have hU0 : ∀ r, Sat0 U y r := ((hprops.2.2 y).2).mpr h0
    exact tri_homog_unique hprops.1 hprops.2.1 y hU0

lemma solve_none_iff {n : ℕ} (A : Fin n → Fin n → ℚ) (b : Fin n → ℚ) :
    solve n A b = none ↔ hitsSmallPivot n n 0 (augment A b) := by
  unfold solve
  cases hF : forwardElim n n 0 (augment A b) with
  | none =>
    constructor
    · intro _
      exact (forwardElim_none_iff n 0 (augment A b)).mp hF
    · intro _
      rfl
  | some U =>
    constructor
    · intro h
      exact absurd h (by simp)
    · intro hc
      have := (forwardElim_none_iff n 0 (augment A b)).mpr hc
      rw [hF] at this
      exact absurd this (by simp)

/-! ### Homography estimation (`computeHomography`, scannerHtml.ts 49-62) -/

/-- C4: for every `n×n` matrix `A` and length-`n` vector `b`, `solve`
(Gaussian elimination with partial pivoting) returns failure exactly when
at some column the selected pivot has magnitude below `1e-10`, and
otherwise returns a vector `x` satisfying `A·x = b` in exact arithmetic. -/
theorem solve_gaussian_spec (n : ℕ) (A : Fin n → Fin n → ℚ) (b : Fin n → ℚ) :
    (solve n A b = none ↔ hitsSmallPivot n n 0 (augment A b)) ∧
    ∀ x : Fin n → ℚ, solve n A b = some x →
      ∀ i, ∑ j : Fin n, A i j * x j = b i :=
  ⟨solve_none_iff A b, fun _ hx => solve_sat hx⟩

lemma solve_one_eval : solve 1 ![![2]] ![4] = some ![2] := by
  have hfilter : ((List.finRange 1).filter fun r => (0 : Fin 1) < r) = [] := by
    decide
  have hpivot : pivotRow (augment ![![(2:ℚ)]] ![(4:ℚ)]) 0 = 0 := by
    rw [pivotRow, hfilter]
    rfl
  have hswap : swapRows (augment ![![(2:ℚ)]] ![(4:ℚ)]) 0 0
      = augment ![![(2:ℚ)]] ![(4:ℚ)] := by
    funext r c
    rw [swapRows, Equiv.swap_self]
    rfl
  have hentry : augment ![![(2:ℚ)]] ![(4:ℚ)] 0 (Fin.castSucc 0) = 2 := by
    rw [augment_castSucc]
    rfl
  have hreduce : reduceStep (augment ![![(2:ℚ)]] ![(4:ℚ)]) 0
      = augment ![![(2:ℚ)]] ![(4:ℚ)] := by
    funext r c
    unfold reduceStep
    have h1 : ¬ ((0 : Fin 1) < r) := by
      have := r.isLt
      omega
    rw [if_neg (by intro hand; exact h1 hand.1)]
  have hstep : elimStep (augment ![![(2:ℚ)]] ![(4:ℚ)]) 0
      = some (reduceStep (augment ![![(2:ℚ)]] ![(4:ℚ)]) 0) := by
    unfold elimStep
    rw [hpivot, hswap]
    show (if |augment ![![(2:ℚ)]] ![(4:ℚ)] 0 (Fin.castSucc 0)| < eps then none
      else some (reduceStep (augment ![![(2:ℚ)]] ![(4:ℚ)]) 0))
      = some (reduceStep (augment ![![(2:ℚ)]] ![(4:ℚ)]) 0)
    rw [hentry]
    rw [if_neg (by norm_num [eps])]
  have hforward : forwardElim 1 1 0 (augment ![![(2:ℚ)]] ![(4:ℚ)])
      = some (augment ![![(2:ℚ)]] ![(4:ℚ)]) := by
    rw [forwardElim]
    rw [dif_pos (by norm_num)]
    rw [show (⟨0, by norm_num⟩ : Fin 1) = 0 from rfl]
    rw [hstep, hreduce]
    show forwardElim 1 0 (0 + 1) (augment ![![(2:ℚ)]] ![(4:ℚ)])
      = some (augment ![![(2:ℚ)]] ![(4:ℚ)])
    rfl
  unfold solve
  rw [hforward]
  show some (backSub (augment ![![(2:ℚ)]] ![(4:ℚ)])) = some ![2]
  congr 1
  funext i
  fin_cases i
  rw [show (⟨0, by norm_num⟩ : Fin 1) = 0 from rfl]
  rw [backSub]
  show backSubAux (augment ![![(2:ℚ)]] ![(4:ℚ)]) 1 0 = ![(2:ℚ)] 0
  rw [backSubAux]
  have hempty : (Finset.univ.filter fun j => (0 : Fin 1) < j) = ∅ := by
    decide
  rw [hempty]
  simp only [Finset.sum_empty]
  rw [augment_last]
  rw [hentry]
  norm_num

/-- Witness for C4: on the concrete 1×1 system `2·x = 4`, `solve` succeeds
and the returned solution satisfies the system. -/
theorem solve_gaussian_spec_witness :
    ∑ j : Fin 1, (![![(2:ℚ)]]) 0 j * (![(2:ℚ)]) j = (![(4:ℚ)]) 0 :=
  (solve_gaussian_spec 1 ![![2]] ![4]).2 ![2] solve_one_eval 0

/-- C5: `invert3x3` returns no result exactly when the magnitude of the
determinant is below `1e-10`; otherwise it returns the adjugate divided by
the determinant, and multiplying the input by the returned matrix yields
the 3×3 identity in exact arithmetic. -/
theorem invert3x3_spec (m : Fin 9 → ℚ) :
    (invert3x3 m = none ↔ |det3 m| < eps) ∧
    ∀ v : Fin 9 → ℚ, invert3x3 m = some v → mat3mul m v = idMat3 := by
  constructor
  · by_cases h : |det3 m| < eps
    · simp [invert3x3, h]
    · simp [invert3x3, h]
  · intro v hv
    unfold invert3x3 at hv
    by_cases h : |det3 m| < eps
    · simp [h] at hv
    · simp only [if_neg h] at hv
      have hdet : det3 m ≠ 0 := by
        intro h0
        apply h
        rw [h0]
        simpa using eps_pos
      have hv' : (![(m 4 * m 8 - m 5 * m 7) / det3 m,
          (m 2 * m 7 - m 1 * m 8) / det3 m, (m 1 * m 5 - m 2 * m 4) / det3 m,
          (m 5 * m 6 - m 3 * m 8) / det3 m, (m 0 * m 8 - m 2 * m 6) / det3 m,
          (m 2 * m 3 - m 0 * m 5) / det3 m, (m 3 * m 7 - m 4 * m 6) / det3 m,
          (m 1 * m 6 - m 0 * m 7) / det3 m, (m 0 * m 4 - m 1 * m 3) / det3 m]
          : Fin 9 → ℚ) = v := (Option.some.injEq _ _).mp hv
      have h0 : v 0 = (m 4 * m 8 - m 5 * m 7) / det3 m := by rw [← hv']; rfl
      have h1 : v 1 = (m 2 * m 7 - m 1 * m 8) / det3 m := by rw [← hv']; rfl
      have h2 : v 2 = (m 1 * m 5 - m 2 * m 4) / det3 m := by rw [← hv']; rfl
      have h3 : v 3 = (m 5 * m 6 - m 3 * m 8) / det3 m := by rw [← hv']; rfl
      have h4 : v 4 = (m 0 * m 8 - m 2 * m 6) / det3 m := by rw [← hv']; rfl
      have h5 : v 5 = (m 2 * m 3 - m 0 * m 5) / det3 m := by rw [← hv']; rfl
      have h6 : v 6 = (m 3 * m 7 - m 4 * m 6) / det3 m := by rw [← hv']; rfl
      have h7 : v 7 = (m 1 * m 6 - m 0 * m 7) / det3 m := by rw [← hv']; rfl
      have h8 : v 8 = (m 0 * m 4 - m 1 * m 3) / det3 m := by rw [← hv']; rfl
      funext i
      fin_cases i
      · show m 0 * v 0 + m 1 * v 3 + m 2 * v 6 = 1
        rw [h0, h3, h6]
        field_simp
        unfold det3
        ring
      · show m 0 * v 1 + m 1 * v 4 + m 2 * v 7 = 0
        rw [h1, h4, h7]
        field_simp
        ring
      · show m 0 * v 2 + m 1 * v 5 + m 2 * v 8 = 0
        rw [h2, h5, h8]
        field_simp
        ring
      · show m 3 * v 0 + m 4 * v 3 + m 5 * v 6 = 0
        rw [h0, h3, h6]
        field_simp
        ring
      · show m 3 * v 1 + m 4 * v 4 + m 5 * v 7 = 1
        rw [h1, h4, h7]
        field_simp
        unfold det3
        ring
      · show m 3 * v 2 + m 4 * v 5 + m 5 * v 8 = 0
        rw [h2, h5, h8]
        field_simp
        ring
      · show m 6 * v 0 + m 7 * v 3 + m 8 * v 6 = 0
        rw [h0, h3, h6]
        field_simp
        ring
      · show m 6 * v 1 + m 7 * v 4 + m 8 * v 7 = 0
        rw [h1, h4, h7]
        field_simp
        ring
      · show m 6 * v 2 + m 7 * v 5 + m 8 * v 8 = 1
        rw [h2, h5, h8]
        field_simp
        unfold det3
        ring

lemma invert3x3_id_eval : invert3x3 idMat3 = some idMat3 := by
  have hdet : det3 idMat3 = 1 := by
    show (1:ℚ) * (1 * 1 - 0 * 0) - 0 * (0 * 1 - 0 * 0) + 0 * (0 * 0 - 1 * 0) = 1
    norm_num
  unfold invert3x3
  rw [hdet]
  simp only []
  rw [if_neg (by norm_num [eps])]
  congr 1
  funext i
  fin_cases i
  · exact (by norm_num : ((1:ℚ) * 1 - 0 * 0) / 1 = 1)
  · exact (by norm_num : ((0:ℚ) * 0 - 0 * 1) / 1 = 0)
  · exact (by norm_num : ((0:ℚ) * 0 - 0 * 1) / 1 = 0)
  · exact (by norm_num : ((0:ℚ) * 0 - 0 * 1) / 1 = 0)
  · exact (by norm_num : ((1:ℚ) * 1 - 0 * 0) / 1 = 1)
  · exact (by norm_num : ((0:ℚ) * 0 - 1 * 0) / 1 = 0)
  · exact (by norm_num : ((0:ℚ) * 0 - 1 * 0) / 1 = 0)
  · exact (by norm_num : ((0:ℚ) * 0 - 1 * 0) / 1 = 0)
  · exact (by norm_num : ((1:ℚ) * 1 - 0 * 0) / 1 = 1)

/-- Witness for C5: inverting the identity matrix succeeds, and the product
of the identity with the returned inverse is the identity. -/
theorem invert3x3_spec_witness : mat3mul idMat3 idMat3 = idMat3 :=
  (invert3x3_spec idMat3).2 idMat3 invert3x3_id_eval

lemma u8store_pix (k : ℕ) (hk : k ≤ 255) : u8store (k : ℚ) = (k : ℚ) := by
  unfold u8store
  by_cases h0 : (k : ℚ) ≤ 0
  · have : k = 0 := by exact_mod_cast le_antisymm h0 (by positivity)
    rw [if_pos h0, this]
    norm_num
  · rw [if_neg h0]
    by_cases h255 : (255 : ℚ) ≤ (k : ℚ)
    · have : k = 255 := by
        have : (255 : ℕ) ≤ k := by exact_mod_cast h255
        omega
      rw [if_pos h255, this]
      norm_num
    · rw [if_neg h255]
      unfold roundEven
      have hfl : ⌊(k : ℚ)⌋ = (k : ℤ) := Int.floor_natCast k
      rw [hfl]
      rw [if_pos (by push_cast; norm_num)]
      push_cast
      ring

lemma idH_sel :
    idH 0 = 1 ∧ idH 1 = 0 ∧ idH 2 = 0 ∧ idH 3 = 0 ∧ idH 4 = 1 ∧ idH 5 = 0 ∧
    idH 6 = 0 ∧ idH 7 = 0 ∧ idH 8 = 1 :=
  ⟨rfl, rfl, rfl, rfl, rfl, rfl, rfl, rfl, rfl⟩

lemma warpMap_idH (dx dy : ℕ) : warpMap idH dx dy = ((dx : ℚ), (dy : ℚ)) := by
  unfold warpMap
  obtain ⟨h0, h1, h2, h3, h4, h5, h6, h7, h8⟩ := idH_sel
  rw [h0, h1, h2, h3, h4, h5, h6, h7, h8]
  simp only []
  norm_num

/-- C6: every destination pixel of the warp output has fully opaque alpha
(255), and when the inverse-homography-mapped, w-normalised source position
falls outside the source bounds the colour channels keep the opaque-black
background value 0 rather than being undefined. -/
theorem warp_pixel_alpha_background (src : ℤ → ℚ) (sw sh : ℕ)
    (Hinv : Fin 9 → ℚ) (dx dy : ℕ) :
    warpPixel src sw sh Hinv dx dy 3 = 255 ∧
    (¬ (0 ≤ (warpMap Hinv dx dy).1 ∧ (warpMap Hinv dx dy).1 < (sw : ℚ) ∧
        0 ≤ (warpMap Hinv dx dy).2 ∧ (warpMap Hinv dx dy).2 < (sh : ℚ)) →
      ∀ ch : Fin 4, (ch : ℕ) < 3 → warpPixel src sw sh Hinv dx dy ch = 0) := by
  constructor
  · unfold warpPixel
    rw [if_pos rfl]
  · intro hout ch hch
    unfold warpPixel
    rw [if_neg (by
      intro h
      rw [h] at hch
      exact absurd hch (by decide))]
    rw [if_neg hout]

/-- Witness for C6: with the identity inverse homography, destination pixel
(5,0) of a 2×2 source maps outside the source, and its red channel is 0. -/
theorem warp_pixel_alpha_background_witness :
    (¬ (0 ≤ (warpMap idH 5 0).1 ∧ (warpMap idH 5 0).1 < ((2 : ℕ) : ℚ) ∧
        0 ≤ (warpMap idH 5 0).2 ∧ (warpMap idH 5 0).2 < ((2 : ℕ) : ℚ))) ∧
    warpPixel (fun _ => 7) 2 2 idH 5 0 0 = 0 := by
  have hout : ¬ (0 ≤ (warpMap idH 5 0).1 ∧ (warpMap idH 5 0).1 < ((2 : ℕ) : ℚ) ∧
      0 ≤ (warpMap idH 5 0).2 ∧ (warpMap idH 5 0).2 < ((2 : ℕ) : ℚ)) := by
    rw [warpMap_idH]
    push_cast
    norm_num
  exact ⟨hout, (warp_pixel_alpha_background (fun _ => 7) 2 2 idH 5 0).2 hout 0
    (by norm_num)⟩

lemma bilinear_int (src : ℤ → ℚ) (sw sh : ℕ) (dx dy : ℕ)
    (hx : dx < sw) (hy : dy < sh) (c : ℕ) :
    bilinear src sw sh (dx : ℚ) (dy : ℚ) c
      = src (((dy : ℤ) * sw + dx) * 4 + c) := by
  unfold bilinear bilinearIdx
  have hfx : ⌊(dx : ℚ)⌋ = (dx : ℤ) := Int.floor_natCast dx
  have hfy : ⌊(dy : ℚ)⌋ = (dy : ℤ) := Int.floor_natCast dy
  rw [hfx, hfy]
  simp only []
  have hmaxx : max 0 (dx : ℤ) = (dx : ℤ) := max_eq_right (by positivity)
  have hmaxy : max 0 (dy : ℤ) = (dy : ℤ) := max_eq_right (by positivity)
  rw [hmaxx, hmaxy]
  have hsub : ∀ k : ℕ, (k : ℚ) - ((k : ℤ) : ℚ) = 0 := by
    intro k
    push_cast
    ring
  rw [hsub dx, hsub dy]
  ring

/-- C7: warping through the identity inverse homography into a destination
of the source's own size reproduces the source raster exactly at every
pixel — in particular exactly at interior pixels and (a fortiori, exactly,
hence approximately) at edge pixels. -/
theorem warp_identity (src : ℤ → ℚ) (sw sh : ℕ) (hsrc : Pix8 src)
    (dx dy : ℕ) (hx : dx < sw) (hy : dy < sh) (ch : Fin 4)
    (hch : (ch : ℕ) < 3) :
    warpPixel src sw sh idH dx dy ch
      = src (((dy : ℤ) * sw + dx) * 4 + (ch : ℕ)) := by
  unfold warpPixel
  rw [if_neg (by
    intro h
    rw [h] at hch
    exact absurd hch (by decide))]
  rw [warpMap_idH]
  rw [if_pos (by
    refine ⟨by positivity, ?_, by positivity, ?_⟩
    · show (dx : ℚ) < (sw : ℚ)
      exact_mod_cast hx
    · show (dy : ℚ) < (sh : ℚ)
      exact_mod_cast hy)]
  simp only []
  rw [bilinear_int src sw sh dx dy hx hy ch]
  obtain ⟨k, hk, hke⟩ := hsrc (((dy : ℤ) * sw + dx) * 4 + (ch : ℕ))
  rw [hke]
  exact u8store_pix k hk

/-- Witness for C7: the constant-17 2×2 raster is reproduced at pixel
(1,1), channel 0, under the identity warp. -/
theorem warp_identity_witness :
    Pix8 (fun _ => 17) ∧ (1 : ℕ) < 2 ∧ ((0 : Fin 4) : ℕ) < 3 ∧
    warpPixel (fun _ => 17) 2 2 idH 1 1 0
      = (fun _ => (17 : ℚ)) (((1 : ℤ) * 2 + 1) * 4 + 0) := by
  refine ⟨fun i => ⟨17, by norm_num, rfl⟩, by norm_num, by decide, ?_⟩
  exact warp_identity (fun _ => 17) 2 2 (fun i => ⟨17, by norm_num, rfl⟩)
    1 1 (by norm_num) (by norm_num) 0 (by decide)

lemma idx_bound (sw sh : ℕ) (xa ya : ℤ) (hx0 : 0 ≤ xa)
    (hx2 : xa ≤ (sw : ℤ) - 1) (hy0 : 0 ≤ ya) (hy2 : ya ≤ (sh : ℤ) - 1) :
    0 ≤ (ya * sw + xa) * 4 ∧ (ya * sw + xa) * 4 + 3 < 4 * sw * sh := by
  have hsw : (0 : ℤ) ≤ (sw : ℤ) := by positivity
  have h1 : ya * sw ≤ ((sh : ℤ) - 1) * sw := mul_le_mul_of_nonneg_right hy2 hsw
  constructor
  · have := mul_nonneg hy0 hsw
    nlinarith
  · nlinarith

/-- C10: for a source of size `sw×sh` with `sw, sh ≥ 1` and any sampling
position `(x, y)` with `0 ≤ x < sw` and `0 ≤ y < sh` (the guard `warp`
checks before sampling), all four pixel indices computed by `bilinear`
stay within the `4·sw·sh`-byte source buffer, so `warp` never reads out of
bounds for an in-bounds mapped coordinate. -/
theorem bilinear_indices_safe (sw sh : ℕ) (x y : ℚ) (hsw : 1 ≤ sw)
    (hsh : 1 ≤ sh) (hx0 : 0 ≤ x) (hx1 : x < (sw : ℚ)) (hy0 : 0 ≤ y)
    (hy1 : y < (sh : ℚ)) :
    (0 ≤ (bilinearIdx sw sh x y).1 ∧
      (bilinearIdx sw sh x y).1 + 3 < 4 * sw * sh) ∧
    (0 ≤ (bilinearIdx sw sh x y).2.1 ∧
      (bilinearIdx sw sh x y).2.1 + 3 < 4 * sw * sh) ∧
    (0 ≤ (bilinearIdx sw sh x y).2.2.1 ∧
      (bilinearIdx sw sh x y).2.2.1 + 3 < 4 * sw * sh) ∧
    (0 ≤ (bilinearIdx sw sh x y).2.2.2 ∧
      (bilinearIdx sw sh x y).2.2.2 + 3 < 4 * sw * sh) := by
  have hfx0 : (0 : ℤ) ≤ ⌊x⌋ := Int.floor_nonneg.mpr hx0
  have hfy0 : (0 : ℤ) ≤ ⌊y⌋ := Int.floor_nonneg.mpr hy0
  have hfx1 : ⌊x⌋ ≤ (sw : ℤ) - 1 := by
    have : ⌊x⌋ < (sw : ℤ) := Int.floor_lt.mpr (by exact_mod_cast hx1)
    omega
  have hfy1 : ⌊y⌋ ≤ (sh : ℤ) - 1 := by
    have : ⌊y⌋ < (sh : ℤ) := Int.floor_lt.mpr (by exact_mod_cast hy1)
    omega
  have hswz : (1 : ℤ) ≤ (sw : ℤ) := by exact_mod_cast hsw
  have hshz : (1 : ℤ) ≤ (sh : ℤ) := by exact_mod_cast hsh
  have hx0' : max 0 ⌊x⌋ = ⌊x⌋ := max_eq_right hfx0
  have hy0' : max 0 ⌊y⌋ = ⌊y⌋ := max_eq_right hfy0
  have hx1lo : (0 : ℤ) ≤ min (⌊x⌋ + 1) ((sw : ℤ) - 1) := by
    apply le_min
    · omega
    · omega
  have hx1hi : min (⌊x⌋ + 1) ((sw : ℤ) - 1) ≤ (sw : ℤ) - 1 := min_le_right _ _
  have hy1lo : (0 : ℤ) ≤ min (⌊y⌋ + 1) ((sh : ℤ) - 1) := by
    apply le_min
    · omega
    · omega
  have hy1hi : min (⌊y⌋ + 1) ((sh : ℤ) - 1) ≤ (sh : ℤ) - 1 := min_le_right _ _
  unfold bilinearIdx
  simp only []
  rw [hx0', hy0']
  exact ⟨idx_bound sw sh ⌊x⌋ ⌊y⌋ hfx0 hfx1 hfy0 hfy1,
    idx_bound sw sh _ ⌊y⌋ hx1lo hx1hi hfy0 hfy1,
    idx_bound sw sh ⌊x⌋ _ hfx0 hfx1 hy1lo hy1hi,
    idx_bound sw sh _ _ hx1lo hx1hi hy1lo hy1hi⟩

/-- Witness for C10: at the corner sample (0,0) of a 1×1 raster the first
bilinear index is in bounds. -/
theorem bilinear_indices_safe_witness :
    (1 : ℕ) ≤ 1 ∧ (0 : ℚ) ≤ 0 ∧ (0 : ℚ) < ((1 : ℕ) : ℚ) ∧
    (0 ≤ (bilinearIdx 1 1 0 0).1 ∧ (bilinearIdx 1 1 0 0).1 + 3 < 4 * 1 * 1) := by
  refine ⟨le_refl 1, le_refl 0, by norm_num, ?_⟩
  exact (bilinear_indices_safe 1 1 0 0 (le_refl 1) (le_refl 1) (le_refl 0)
    (by norm_num) (le_refl 0) (by norm_num)).1

lemma rowSum_eq (g : ℕ → ℚ) (w y : ℕ) :
    ∀ x : ℕ, rowSum g w y x = ∑ x' ∈ Finset.range (x + 1), g (y * w + x') := by
  intro x
  induction x with
  | zero =>
    simp [rowSum]
  | succ x ih =>
    rw [rowSum, ih]
    conv_rhs => rw [Finset.sum_range_succ]

lemma integralTbl_eq (g : ℕ → ℚ) (w : ℕ) :
    ∀ i j : ℕ, integralTbl g w i j
      = ∑ y' ∈ Finset.range i, ∑ x' ∈ Finset.range j, g (y' * w + x') := by
  intro i
  induction i with
  | zero =>
    intro j
    simp [integralTbl]
  | succ i ih =>
    intro j
    cases j with
    | zero =>
      simp [integralTbl]
    | succ x =>
      rw [integralTbl, ih, rowSum_eq]
      conv_rhs => rw [Finset.sum_range_succ]

lemma integral_diff (g : ℕ → ℚ) (w : ℕ) (x1 x2 y1 y2 : ℕ)
    (hx : x1 ≤ x2 + 1) (hy : y1 ≤ y2 + 1) :
    integralTbl g w (y2 + 1) (x2 + 1) - integralTbl g w y1 (x2 + 1)
      - integralTbl g w (y2 + 1) x1 + integralTbl g w y1 x1
      = ∑ y' ∈ Finset.Icc y1 y2, ∑ x' ∈ Finset.Icc x1 x2, g (y' * w + x') := by
  simp only [integralTbl_eq]
  rw [← Nat.Ico_succ_right y1 y2, ← Nat.Ico_succ_right x1 x2]
  conv_rhs => rw [Finset.sum_Ico_eq_sub _ hy]
  have hinner : ∀ y' : ℕ, ∑ x' ∈ Finset.Ico x1 (Nat.succ x2), g (y' * w + x')
      = ∑ x' ∈ Finset.range (x2 + 1), g (y' * w + x')
        - ∑ x' ∈ Finset.range x1, g (y' * w + x') :=
    fun y' => Finset.sum_Ico_eq_sub _ hx
  simp only [hinner]
  rw [Finset.sum_sub_distrib, Finset.sum_sub_distrib]
  ring

/-- C8: `adaptiveThreshold` produces only the values 0 and 255; a pixel is
0 exactly when its value is below the mean over the centred, bounds-clipped
square window (area divisor adjusted) minus `C`; and every pixel of an
all-constant input with `C = 10` comes out 255. -/
theorem adaptiveThreshold_spec (g : ℕ → ℚ) (w h bs : ℕ) (C : ℚ) (x y : ℕ)
    (hx : x < w) (hy : y < h) :
    (adaptiveThreshold g w h bs C x y = 0 ∨
      adaptiveThreshold g w h bs C x y = 255) ∧
    (adaptiveThreshold g w h bs C x y = 0 ↔
      g (y * w + x) < windowMean g w h bs x y - C) ∧
    (∀ v : ℚ, (∀ i, g i = v) → C = 10 →
      adaptiveThreshold g w h bs C x y = 255) := by
  have hxx : x - bs / 2 ≤ min (w - 1) (x + bs / 2) + 1 := by omega
  have hyy : y - bs / 2 ≤ min (h - 1) (y + bs / 2) + 1 := by omega
  have hmean : adaptiveThreshold g w h bs C x y
      = if g (y * w + x) < windowMean g w h bs x y - C then 0 else 255 := by
    unfold adaptiveThreshold windowMean
    simp only []
    rw [integral_diff g w _ _ _ _ hxx hyy]
  refine ⟨?_, ?_, ?_⟩
  · rw [hmean]
    by_cases hc : g (y * w + x) < windowMean g w h bs x y - C
    · left
      rw [if_pos hc]
    · right
      rw [if_neg hc]
  · rw [hmean]
    by_cases hc : g (y * w + x) < windowMean g w h bs x y - C
    · simp [hc]
    · simp only [if_neg hc]
      constructor
      · intro habs
        norm_num at habs
      · intro habs
        exact absurd habs hc
  · intro v hv hC
    rw [hmean]
    have hwm : windowMean g w h bs x y = v := by
      unfold windowMean
      simp only [hv]
      rw [Finset.sum_const, Finset.sum_const]
      rw [Nat.card_Icc, Nat.card_Icc]
      rw [nsmul_eq_mul, nsmul_eq_mul]
      have hfx : min (w - 1) (x + bs / 2) - (x - bs / 2) + 1
          = min (w - 1) (x + bs / 2) + 1 - (x - bs / 2) := by omega
      have hfy : min (h - 1) (y + bs / 2) - (y - bs / 2) + 1
          = min (h - 1) (y + bs / 2) + 1 - (y - bs / 2) := by omega
      rw [hfx, hfy]
      rw [Nat.cast_mul]
      have hcy : ((min (h - 1) (y + bs / 2) + 1 - (y - bs / 2) : ℕ) : ℚ) ≠ 0 :=
        Nat.cast_ne_zero.mpr (by omega)
      have hcx : ((min (w - 1) (x + bs / 2) + 1 - (x - bs / 2) : ℕ) : ℚ) ≠ 0 :=
        Nat.cast_ne_zero.mpr (by omega)
      rw [div_eq_iff (mul_ne_zero hcx hcy)]
      ring
    rw [hwm, hC]
    rw [if_neg (by
      intro habs
      rw [hv] at habs
      linarith)]

/-- Witness for C8: on the constant-7 3×3 luminance raster with block size
3 and `C = 10`, the centre pixel thresholds to 255. -/
theorem adaptiveThreshold_spec_witness :
    (1 : ℕ) < 3 ∧ adaptiveThreshold (fun _ => 7) 3 3 3 10 1 1 = 255 :=
  ⟨by norm_num,
    (adaptiveThreshold_spec (fun _ => 7) 3 3 3 10 1 1 (by norm_num)
      (by norm_num)).2.2 7 (fun _ => rfl) rfl⟩

lemma jsRoundQ_mono {x y : ℚ} (h : x ≤ y) : jsRoundQ x ≤ jsRoundQ y :=
  Int.floor_le_floor (by linarith)

lemma jsRound_mono {x y : ℝ} (h : x ≤ y) : jsRound x ≤ jsRound y :=
  Int.floor_le_floor (by linarith)

lemma clamp255_cast (v : ℤ) :
    (if v < 0 then (0 : ℚ) else if 255 < v then 255 else (v : ℚ))
      = ((if v < 0 then (0 : ℤ) else if 255 < v then 255 else v : ℤ) : ℚ) := by
  split_ifs <;> norm_num

lemma clampR_mono {u v : ℝ} (h : u ≤ v) :
    (if u < 0 then (0 : ℝ) else if 255 < u then 255 else u)
      ≤ (if v < 0 then 0 else if 255 < v then 255 else v) := by
  split_ifs <;> linarith

lemma clampR_nonneg (u : ℝ) :
    0 ≤ (if u < 0 then (0 : ℝ) else if 255 < u then 255 else u) := by
  split_ifs <;> linarith

/-- C9: the per-pixel output mappings of the Grayscale mode (percentile
linear remap with clamping) and of the Color mode (the same plus the
gamma-0.85 step) are monotonically non-decreasing in the input value, for
any percentiles `lo ≤ hi`. -/
theorem enhance_pixel_monotone (lo hi a b : ℚ) (lo' hi' a' b' : ℝ)
    (hq : lo ≤ hi) (hab : a ≤ b) (hr : lo' ≤ hi') (hab' : a' ≤ b') :
    enhanceGrayPixel lo hi a ≤ enhanceGrayPixel lo hi b ∧
    enhanceColorPixel lo' hi' a' ≤ enhanceColorPixel lo' hi' b' := by
  constructor
  · unfold enhanceGrayPixel
    simp only []
    set rng : ℚ := if hi - lo = 0 then 1 else hi - lo with hrng
    have hrpos : (0 : ℚ) < rng := by
      rw [hrng]
      split_ifs with h0
      · norm_num
      · have h1 : 0 ≤ hi - lo := by linarith
        exact lt_of_le_of_ne h1 (fun hc => h0 hc.symm)
    have hv : jsRoundQ ((a - lo) / rng * 255) ≤ jsRoundQ ((b - lo) / rng * 255) := by
      apply jsRoundQ_mono
      apply mul_le_mul_of_nonneg_right _ (by norm_num : (0:ℚ) ≤ 255)
      exact (div_le_div_right hrpos).mpr (by linarith)
    rw [clamp255_cast, clamp255_cast]
    apply Int.cast_le.mpr
    split_ifs <;> omega
  · unfold enhanceColorPixel
    simp only []
    set rng : ℝ := if hi' - lo' = 0 then 1 else hi' - lo' with hrng
    have hrpos : (0 : ℝ) < rng := by
      rw [hrng]
      split_ifs with h0
      · norm_num
      · have h1 : 0 ≤ hi' - lo' := by linarith
        exact lt_of_le_of_ne h1 (fun hc => h0 hc.symm)
    have hu : (a' - lo') / rng * 255 ≤ (b' - lo') / rng * 255 := by
      apply mul_le_mul_of_nonneg_right _ (by norm_num : (0:ℝ) ≤ 255)
      exact (div_le_div_right hrpos).mpr (by linarith)
    apply jsRound_mono
    apply mul_le_mul_of_nonneg_right _ (by norm_num : (0:ℝ) ≤ 255)
    apply Real.rpow_le_rpow
    · apply div_nonneg (clampR_nonneg _) (by norm_num)
    · exact (div_le_div_right (by norm_num : (0:ℝ) < 255)).mpr (clampR_mono hu)
    · norm_num

/-- Witness for C9: with percentiles 0 and 255, inputs 10 ≤ 20 map to
non-decreasing outputs in both modes. -/
theorem enhance_pixel_monotone_witness :
    (0:ℚ) ≤ 255 ∧ (10:ℚ) ≤ 20 ∧ (0:ℝ) ≤ 255 ∧ (10:ℝ) ≤ 20 ∧
    (enhanceGrayPixel 0 255 10 ≤ enhanceGrayPixel 0 255 20 ∧
     enhanceColorPixel 0 255 10 ≤ enhanceColorPixel 0 255 20) :=
  ⟨by norm_num, by norm_num, by norm_num, by norm_num,
    enhance_pixel_monotone 0 255 10 20 0 255 10 20 (by norm_num) (by norm_num)
      (by norm_num) (by norm_num)⟩

/-- C3: whenever the four source corner points are collinear (or
coincident) — all on one line `α·x + β·y + γ = 0` with `(α, β) ≠ (0, 0)` —
the homography stage of `processImage` reports the
'Failed to compute homography' error for every destination quad, and never
produces a transform. -/
theorem collinear_homography_fails (pts : Fin 4 → ℚ × ℚ)
    (hcol : ∃ α β γ : ℚ, ¬ (α = 0 ∧ β = 0) ∧
      ∀ i : Fin 4, α * (pts i).1 + β * (pts i).2 + γ = 0)
    (dst : Fin 4 → ℚ × ℚ) :
    homographyStep pts dst = Except.error "Failed to compute homography" := by
  obtain ⟨α, β, γ, hne, hline⟩ := hcol
  have hnone : computeHomography pts dst = none := by
    unfold computeHomography
    cases hs : solve 8 (dltA pts dst) (dltB pts dst) with
    | none => rfl
    | some hsol =>
      exfalso
      have hker : ∀ i, ∑ j : Fin 8,
          dltA pts dst i j * (![α, β, γ, 0, 0, 0, 0, 0] : Fin 8 → ℚ) j = 0 := by
        intro i
        by_cases hpar : (i : ℕ) % 2 = 0
        · have hrow : ∀ j : Fin 8, dltA pts dst i j
              = ![(pts ⟨(i : ℕ) / 2, by omega⟩).1, (pts ⟨(i : ℕ) / 2, by omega⟩).2,
                  1, 0, 0, 0,
                  -(dst ⟨(i : ℕ) / 2, by omega⟩).1 * (pts ⟨(i : ℕ) / 2, by omega⟩).1,
                  -(dst ⟨(i : ℕ) / 2, by omega⟩).1 * (pts ⟨(i : ℕ) / 2, by omega⟩).2] j := by
            intro j
            simp only [dltA]
            rw [if_pos hpar]
          rw [Fin.sum_univ_eight]
          simp only [hrow]
          show (pts ⟨(i : ℕ) / 2, by omega⟩).1 * α
              + (pts ⟨(i : ℕ) / 2, by omega⟩).2 * β + 1 * γ + 0 * 0 + 0 * 0 + 0 * 0
              + -(dst ⟨(i : ℕ) / 2, by omega⟩).1 * (pts ⟨(i : ℕ) / 2, by omega⟩).1 * 0
              + -(dst ⟨(i : ℕ) / 2, by omega⟩).1 * (pts ⟨(i : ℕ) / 2, by omega⟩).2 * 0
              = 0
          linear_combination hline ⟨(i : ℕ) / 2, by omega⟩
        · have hrow : ∀ j : Fin 8, dltA pts dst i j
              = ![0, 0, 0, (pts ⟨(i : ℕ) / 2, by omega⟩).1,
                  (pts ⟨(i : ℕ) / 2, by omega⟩).2, 1,
                  -(dst ⟨(i : ℕ) / 2, by omega⟩).2 * (pts ⟨(i : ℕ) / 2, by omega⟩).1,
                  -(dst ⟨(i : ℕ) / 2, by omega⟩).2 * (pts ⟨(i : ℕ) / 2, by omega⟩).2] j := by
            intro j
            simp only [dltA]
            rw [if_neg hpar]
          rw [Fin.sum_univ_eight]
          simp only [hrow]
          show (0:ℚ) * α + 0 * β + 0 * γ + (pts ⟨(i : ℕ) / 2, by omega⟩).1 * 0
              + (pts ⟨(i : ℕ) / 2, by omega⟩).2 * 0 + 1 * 0
              + -(dst ⟨(i : ℕ) / 2, by omega⟩).2 * (pts ⟨(i : ℕ) / 2, by omega⟩).1 * 0
              + -(dst ⟨(i : ℕ) / 2, by omega⟩).2 * (pts ⟨(i : ℕ) / 2, by omega⟩).2 * 0
              = 0
          ring
      have hzero := solve_kernel hs (![α, β, γ, 0, 0, 0, 0, 0]) hker
      apply hne
      exact ⟨hzero 0, hzero 1⟩
  unfold homographyStep
  rw [hnone]

/-- Witness for C3: the four collinear points (0,0),(1,1),(2,2),(3,3) lie
on `x - y = 0` and make the homography stage fail for the 100×100
destination rectangle. -/
theorem collinear_homography_fails_witness :
    (∃ α β γ : ℚ, ¬ (α = 0 ∧ β = 0) ∧
      ∀ i : Fin 4, α * ((![((0:ℚ),(0:ℚ)), (1,1), (2,2), (3,3)] : Fin 4 → ℚ × ℚ) i).1
        + β * ((![((0:ℚ),(0:ℚ)), (1,1), (2,2), (3,3)] : Fin 4 → ℚ × ℚ) i).2 + γ = 0) ∧
    homographyStep (![((0:ℚ),(0:ℚ)), (1,1), (2,2), (3,3)]) (dstRect 100 100)
      = Except.error "Failed to compute homography" := by
  have hcol : ∃ α β γ : ℚ, ¬ (α = 0 ∧ β = 0) ∧
      ∀ i : Fin 4, α * ((![((0:ℚ),(0:ℚ)), (1,1), (2,2), (3,3)] : Fin 4 → ℚ × ℚ) i).1
        + β * ((![((0:ℚ),(0:ℚ)), (1,1), (2,2), (3,3)] : Fin 4 → ℚ × ℚ) i).2 + γ = 0 := by
    refine ⟨1, -1, 0, by norm_num, ?_⟩
    intro i
    fin_cases i
    · show (1:ℚ) * 0 + (-1) * 0 + 0 = 0
      norm_num
    · show (1:ℚ) * 1 + (-1) * 1 + 0 = 0
      norm_num
    · show (1:ℚ) * 2 + (-1) * 2 + 0 = 0
      norm_num
    · show (1:ℚ) * 3 + (-1) * 3 + 0 = 0
      norm_num
  exact ⟨hcol, collinear_homography_fails _ hcol (dstRect 100 100)⟩

lemma dlt_row_even (src dst : Fin 4 → ℚ × ℚ) (i : Fin 4) (hsol : Fin 8 → ℚ) :
    ∑ j : Fin 8, dltA src dst ⟨2 * (i : ℕ), by omega⟩ j * hsol j
      = (src i).1 * hsol 0 + (src i).2 * hsol 1 + hsol 2
        - (dst i).1 * (src i).1 * hsol 6 - (dst i).1 * (src i).2 * hsol 7 := by
  have hi2 : ∀ h', (⟨2 * (i : ℕ) / 2, h'⟩ : Fin 4) = i :=
    fun h' => Fin.ext (by
      show 2 * (i : ℕ) / 2 = (i : ℕ)
      omega)
  have hrow : ∀ j : Fin 8, dltA src dst ⟨2 * (i : ℕ), by omega⟩ j
      = ![(src i).1, (src i).2, 1, 0, 0, 0, -(dst i).1 * (src i).1,
          -(dst i).1 * (src i).2] j := by
    intro j
    simp only [dltA]
    rw [if_pos (by omega)]
    rw [hi2]
  rw [Fin.sum_univ_eight]
  simp only [hrow]
  show (src i).1 * hsol 0 + (src i).2 * hsol 1 + 1 * hsol 2 + 0 * hsol 3
      + 0 * hsol 4 + 0 * hsol 5 + -(dst i).1 * (src i).1 * hsol 6
      + -(dst i).1 * (src i).2 * hsol 7 = _
  ring

lemma dlt_row_odd (src dst : Fin 4 → ℚ × ℚ) (i : Fin 4) (hsol : Fin 8 → ℚ) :
    ∑ j : Fin 8, dltA src dst ⟨2 * (i : ℕ) + 1, by omega⟩ j * hsol j
      = (src i).1 * hsol 3 + (src i).2 * hsol 4 + hsol 5
        - (dst i).2 * (src i).1 * hsol 6 - (dst i).2 * (src i).2 * hsol 7 := by
  have hi2 : ∀ h', (⟨(2 * (i : ℕ) + 1) / 2, h'⟩ : Fin 4) = i :=
    fun h' => Fin.ext (by
      show (2 * (i : ℕ) + 1) / 2 = (i : ℕ)
      omega)
  have hrow : ∀ j : Fin 8, dltA src dst ⟨2 * (i : ℕ) + 1, by omega⟩ j
      = ![0, 0, 0, (src i).1, (src i).2, 1, -(dst i).2 * (src i).1,
          -(dst i).2 * (src i).2] j := by
    intro j
    simp only [dltA]
    rw [if_neg (by omega)]
    rw [hi2]
  rw [Fin.sum_univ_eight]
  simp only [hrow]
  show (0:ℚ) * hsol 0 + 0 * hsol 1 + 0 * hsol 2 + (src i).1 * hsol 3
      + (src i).2 * hsol 4 + 1 * hsol 5 + -(dst i).2 * (src i).1 * hsol 6
      + -(dst i).2 * (src i).2 * hsol 7 = _
  ring

lemma dltB_even (src dst : Fin 4 → ℚ × ℚ) (i : Fin 4) :
    dltB src dst ⟨2 * (i : ℕ), by omega⟩ = (dst i).1 := by
  have hi2 : ∀ h', (⟨2 * (i : ℕ) / 2, h'⟩ : Fin 4) = i :=
    fun h' => Fin.ext (by
      show 2 * (i : ℕ) / 2 = (i : ℕ)
      omega)
  simp only [dltB]
  rw [if_pos (by omega)]
  rw [hi2]

lemma dltB_odd (src dst : Fin 4 → ℚ × ℚ) (i : Fin 4) :
    dltB src dst ⟨2 * (i : ℕ) + 1, by omega⟩ = (dst i).2 := by
  have hi2 : ∀ h', (⟨(2 * (i : ℕ) + 1) / 2, h'⟩ : Fin 4) = i :=
    fun h' => Fin.ext (by
      show (2 * (i : ℕ) + 1) / 2 = (i : ℕ)
      omega)
  simp only [dltB]
  rw [if_neg (by omega)]
  rw [hi2]

/-- C2: whenever `computeHomography` succeeds on 4 source and 4 destination
points it returns a 3×3 matrix `[h0..h7, 1]` whose bottom-right entry is 1
and which satisfies both DLT equations of every correspondence, i.e. maps
each source point to its destination point in exact arithmetic. -/
theorem computeHomography_dlt (src dst : Fin 4 → ℚ × ℚ) (H : Fin 9 → ℚ)
    (hH : computeHomography src dst = some H) :
    H 8 = 1 ∧
    ∀ i : Fin 4,
      H 0 * (src i).1 + H 1 * (src i).2 + H 2
          - H 6 * (dst i).1 * (src i).1 - H 7 * (dst i).1 * (src i).2
        = (dst i).1 ∧
      H 3 * (src i).1 + H 4 * (src i).2 + H 5
          - H 6 * (dst i).2 * (src i).1 - H 7 * (dst i).2 * (src i).2
        = (dst i).2 := by
  unfold computeHomography at hH
  cases hs : solve 8 (dltA src dst) (dltB src dst) with
  | none =>
    rw [hs] at hH
    exact absurd hH (by simp)
  | some hsol =>
    rw [hs] at hH
    have Heq : (fun j : Fin 9 =>
        if hj : (j : ℕ) < 8 then hsol ⟨(j : ℕ), hj⟩ else 1) = H :=
      (Option.some.injEq _ _).mp hH
    have e0 : H 0 = hsol 0 := by rw [← Heq]; rfl
    have e1 : H 1 = hsol 1 := by rw [← Heq]; rfl
    have e2 : H 2 = hsol 2 := by rw [← Heq]; rfl
    have e3 : H 3 = hsol 3 := by rw [← Heq]; rfl
    have e4 : H 4 = hsol 4 := by rw [← Heq]; rfl
    have e5 : H 5 = hsol 5 := by rw [← Heq]; rfl
    have e6 : H 6 = hsol 6 := by rw [← Heq]; rfl
    have e7 : H 7 = hsol 7 := by rw [← Heq]; rfl
    have e8 : H 8 = 1 := by rw [← Heq]; rfl
    refine ⟨e8, ?_⟩
    intro i
    have hsat := solve_sat hs
    have hx := hsat ⟨2 * (i : ℕ), by omega⟩
    rw [dlt_row_even, dltB_even] at hx
    have hy := hsat ⟨2 * (i : ℕ) + 1, by omega⟩
    rw [dlt_row_odd, dltB_odd] at hy
    rw [e0, e1, e2, e3, e4, e5, e6, e7]
    constructor
    · linear_combination hx
    · linear_combination hy

lemma hw_augment : augment (dltA hwPts hwPts) (dltB hwPts hwPts) = hwW0 := by
  funext r c
  fin_cases r <;> fin_cases c
  · exact @Eq.trans ℚ _ (0 : ℚ) _ rfl rfl
  · exact @Eq.trans ℚ _ (0 : ℚ) _ rfl rfl
  · exact @Eq.trans ℚ _ (1 : ℚ) _ rfl rfl
  · exact @Eq.trans ℚ _ (0 : ℚ) _ rfl rfl
  · exact @Eq.trans ℚ _ (0 : ℚ) _ rfl rfl
  · exact @Eq.trans ℚ _ (0 : ℚ) _ rfl rfl
  · exact @Eq.trans ℚ _ (0 : ℚ) _ (by norm_num : (-0 * 0 : ℚ) = 0) rfl
  · exact @Eq.trans ℚ _ (0 : ℚ) _ (by norm_num : (-0 * 0 : ℚ) = 0) rfl
  · exact @Eq.trans ℚ _ (0 : ℚ) _ rfl rfl
  · exact @Eq.trans ℚ _ (0 : ℚ) _ rfl rfl
  · exact @Eq.trans ℚ _ (0 : ℚ) _ rfl rfl
  · exact @Eq.trans ℚ _ (0 : ℚ) _ rfl rfl
  · exact @Eq.trans ℚ _ (0 : ℚ) _ rfl rfl
  · exact @Eq.trans ℚ _ (0 : ℚ) _ rfl rfl
  · exact @Eq.trans ℚ _ (1 : ℚ) _ rfl rfl
  · exact @Eq.trans ℚ _ (0 : ℚ) _ (by norm_num : (-0 * 0 : ℚ) = 0) rfl
  · exact @Eq.trans ℚ _ (0 : ℚ) _ (by norm_num : (-0 * 0 : ℚ) = 0) rfl
  · exact @Eq.trans ℚ _ (0 : ℚ) _ rfl rfl
  · exact @Eq.trans ℚ _ (4 : ℚ) _ rfl rfl
  · exact @Eq.trans ℚ _ (0 : ℚ) _ rfl rfl
  · exact @Eq.trans ℚ _ (1 : ℚ) _ rfl rfl
  · exact @Eq.trans ℚ _ (0 : ℚ) _ rfl rfl
  · exact @Eq.trans ℚ _ (0 : ℚ) _ rfl rfl
  · exact @Eq.trans ℚ _ (0 : ℚ) _ rfl rfl
  · exact @Eq.trans ℚ _ (-16 : ℚ) _ (by norm_num : (-4 * 4 : ℚ) = -16) rfl
  · exact @Eq.trans ℚ _ (0 : ℚ) _ (by norm_num : (-4 * 0 : ℚ) = 0) rfl
  · exact @Eq.trans ℚ _ (4 : ℚ) _ rfl rfl
  · exact @Eq.trans ℚ _ (0 : ℚ) _ rfl rfl
  · exact @Eq.trans ℚ _ (0 : ℚ) _ rfl rfl
  · exact @Eq.trans ℚ _ (0 : ℚ) _ rfl rfl
  · exact @Eq.trans ℚ _ (4 : ℚ) _ rfl rfl
  · exact @Eq.trans ℚ _ (0 : ℚ) _ rfl rfl
  · exact @Eq.trans ℚ _ (1 : ℚ) _ rfl rfl
  · exact @Eq.trans ℚ _ (0 : ℚ) _ (by norm_num : (-0 * 4 : ℚ) = 0) rfl
  · exact @Eq.trans ℚ _ (0 : ℚ) _ (by norm_num : (-0 * 0 : ℚ) = 0) rfl
  · exact @Eq.trans ℚ _ (0 : ℚ) _ rfl rfl
  · exact @Eq.trans ℚ _ (4 : ℚ) _ rfl rfl
  · exact @Eq.trans ℚ _ (4 : ℚ) _ rfl rfl
  · exact @Eq.trans ℚ _ (1 : ℚ) _ rfl rfl
  · exact @Eq.trans ℚ _ (0 : ℚ) _ rfl rfl
  · exact @Eq.trans ℚ _ (0 : ℚ) _ rfl rfl
  · exact @Eq.trans ℚ _ (0 : ℚ) _ rfl rfl
  · exact @Eq.trans ℚ _ (-16 : ℚ) _ (by norm_num : (-4 * 4 : ℚ) = -16) rfl
  · exact @Eq.trans ℚ _ (-16 : ℚ) _ (by norm_num : (-4 * 4 : ℚ) = -16) rfl
  · exact @Eq.trans ℚ _ (4 : ℚ) _ rfl rfl
  · exact @Eq.trans ℚ _ (0 : ℚ) _ rfl rfl
  · exact @Eq.trans ℚ _ (0 : ℚ) _ rfl rfl
  · exact @Eq.trans ℚ _ (0 : ℚ) _ rfl rfl
  · exact @Eq.trans ℚ _ (4 : ℚ) _ rfl rfl
  · exact @Eq.trans ℚ _ (4 : ℚ) _ rfl rfl
  · exact @Eq.trans ℚ _ (1 : ℚ) _ rfl rfl
  · exact @Eq.trans ℚ _ (-16 : ℚ) _ (by norm_num : (-4 * 4 : ℚ) = -16) rfl
  · exact @Eq.trans ℚ _ (-16 : ℚ) _ (by norm_num : (-4 * 4 : ℚ) = -16) rfl
  · exact @Eq.trans ℚ _ (4 : ℚ) _ rfl rfl
  · exact @Eq.trans ℚ _ (0 : ℚ) _ rfl rfl
  · exact @Eq.trans ℚ _ (4 : ℚ) _ rfl rfl
  · exact @Eq.trans ℚ _ (1 : ℚ) _ rfl rfl
  · exact @Eq.trans ℚ _ (0 : ℚ) _ rfl rfl
  · exact @Eq.trans ℚ _ (0 : ℚ) _ rfl rfl
  · exact @Eq.trans ℚ _ (0 : ℚ) _ rfl rfl
  · exact @Eq.trans ℚ _ (0 : ℚ) _ (by norm_num : (-0 * 0 : ℚ) = 0) rfl
  · exact @Eq.trans ℚ _ (0 : ℚ) _ (by norm_num : (-0 * 4 : ℚ) = 0) rfl
  · exact @Eq.trans ℚ _ (0 : ℚ) _ rfl rfl
  · exact @Eq.trans ℚ _ (0 : ℚ) _ rfl rfl
  · exact @Eq.trans ℚ _ (0 : ℚ) _ rfl rfl
  · exact @Eq.trans ℚ _ (0 : ℚ) _ rfl rfl
  · exact @Eq.trans ℚ _ (0 : ℚ) _ rfl rfl
  · exact @Eq.trans ℚ _ (4 : ℚ) _ rfl rfl
  · exact @Eq.trans ℚ _ (1 : ℚ) _ rfl rfl
  · exact @Eq.trans ℚ _ (0 : ℚ) _ (by norm_num : (-4 * 0 : ℚ) = 0) rfl
  · exact @Eq.trans ℚ _ (-16 : ℚ) _ (by norm_num : (-4 * 4 : ℚ) = -16) rfl
  · exact @Eq.trans ℚ _ (4 : ℚ) _ rfl rfl

lemma hw_piv0 : pivotRow hwW0 (0 : Fin 8) = (2 : Fin 8) := by
  rw [pivotRow]
  rw [show ((List.finRange 8).filter fun r => (0 : Fin 8) < r) = [(1 : Fin 8), (2 : Fin 8), (3 : Fin 8), (4 : Fin 8), (5 : Fin 8), (6 : Fin 8), (7 : Fin 8)] from by decide]
  show pivotFold hwW0 (0 : Fin 8) [(2 : Fin 8), (3 : Fin 8), (4 : Fin 8), (5 : Fin 8), (6 : Fin 8), (7 : Fin 8)]
      (if |hwW0 (1 : Fin 8) (Fin.castSucc (0 : Fin 8))| > |hwW0 (0 : Fin 8) (Fin.castSucc (0 : Fin 8))| then (1 : Fin 8) else (0 : Fin 8)) = (2 : Fin 8)
  rw [show hwW0 (1 : Fin 8) (Fin.castSucc (0 : Fin 8)) = (0 : ℚ) from rfl]
  rw [show hwW0 (0 : Fin 8) (Fin.castSucc (0 : Fin 8)) = (0 : ℚ) from rfl]
  rw [if_neg (by norm_num)]
  show pivotFold hwW0 (0 : Fin 8) [(3 : Fin 8), (4 : Fin 8), (5 : Fin 8), (6 : Fin 8), (7 : Fin 8)]
      (if |hwW0 (2 : Fin 8) (Fin.castSucc (0 : Fin 8))| > |hwW0 (0 : Fin 8) (Fin.castSucc (0 : Fin 8))| then (2 : Fin 8) else (0 : Fin 8)) = (2 : Fin 8)
  rw [show hwW0 (2 : Fin 8) (Fin.castSucc (0 : Fin 8)) = (4 : ℚ) from rfl]
  rw [show hwW0 (0 : Fin 8) (Fin.castSucc (0 : Fin 8)) = (0 : ℚ) from rfl]
  rw [if_pos (by norm_num)]
  show pivotFold hwW0 (0 : Fin 8) [(4 : Fin 8), (5 : Fin 8), (6 : Fin 8), (7 : Fin 8)]
      (if |hwW0 (3 : Fin 8) (Fin.castSucc (0 : Fin 8))| > |hwW0 (2 : Fin 8) (Fin.castSucc (0 : Fin 8))| then (3 : Fin 8) else (2 : Fin 8)) = (2 : Fin 8)
  rw [show hwW0 (3 : Fin 8) (Fin.castSucc (0 : Fin 8)) = (0 : ℚ) from rfl]
  rw [show hwW0 (2 : Fin 8) (Fin.castSucc (0 : Fin 8)) = (4 : ℚ) from rfl]
  rw [if_neg (by norm_num)]
  show pivotFold hwW0 (0 : Fin 8) [(5 : Fin 8), (6 : Fin 8), (7 : Fin 8)]
      (if |hwW0 (4 : Fin 8) (Fin.castSucc (0 : Fin 8))| > |hwW0 (2 : Fin 8) (Fin.castSucc (0 : Fin 8))| then (4 : Fin 8) else (2 : Fin 8)) = (2 : Fin 8)
  rw [show hwW0 (4 : Fin 8) (Fin.castSucc (0 : Fin 8)) = (4 : ℚ) from rfl]
  rw [show hwW0 (2 : Fin 8) (Fin.castSucc (0 : Fin 8)) = (4 : ℚ) from rfl]
  rw [if_neg (by norm_num)]
  show pivotFold hwW0 (0 : Fin 8) [(6 : Fin 8), (7 : Fin 8)]
      (if |hwW0 (5 : Fin 8) (Fin.castSucc (0 : Fin 8))| > |hwW0 (2 : Fin 8) (Fin.castSucc (0 : Fin 8))| then (5 : Fin 8) else (2 : Fin 8)) = (2 : Fin 8)
  rw [show hwW0 (5 : Fin 8) (Fin.castSucc (0 : Fin 8)) = (0 : ℚ) from rfl]
  rw [show hwW0 (2 : Fin 8) (Fin.castSucc (0 : Fin 8)) = (4 : ℚ) from rfl]
  rw [if_neg (by norm_num)]
  show pivotFold hwW0 (0 : Fin 8) [(7 : Fin 8)]
      (if |hwW0 (6 : Fin 8) (Fin.castSucc (0 : Fin 8))| > |hwW0 (2 : Fin 8) (Fin.castSucc (0 : Fin 8))| then (6 : Fin 8) else (2 : Fin 8)) = (2 : Fin 8)
  rw [show hwW0 (6 : Fin 8) (Fin.castSucc (0 : Fin 8)) = (0 : ℚ) from rfl]
  rw [show hwW0 (2 : Fin 8) (Fin.castSucc (0 : Fin 8)) = (4 : ℚ) from rfl]
  rw [if_neg (by norm_num)]
  show pivotFold hwW0 (0 : Fin 8) []
      (if |hwW0 (7 : Fin 8) (Fin.castSucc (0 : Fin 8))| > |hwW0 (2 : Fin 8) (Fin.castSucc (0 : Fin 8))| then (7 : Fin 8) else (2 : Fin 8)) = (2 : Fin 8)
  rw [show hwW0 (7 : Fin 8) (Fin.castSucc (0 : Fin 8)) = (0 : ℚ) from rfl]
  rw [show hwW0 (2 : Fin 8) (Fin.castSucc (0 : Fin 8)) = (4 : ℚ) from rfl]
  rw [if_neg (by norm_num)]
  rfl

lemma hw_step0 : elimStep hwW0 (0 : Fin 8)
    = some (reduceStep (swapRows hwW0 (0 : Fin 8) (2 : Fin 8)) (0 : Fin 8)) := by
  unfold elimStep
  rw [hw_piv0]
  show (if |swapRows hwW0 (0 : Fin 8) (2 : Fin 8) (0 : Fin 8) (Fin.castSucc (0 : Fin 8))| < eps then none
    else some (reduceStep (swapRows hwW0 (0 : Fin 8) (2 : Fin 8)) (0 : Fin 8)))
    = some (reduceStep (swapRows hwW0 (0 : Fin 8) (2 : Fin 8)) (0 : Fin 8))
  rw [show swapRows hwW0 (0 : Fin 8) (2 : Fin 8) (0 : Fin 8) (Fin.castSucc (0 : Fin 8)) = (4 : ℚ) from rfl]
  rw [if_neg (by norm_num [eps])]

lemma hw_red0 : reduceStep (swapRows hwW0 (0 : Fin 8) (2 : Fin 8)) (0 : Fin 8) = hwW1 := by
  funext r c
  fin_cases r <;> fin_cases c
  · exact @Eq.trans ℚ _ (4 : ℚ) _ rfl rfl
  · exact @Eq.trans ℚ _ (0 : ℚ) _ rfl rfl
  · exact @Eq.trans ℚ _ (1 : ℚ) _ rfl rfl
  · exact @Eq.trans ℚ _ (0 : ℚ) _ rfl rfl
  · exact @Eq.trans ℚ _ (0 : ℚ) _ rfl rfl
  · exact @Eq.trans ℚ _ (0 : ℚ) _ rfl rfl
  · exact @Eq.trans ℚ _ (-16 : ℚ) _ rfl rfl
  · exact @Eq.trans ℚ _ (0 : ℚ) _ rfl rfl
  · exact @Eq.trans ℚ _ (4 : ℚ) _ rfl rfl
  · exact @Eq.trans ℚ _ (0 : ℚ) _ (by norm_num : (0 - 0 / 4 * (4) : ℚ) = 0) rfl
  · exact @Eq.trans ℚ _ (0 : ℚ) _ (by norm_num : (0 - 0 / 4 * (0) : ℚ) = 0) rfl
  · exact @Eq.trans ℚ _ (0 : ℚ) _ (by norm_num : (0 - 0 / 4 * (1) : ℚ) = 0) rfl
  · exact @Eq.trans ℚ _ (0 : ℚ) _ (by norm_num : (0 - 0 / 4 * (0) : ℚ) = 0) rfl
  · exact @Eq.trans ℚ _ (0 : ℚ) _ (by norm_num : (0 - 0 / 4 * (0) : ℚ) = 0) rfl
  · exact @Eq.trans ℚ _ (1 : ℚ) _ (by norm_num : (1 - 0 / 4 * (0) : ℚ) = 1) rfl
  · exact @Eq.trans ℚ _ (0 : ℚ) _ (by norm_num : (0 - 0 / 4 * (-16) : ℚ) = 0) rfl
  · exact @Eq.trans ℚ _ (0 : ℚ) _ (by norm_num : (0 - 0 / 4 * (0) : ℚ) = 0) rfl
  · exact @Eq.trans ℚ _ (0 : ℚ) _ (by norm_num : (0 - 0 / 4 * (4) : ℚ) = 0) rfl
  · exact @Eq.trans ℚ _ (0 : ℚ) _ (by norm_num : (0 - 0 / 4 * (4) : ℚ) = 0) rfl
  · exact @Eq.trans ℚ _ (0 : ℚ) _ (by norm_num : (0 - 0 / 4 * (0) : ℚ) = 0) rfl
  · exact @Eq.trans ℚ _ (1 : ℚ) _ (by norm_num : (1 - 0 / 4 * (1) : ℚ) = 1) rfl
  · exact @Eq.trans ℚ _ (0 : ℚ) _ (by norm_num : (0 - 0 / 4 * (0) : ℚ) = 0) rfl
  · exact @Eq.trans ℚ _ (0 : ℚ) _ (by norm_num : (0 - 0 / 4 * (0) : ℚ) = 0) rfl
  · exact @Eq.trans ℚ _ (0 : ℚ) _ (by norm_num : (0 - 0 / 4 * (0) : ℚ) = 0) rfl
  · exact @Eq.trans ℚ _ (0 : ℚ) _ (by norm_num : (0 - 0 / 4 * (-16) : ℚ) = 0) rfl
  · exact @Eq.trans ℚ _ (0 : ℚ) _ (by norm_num : (0 - 0 / 4 * (0) : ℚ) = 0) rfl
  · exact @Eq.trans ℚ _ (0 : ℚ) _ (by norm_num : (0 - 0 / 4 * (4) : ℚ) = 0) rfl
  · exact @Eq.trans ℚ _ (0 : ℚ) _ (by norm_num : (0 - 0 / 4 * (4) : ℚ) = 0) rfl
  · exact @Eq.trans ℚ _ (0 : ℚ) _ (by norm_num : (0 - 0 / 4 * (0) : ℚ) = 0) rfl
  · exact @Eq.trans ℚ _ (0 : ℚ) _ (by norm_num : (0 - 0 / 4 * (1) : ℚ) = 0) rfl
  · exact @Eq.trans ℚ _ (4 : ℚ) _ (by norm_num : (4 - 0 / 4 * (0) : ℚ) = 4) rfl
  · exact @Eq.trans ℚ _ (0 : ℚ) _ (by norm_num : (0 - 0 / 4 * (0) : ℚ) = 0) rfl
  · exact @Eq.trans ℚ _ (1 : ℚ) _ (by norm_num : (1 - 0 / 4 * (0) : ℚ) = 1) rfl
  · exact @Eq.trans ℚ _ (0 : ℚ) _ (by norm_num : (0 - 0 / 4 * (-16) : ℚ) = 0) rfl
  · exact @Eq.trans ℚ _ (0 : ℚ) _ (by norm_num : (0 - 0 / 4 * (0) : ℚ) = 0) rfl
  · exact @Eq.trans ℚ _ (0 : ℚ) _ (by norm_num : (0 - 0 / 4 * (4) : ℚ) = 0) rfl
  · exact @Eq.trans ℚ _ (0 : ℚ) _ (by norm_num : (4 - 4 / 4 * (4) : ℚ) = 0) rfl
  · exact @Eq.trans ℚ _ (4 : ℚ) _ (by norm_num : (4 - 4 / 4 * (0) : ℚ) = 4) rfl
  · exact @Eq.trans ℚ _ (0 : ℚ) _ (by norm_num : (1 - 4 / 4 * (1) : ℚ) = 0) rfl
  · exact @Eq.trans ℚ _ (0 : ℚ) _ (by norm_num : (0 - 4 / 4 * (0) : ℚ) = 0) rfl
  · exact @Eq.trans ℚ _ (0 : ℚ) _ (by norm_num : (0 - 4 / 4 * (0) : ℚ) = 0) rfl
  · exact @Eq.trans ℚ _ (0 : ℚ) _ (by norm_num : (0 - 4 / 4 * (0) : ℚ) = 0) rfl
  · exact @Eq.trans ℚ _ (0 : ℚ) _ (by norm_num : (-16 - 4 / 4 * (-16) : ℚ) = 0) rfl
  · exact @Eq.trans ℚ _ (-16 : ℚ) _ (by norm_num : (-16 - 4 / 4 * (0) : ℚ) = -16) rfl
  · exact @Eq.trans ℚ _ (0 : ℚ) _ (by norm_num : (4 - 4 / 4 * (4) : ℚ) = 0) rfl
  · exact @Eq.trans ℚ _ (0 : ℚ) _ (by norm_num : (0 - 0 / 4 * (4) : ℚ) = 0) rfl
  · exact @Eq.trans ℚ _ (0 : ℚ) _ (by norm_num : (0 - 0 / 4 * (0) : ℚ) = 0) rfl
  · exact @Eq.trans ℚ _ (0 : ℚ) _ (by norm_num : (0 - 0 / 4 * (1) : ℚ) = 0) rfl
  · exact @Eq.trans ℚ _ (4 : ℚ) _ (by norm_num : (4 - 0 / 4 * (0) : ℚ) = 4) rfl
  · exact @Eq.trans ℚ _ (4 : ℚ) _ (by norm_num : (4 - 0 / 4 * (0) : ℚ) = 4) rfl
  · exact @Eq.trans ℚ _ (1 : ℚ) _ (by norm_num : (1 - 0 / 4 * (0) : ℚ) = 1) rfl
  · exact @Eq.trans ℚ _ (-16 : ℚ) _ (by norm_num : (-16 - 0 / 4 * (-16) : ℚ) = -16) rfl
  · exact @Eq.trans ℚ _ (-16 : ℚ) _ (by norm_num : (-16 - 0 / 4 * (0) : ℚ) = -16) rfl
  · exact @Eq.trans ℚ _ (4 : ℚ) _ (by norm_num : (4 - 0 / 4 * (4) : ℚ) = 4) rfl
  · exact @Eq.trans ℚ _ (0 : ℚ) _ (by norm_num : (0 - 0 / 4 * (4) : ℚ) = 0) rfl
  · exact @Eq.trans ℚ _ (4 : ℚ) _ (by norm_num : (4 - 0 / 4 * (0) : ℚ) = 4) rfl
  · exact @Eq.trans ℚ _ (1 : ℚ) _ (by norm_num : (1 - 0 / 4 * (1) : ℚ) = 1) rfl
  · exact @Eq.trans ℚ _ (0 : ℚ) _ (by norm_num : (0 - 0 / 4 * (0) : ℚ) = 0) rfl
  · exact @Eq.trans ℚ _ (0 : ℚ) _ (by norm_num : (0 - 0 / 4 * (0) : ℚ) = 0) rfl
  · exact @Eq.trans ℚ _ (0 : ℚ) _ (by norm_num : (0 - 0 / 4 * (0) : ℚ) = 0) rfl
  · exact @Eq.trans ℚ _ (0 : ℚ) _ (by norm_num : (0 - 0 / 4 * (-16) : ℚ) = 0) rfl
  · exact @Eq.trans ℚ _ (0 : ℚ) _ (by norm_num : (0 - 0 / 4 * (0) : ℚ) = 0) rfl
  · exact @Eq.trans ℚ _ (0 : ℚ) _ (by norm_num : (0 - 0 / 4 * (4) : ℚ) = 0) rfl
  · exact @Eq.trans ℚ _ (0 : ℚ) _ (by norm_num : (0 - 0 / 4 * (4) : ℚ) = 0) rfl
  · exact @Eq.trans ℚ _ (0 : ℚ) _ (by norm_num : (0 - 0 / 4 * (0) : ℚ) = 0) rfl
  · exact @Eq.trans ℚ _ (0 : ℚ) _ (by norm_num : (0 - 0 / 4 * (1) : ℚ) = 0) rfl
  · exact @Eq.trans ℚ _ (0 : ℚ) _ (by norm_num : (0 - 0 / 4 * (0) : ℚ) = 0) rfl
  · exact @Eq.trans ℚ _ (4 : ℚ) _ (by norm_num : (4 - 0 / 4 * (0) : ℚ) = 4) rfl
  · exact @Eq.trans ℚ _ (1 : ℚ) _ (by norm_num : (1 - 0 / 4 * (0) : ℚ) = 1) rfl
  · exact @Eq.trans ℚ _ (0 : ℚ) _ (by norm_num : (0 - 0 / 4 * (-16) : ℚ) = 0) rfl
  · exact @Eq.trans ℚ _ (-16 : ℚ) _ (by norm_num : (-16 - 0 / 4 * (0) : ℚ) = -16) rfl
  · exact @Eq.trans ℚ _ (4 : ℚ) _ (by norm_num : (4 - 0 / 4 * (4) : ℚ) = 4) rfl

lemma hw_piv1 : pivotRow hwW1 (1 : Fin 8) = (4 : Fin 8) := by
  rw [pivotRow]
  rw [show ((List.finRange 8).filter fun r => (1 : Fin 8) < r) = [(2 : Fin 8), (3 : Fin 8), (4 : Fin 8), (5 : Fin 8), (6 : Fin 8), (7 : Fin 8)] from by decide]
  show pivotFold hwW1 (1 : Fin 8) [(3 : Fin 8), (4 : Fin 8), (5 : Fin 8), (6 : Fin 8), (7 : Fin 8)]
      (if |hwW1 (2 : Fin 8) (Fin.castSucc (1 : Fin 8))| > |hwW1 (1 : Fin 8) (Fin.castSucc (1 : Fin 8))| then (2 : Fin 8) else (1 : Fin 8)) = (4 : Fin 8)
  rw [show hwW1 (2 : Fin 8) (Fin.castSucc (1 : Fin 8)) = (0 : ℚ) from rfl]
  rw [show hwW1 (1 : Fin 8) (Fin.castSucc (1 : Fin 8)) = (0 : ℚ) from rfl]
  rw [if_neg (by norm_num)]
  show pivotFold hwW1 (1 : Fin 8) [(4 : Fin 8), (5 : Fin 8), (6 : Fin 8), (7 : Fin 8)]
      (if |hwW1 (3 : Fin 8) (Fin.castSucc (1 : Fin 8))| > |hwW1 (1 : Fin 8) (Fin.castSucc (1 : Fin 8))| then (3 : Fin 8) else (1 : Fin 8)) = (4 : Fin 8)
  rw [show hwW1 (3 : Fin 8) (Fin.castSucc (1 : Fin 8)) = (0 : ℚ) from rfl]
  rw [show hwW1 (1 : Fin 8) (Fin.castSucc (1 : Fin 8)) = (0 : ℚ) from rfl]
  rw [if_neg (by norm_num)]
  show pivotFold hwW1 (1 : Fin 8) [(5 : Fin 8), (6 : Fin 8), (7 : Fin 8)]
      (if |hwW1 (4 : Fin 8) (Fin.castSucc (1 : Fin 8))| > |hwW1 (1 : Fin 8) (Fin.castSucc (1 : Fin 8))| then (4 : Fin 8) else (1 : Fin 8)) = (4 : Fin 8)
  rw [show hwW1 (4 : Fin 8) (Fin.castSucc (1 : Fin 8)) = (4 : ℚ) from rfl]
  rw [show hwW1 (1 : Fin 8) (Fin.castSucc (1 : Fin 8)) = (0 : ℚ) from rfl]
  rw [if_pos (by norm_num)]
  show pivotFold hwW1 (1 : Fin 8) [(6 : Fin 8), (7 : Fin 8)]
      (if |hwW1 (5 : Fin 8) (Fin.castSucc (1 : Fin 8))| > |hwW1 (4 : Fin 8) (Fin.castSucc (1 : Fin 8))| then (5 : Fin 8) else (4 : Fin 8)) = (4 : Fin 8)
  rw [show hwW1 (5 : Fin 8) (Fin.castSucc (1 : Fin 8)) = (0 : ℚ) from rfl]
  rw [show hwW1 (4 : Fin 8) (Fin.castSucc (1 : Fin 8)) = (4 : ℚ) from rfl]
  rw [if_neg (by norm_num)]
  show pivotFold hwW1 (1 : Fin 8) [(7 : Fin 8)]
      (if |hwW1 (6 : Fin 8) (Fin.castSucc (1 : Fin 8))| > |hwW1 (4 : Fin 8) (Fin.castSucc (1 : Fin 8))| then (6 : Fin 8) else (4 : Fin 8)) = (4 : Fin 8)
  rw [show hwW1 (6 : Fin 8) (Fin.castSucc (1 : Fin 8)) = (4 : ℚ) from rfl]
  rw [show hwW1 (4 : Fin 8) (Fin.castSucc (1 : Fin 8)) = (4 : ℚ) from rfl]
  rw [if_neg (by norm_num)]
  show pivotFold hwW1 (1 : Fin 8) []
      (if |hwW1 (7 : Fin 8) (Fin.castSucc (1 : Fin 8))| > |hwW1 (4 : Fin 8) (Fin.castSucc (1 : Fin 8))| then (7 : Fin 8) else (4 : Fin 8)) = (4 : Fin 8)
  rw [show hwW1 (7 : Fin 8) (Fin.castSucc (1 : Fin 8)) = (0 : ℚ) from rfl]
  rw [show hwW1 (4 : Fin 8) (Fin.castSucc (1 : Fin 8)) = (4 : ℚ) from rfl]
  rw [if_neg (by norm_num)]
  rfl

lemma hw_step1 : elimStep hwW1 (1 : Fin 8)
    = some (reduceStep (swapRows hwW1 (1 : Fin 8) (4 : Fin 8)) (1 : Fin 8)) := by
  unfold elimStep
  rw [hw_piv1]
  show (if |swapRows hwW1 (1 : Fin 8) (4 : Fin 8) (1 : Fin 8) (Fin.castSucc (1 : Fin 8))| < eps then none
    else some (reduceStep (swapRows hwW1 (1 : Fin 8) (4 : Fin 8)) (1 : Fin 8)))
    = some (reduceStep (swapRows hwW1 (1 : Fin 8) (4 : Fin 8)) (1 : Fin 8))
  rw [show swapRows hwW1 (1 : Fin 8) (4 : Fin 8) (1 : Fin 8) (Fin.castSucc (1 : Fin 8)) = (4 : ℚ) from rfl]
  rw [if_neg (by norm_num [eps])]

lemma hw_red1 : reduceStep (swapRows hwW1 (1 : Fin 8) (4 : Fin 8)) (1 : Fin 8) = hwW2 := by
  funext r c
  fin_cases r <;> fin_cases c
  · exact @Eq.trans ℚ _ (4 : ℚ) _ rfl rfl
  · exact @Eq.trans ℚ _ (0 : ℚ) _ rfl rfl
  · exact @Eq.trans ℚ _ (1 : ℚ) _ rfl rfl
  · exact @Eq.trans ℚ _ (0 : ℚ) _ rfl rfl
  · exact @Eq.trans ℚ _ (0 : ℚ) _ rfl rfl
  · exact @Eq.trans ℚ _ (0 : ℚ) _ rfl rfl
  · exact @Eq.trans ℚ _ (-16 : ℚ) _ rfl rfl
  · exact @Eq.trans ℚ _ (0 : ℚ) _ rfl rfl
  · exact @Eq.trans ℚ _ (4 : ℚ) _ rfl rfl
  · exact @Eq.trans ℚ _ (0 : ℚ) _ rfl rfl
  · exact @Eq.trans ℚ _ (4 : ℚ) _ rfl rfl
  · exact @Eq.trans ℚ _ (0 : ℚ) _ rfl rfl
  · exact @Eq.trans ℚ _ (0 : ℚ) _ rfl rfl
  · exact @Eq.trans ℚ _ (0 : ℚ) _ rfl rfl
  · exact @Eq.trans ℚ _ (0 : ℚ) _ rfl rfl
  · exact @Eq.trans ℚ _ (0 : ℚ) _ rfl rfl
  · exact @Eq.trans ℚ _ (-16 : ℚ) _ rfl rfl
  · exact @Eq.trans ℚ _ (0 : ℚ) _ rfl rfl
  · exact @Eq.trans ℚ _ (0 : ℚ) _ rfl rfl
  · exact @Eq.trans ℚ _ (0 : ℚ) _ (by norm_num : (0 - 0 / 4 * (4) : ℚ) = 0) rfl
  · exact @Eq.trans ℚ _ (1 : ℚ) _ (by norm_num : (1 - 0 / 4 * (0) : ℚ) = 1) rfl
  · exact @Eq.trans ℚ _ (0 : ℚ) _ (by norm_num : (0 - 0 / 4 * (0) : ℚ) = 0) rfl
  · exact @Eq.trans ℚ _ (0 : ℚ) _ (by norm_num : (0 - 0 / 4 * (0) : ℚ) = 0) rfl
  · exact @Eq.trans ℚ _ (0 : ℚ) _ (by norm_num : (0 - 0 / 4 * (0) : ℚ) = 0) rfl
  · exact @Eq.trans ℚ _ (0 : ℚ) _ (by norm_num : (0 - 0 / 4 * (0) : ℚ) = 0) rfl
  · exact @Eq.trans ℚ _ (0 : ℚ) _ (by norm_num : (0 - 0 / 4 * (-16) : ℚ) = 0) rfl
  · exact @Eq.trans ℚ _ (0 : ℚ) _ (by norm_num : (0 - 0 / 4 * (0) : ℚ) = 0) rfl
  · exact @Eq.trans ℚ _ (0 : ℚ) _ rfl rfl
  · exact @Eq.trans ℚ _ (0 : ℚ) _ (by norm_num : (0 - 0 / 4 * (4) : ℚ) = 0) rfl
  · exact @Eq.trans ℚ _ (0 : ℚ) _ (by norm_num : (0 - 0 / 4 * (0) : ℚ) = 0) rfl
  · exact @Eq.trans ℚ _ (4 : ℚ) _ (by norm_num : (4 - 0 / 4 * (0) : ℚ) = 4) rfl
  · exact @Eq.trans ℚ _ (0 : ℚ) _ (by norm_num : (0 - 0 / 4 * (0) : ℚ) = 0) rfl
  · exact @Eq.trans ℚ _ (1 : ℚ) _ (by norm_num : (1 - 0 / 4 * (0) : ℚ) = 1) rfl
  · exact @Eq.trans ℚ _ (0 : ℚ) _ (by norm_num : (0 - 0 / 4 * (0) : ℚ) = 0) rfl
  · exact @Eq.trans ℚ _ (0 : ℚ) _ (by norm_num : (0 - 0 / 4 * (-16) : ℚ) = 0) rfl
  · exact @Eq.trans ℚ _ (0 : ℚ) _ (by norm_num : (0 - 0 / 4 * (0) : ℚ) = 0) rfl
  · exact @Eq.trans ℚ _ (0 : ℚ) _ rfl rfl
  · exact @Eq.trans ℚ _ (0 : ℚ) _ (by norm_num : (0 - 0 / 4 * (4) : ℚ) = 0) rfl
  · exact @Eq.trans ℚ _ (0 : ℚ) _ (by norm_num : (0 - 0 / 4 * (0) : ℚ) = 0) rfl
  · exact @Eq.trans ℚ _ (0 : ℚ) _ (by norm_num : (0 - 0 / 4 * (0) : ℚ) = 0) rfl
  · exact @Eq.trans ℚ _ (0 : ℚ) _ (by norm_num : (0 - 0 / 4 * (0) : ℚ) = 0) rfl
  · exact @Eq.trans ℚ _ (1 : ℚ) _ (by norm_num : (1 - 0 / 4 * (0) : ℚ) = 1) rfl
  · exact @Eq.trans ℚ _ (0 : ℚ) _ (by norm_num : (0 - 0 / 4 * (0) : ℚ) = 0) rfl
  · exact @Eq.trans ℚ _ (0 : ℚ) _ (by norm_num : (0 - 0 / 4 * (-16) : ℚ) = 0) rfl
  · exact @Eq.trans ℚ _ (0 : ℚ) _ (by norm_num : (0 - 0 / 4 * (0) : ℚ) = 0) rfl
  · exact @Eq.trans ℚ _ (0 : ℚ) _ rfl rfl
  · exact @Eq.trans ℚ _ (0 : ℚ) _ (by norm_num : (0 - 0 / 4 * (4) : ℚ) = 0) rfl
  · exact @Eq.trans ℚ _ (0 : ℚ) _ (by norm_num : (0 - 0 / 4 * (0) : ℚ) = 0) rfl
  · exact @Eq.trans ℚ _ (4 : ℚ) _ (by norm_num : (4 - 0 / 4 * (0) : ℚ) = 4) rfl
  · exact @Eq.trans ℚ _ (4 : ℚ) _ (by norm_num : (4 - 0 / 4 * (0) : ℚ) = 4) rfl
  · exact @Eq.trans ℚ _ (1 : ℚ) _ (by norm_num : (1 - 0 / 4 * (0) : ℚ) = 1) rfl
  · exact @Eq.trans ℚ _ (-16 : ℚ) _ (by norm_num : (-16 - 0 / 4 * (0) : ℚ) = -16) rfl
  · exact @Eq.trans ℚ _ (-16 : ℚ) _ (by norm_num : (-16 - 0 / 4 * (-16) : ℚ) = -16) rfl
  · exact @Eq.trans ℚ _ (4 : ℚ) _ (by norm_num : (4 - 0 / 4 * (0) : ℚ) = 4) rfl
  · exact @Eq.trans ℚ _ (0 : ℚ) _ rfl rfl
  · exact @Eq.trans ℚ _ (0 : ℚ) _ (by norm_num : (4 - 4 / 4 * (4) : ℚ) = 0) rfl
  · exact @Eq.trans ℚ _ (1 : ℚ) _ (by norm_num : (1 - 4 / 4 * (0) : ℚ) = 1) rfl
  · exact @Eq.trans ℚ _ (0 : ℚ) _ (by norm_num : (0 - 4 / 4 * (0) : ℚ) = 0) rfl
  · exact @Eq.trans ℚ _ (0 : ℚ) _ (by norm_num : (0 - 4 / 4 * (0) : ℚ) = 0) rfl
  · exact @Eq.trans ℚ _ (0 : ℚ) _ (by norm_num : (0 - 4 / 4 * (0) : ℚ) = 0) rfl
  · exact @Eq.trans ℚ _ (0 : ℚ) _ (by norm_num : (0 - 4 / 4 * (0) : ℚ) = 0) rfl
  · exact @Eq.trans ℚ _ (16 : ℚ) _ (by norm_num : (0 - 4 / 4 * (-16) : ℚ) = 16) rfl
  · exact @Eq.trans ℚ _ (0 : ℚ) _ (by norm_num : (0 - 4 / 4 * (0) : ℚ) = 0) rfl
  · exact @Eq.trans ℚ _ (0 : ℚ) _ rfl rfl
  · exact @Eq.trans ℚ _ (0 : ℚ) _ (by norm_num : (0 - 0 / 4 * (4) : ℚ) = 0) rfl
  · exact @Eq.trans ℚ _ (0 : ℚ) _ (by norm_num : (0 - 0 / 4 * (0) : ℚ) = 0) rfl
  · exact @Eq.trans ℚ _ (0 : ℚ) _ (by norm_num : (0 - 0 / 4 * (0) : ℚ) = 0) rfl
  · exact @Eq.trans ℚ _ (4 : ℚ) _ (by norm_num : (4 - 0 / 4 * (0) : ℚ) = 4) rfl
  · exact @Eq.trans ℚ _ (1 : ℚ) _ (by norm_num : (1 - 0 / 4 * (0) : ℚ) = 1) rfl
  · exact @Eq.trans ℚ _ (0 : ℚ) _ (by norm_num : (0 - 0 / 4 * (0) : ℚ) = 0) rfl
  · exact @Eq.trans ℚ _ (-16 : ℚ) _ (by norm_num : (-16 - 0 / 4 * (-16) : ℚ) = -16) rfl
  · exact @Eq.trans ℚ _ (4 : ℚ) _ (by norm_num : (4 - 0 / 4 * (0) : ℚ) = 4) rfl

lemma hw_piv2 : pivotRow hwW2 (2 : Fin 8) = (2 : Fin 8) := by
  rw [pivotRow]
  rw [show ((List.finRange 8).filter fun r => (2 : Fin 8) < r) = [(3 : Fin 8), (4 : Fin 8), (5 : Fin 8), (6 : Fin 8), (7 : Fin 8)] from by decide]
  show pivotFold hwW2 (2 : Fin 8) [(4 : Fin 8), (5 : Fin 8), (6 : Fin 8), (7 : Fin 8)]
      (if |hwW2 (3 : Fin 8) (Fin.castSucc (2 : Fin 8))| > |hwW2 (2 : Fin 8) (Fin.castSucc (2 : Fin 8))| then (3 : Fin 8) else (2 : Fin 8)) = (2 : Fin 8)
  rw [show hwW2 (3 : Fin 8) (Fin.castSucc (2 : Fin 8)) = (0 : ℚ) from rfl]
  rw [show hwW2 (2 : Fin 8) (Fin.castSucc (2 : Fin 8)) = (1 : ℚ) from rfl]
  rw [if_neg (by norm_num)]
  show pivotFold hwW2 (2 : Fin 8) [(5 : Fin 8), (6 : Fin 8), (7 : Fin 8)]
      (if |hwW2 (4 : Fin 8) (Fin.castSucc (2 : Fin 8))| > |hwW2 (2 : Fin 8) (Fin.castSucc (2 : Fin 8))| then (4 : Fin 8) else (2 : Fin 8)) = (2 : Fin 8)
  rw [show hwW2 (4 : Fin 8) (Fin.castSucc (2 : Fin 8)) = (0 : ℚ) from rfl]
  rw [show hwW2 (2 : Fin 8) (Fin.castSucc (2 : Fin 8)) = (1 : ℚ) from rfl]
  rw [if_neg (by norm_num)]
  show pivotFold hwW2 (2 : Fin 8) [(6 : Fin 8), (7 : Fin 8)]
      (if |hwW2 (5 : Fin 8) (Fin.castSucc (2 : Fin 8))| > |hwW2 (2 : Fin 8) (Fin.castSucc (2 : Fin 8))| then (5 : Fin 8) else (2 : Fin 8)) = (2 : Fin 8)
  rw [show hwW2 (5 : Fin 8) (Fin.castSucc (2 : Fin 8)) = (0 : ℚ) from rfl]
  rw [show hwW2 (2 : Fin 8) (Fin.castSucc (2 : Fin 8)) = (1 : ℚ) from rfl]
  rw [if_neg (by norm_num)]
  show pivotFold hwW2 (2 : Fin 8) [(7 : Fin 8)]
      (if |hwW2 (6 : Fin 8) (Fin.castSucc (2 : Fin 8))| > |hwW2 (2 : Fin 8) (Fin.castSucc (2 : Fin 8))| then (6 : Fin 8) else (2 : Fin 8)) = (2 : Fin 8)
  rw [show hwW2 (6 : Fin 8) (Fin.castSucc (2 : Fin 8)) = (1 : ℚ) from rfl]
  rw [show hwW2 (2 : Fin 8) (Fin.castSucc (2 : Fin 8)) = (1 : ℚ) from rfl]
  rw [if_neg (by norm_num)]
  show pivotFold hwW2 (2 : Fin 8) []
      (if |hwW2 (7 : Fin 8) (Fin.castSucc (2 : Fin 8))| > |hwW2 (2 : Fin 8) (Fin.castSucc (2 : Fin 8))| then (7 : Fin 8) else (2 : Fin 8)) = (2 : Fin 8)
  rw [show hwW2 (7 : Fin 8) (Fin.castSucc (2 : Fin 8)) = (0 : ℚ) from rfl]
  rw [show hwW2 (2 : Fin 8) (Fin.castSucc (2 : Fin 8)) = (1 : ℚ) from rfl]
  rw [if_neg (by norm_num)]
  rfl

lemma hw_step2 : elimStep hwW2 (2 : Fin 8)
    = some (reduceStep (swapRows hwW2 (2 : Fin 8) (2 : Fin 8)) (2 : Fin 8)) := by
  unfold elimStep
  rw [hw_piv2]
  show (if |swapRows hwW2 (2 : Fin 8) (2 : Fin 8) (2 : Fin 8) (Fin.castSucc (2 : Fin 8))| < eps then none
    else some (reduceStep (swapRows hwW2 (2 : Fin 8) (2 : Fin 8)) (2 : Fin 8)))
    = some (reduceStep (swapRows hwW2 (2 : Fin 8) (2 : Fin 8)) (2 : Fin 8))
  rw [show swapRows hwW2 (2 : Fin 8) (2 : Fin 8) (2 : Fin 8) (Fin.castSucc (2 : Fin 8)) = (1 : ℚ) from rfl]
  rw [if_neg (by norm_num [eps])]

lemma hw_red2 : reduceStep (swapRows hwW2 (2 : Fin 8) (2 : Fin 8)) (2 : Fin 8) = hwW3 := by
  funext r c
  fin_cases r <;> fin_cases c
  · exact @Eq.trans ℚ _ (4 : ℚ) _ rfl rfl
  · exact @Eq.trans ℚ _ (0 : ℚ) _ rfl rfl
  · exact @Eq.trans ℚ _ (1 : ℚ) _ rfl rfl
  · exact @Eq.trans ℚ _ (0 : ℚ) _ rfl rfl
  · exact @Eq.trans ℚ _ (0 : ℚ) _ rfl rfl
  · exact @Eq.trans ℚ _ (0 : ℚ) _ rfl rfl
  · exact @Eq.trans ℚ _ (-16 : ℚ) _ rfl rfl
  · exact @Eq.trans ℚ _ (0 : ℚ) _ rfl rfl
  · exact @Eq.trans ℚ _ (4 : ℚ) _ rfl rfl
  · exact @Eq.trans ℚ _ (0 : ℚ) _ rfl rfl
  · exact @Eq.trans ℚ _ (4 : ℚ) _ rfl rfl
  · exact @Eq.trans ℚ _ (0 : ℚ) _ rfl rfl
  · exact @Eq.trans ℚ _ (0 : ℚ) _ rfl rfl
  · exact @Eq.trans ℚ _ (0 : ℚ) _ rfl rfl
  · exact @Eq.trans ℚ _ (0 : ℚ) _ rfl rfl
  · exact @Eq.trans ℚ _ (0 : ℚ) _ rfl rfl
  · exact @Eq.trans ℚ _ (-16 : ℚ) _ rfl rfl
  · exact @Eq.trans ℚ _ (0 : ℚ) _ rfl rfl
  · exact @Eq.trans ℚ _ (0 : ℚ) _ rfl rfl
  · exact @Eq.trans ℚ _ (0 : ℚ) _ rfl rfl
  · exact @Eq.trans ℚ _ (1 : ℚ) _ rfl rfl
  · exact @Eq.trans ℚ _ (0 : ℚ) _ rfl rfl
  · exact @Eq.trans ℚ _ (0 : ℚ) _ rfl rfl
  · exact @Eq.trans ℚ _ (0 : ℚ) _ rfl rfl
  · exact @Eq.trans ℚ _ (0 : ℚ) _ rfl rfl
  · exact @Eq.trans ℚ _ (0 : ℚ) _ rfl rfl
  · exact @Eq.trans ℚ _ (0 : ℚ) _ rfl rfl
  · exact @Eq.trans ℚ _ (0 : ℚ) _ rfl rfl
  · exact @Eq.trans ℚ _ (0 : ℚ) _ rfl rfl
  · exact @Eq.trans ℚ _ (0 : ℚ) _ (by norm_num : (0 - 0 / 1 * (1) : ℚ) = 0) rfl
  · exact @Eq.trans ℚ _ (4 : ℚ) _ (by norm_num : (4 - 0 / 1 * (0) : ℚ) = 4) rfl
  · exact @Eq.trans ℚ _ (0 : ℚ) _ (by norm_num : (0 - 0 / 1 * (0) : ℚ) = 0) rfl
  · exact @Eq.trans ℚ _ (1 : ℚ) _ (by norm_num : (1 - 0 / 1 * (0) : ℚ) = 1) rfl
  · exact @Eq.trans ℚ _ (0 : ℚ) _ (by norm_num : (0 - 0 / 1 * (0) : ℚ) = 0) rfl
  · exact @Eq.trans ℚ _ (0 : ℚ) _ (by norm_num : (0 - 0 / 1 * (0) : ℚ) = 0) rfl
  · exact @Eq.trans ℚ _ (0 : ℚ) _ (by norm_num : (0 - 0 / 1 * (0) : ℚ) = 0) rfl
  · exact @Eq.trans ℚ _ (0 : ℚ) _ rfl rfl
  · exact @Eq.trans ℚ _ (0 : ℚ) _ rfl rfl
  · exact @Eq.trans ℚ _ (0 : ℚ) _ (by norm_num : (0 - 0 / 1 * (1) : ℚ) = 0) rfl
  · exact @Eq.trans ℚ _ (0 : ℚ) _ (by norm_num : (0 - 0 / 1 * (0) : ℚ) = 0) rfl
  · exact @Eq.trans ℚ _ (0 : ℚ) _ (by norm_num : (0 - 0 / 1 * (0) : ℚ) = 0) rfl
  · exact @Eq.trans ℚ _ (1 : ℚ) _ (by norm_num : (1 - 0 / 1 * (0) : ℚ) = 1) rfl
  · exact @Eq.trans ℚ _ (0 : ℚ) _ (by norm_num : (0 - 0 / 1 * (0) : ℚ) = 0) rfl
  · exact @Eq.trans ℚ _ (0 : ℚ) _ (by norm_num : (0 - 0 / 1 * (0) : ℚ) = 0) rfl
  · exact @Eq.trans ℚ _ (0 : ℚ) _ (by norm_num : (0 - 0 / 1 * (0) : ℚ) = 0) rfl
  · exact @Eq.trans ℚ _ (0 : ℚ) _ rfl rfl
  · exact @Eq.trans ℚ _ (0 : ℚ) _ rfl rfl
  · exact @Eq.trans ℚ _ (0 : ℚ) _ (by norm_num : (0 - 0 / 1 * (1) : ℚ) = 0) rfl
  · exact @Eq.trans ℚ _ (4 : ℚ) _ (by norm_num : (4 - 0 / 1 * (0) : ℚ) = 4) rfl
  · exact @Eq.trans ℚ _ (4 : ℚ) _ (by norm_num : (4 - 0 / 1 * (0) : ℚ) = 4) rfl
  · exact @Eq.trans ℚ _ (1 : ℚ) _ (by norm_num : (1 - 0 / 1 * (0) : ℚ) = 1) rfl
  · exact @Eq.trans ℚ _ (-16 : ℚ) _ (by norm_num : (-16 - 0 / 1 * (0) : ℚ) = -16) rfl
  · exact @Eq.trans ℚ _ (-16 : ℚ) _ (by norm_num : (-16 - 0 / 1 * (0) : ℚ) = -16) rfl
  · exact @Eq.trans ℚ _ (4 : ℚ) _ (by norm_num : (4 - 0 / 1 * (0) : ℚ) = 4) rfl
  · exact @Eq.trans ℚ _ (0 : ℚ) _ rfl rfl
  · exact @Eq.trans ℚ _ (0 : ℚ) _ rfl rfl
  · exact @Eq.trans ℚ _ (0 : ℚ) _ (by norm_num : (1 - 1 / 1 * (1) : ℚ) = 0) rfl
  · exact @Eq.trans ℚ _ (0 : ℚ) _ (by norm_num : (0 - 1 / 1 * (0) : ℚ) = 0) rfl
  · exact @Eq.trans ℚ _ (0 : ℚ) _ (by norm_num : (0 - 1 / 1 * (0) : ℚ) = 0) rfl
  · exact @Eq.trans ℚ _ (0 : ℚ) _ (by norm_num : (0 - 1 / 1 * (0) : ℚ) = 0) rfl
  · exact @Eq.trans ℚ _ (0 : ℚ) _ (by norm_num : (0 - 1 / 1 * (0) : ℚ) = 0) rfl
  · exact @Eq.trans ℚ _ (16 : ℚ) _ (by norm_num : (16 - 1 / 1 * (0) : ℚ) = 16) rfl
  · exact @Eq.trans ℚ _ (0 : ℚ) _ (by norm_num : (0 - 1 / 1 * (0) : ℚ) = 0) rfl
  · exact @Eq.trans ℚ _ (0 : ℚ) _ rfl rfl
  · exact @Eq.trans ℚ _ (0 : ℚ) _ rfl rfl
  · exact @Eq.trans ℚ _ (0 : ℚ) _ (by norm_num : (0 - 0 / 1 * (1) : ℚ) = 0) rfl
  · exact @Eq.trans ℚ _ (0 : ℚ) _ (by norm_num : (0 - 0 / 1 * (0) : ℚ) = 0) rfl
  · exact @Eq.trans ℚ _ (4 : ℚ) _ (by norm_num : (4 - 0 / 1 * (0) : ℚ) = 4) rfl
  · exact @Eq.trans ℚ _ (1 : ℚ) _ (by norm_num : (1 - 0 / 1 * (0) : ℚ) = 1) rfl
  · exact @Eq.trans ℚ _ (0 : ℚ) _ (by norm_num : (0 - 0 / 1 * (0) : ℚ) = 0) rfl
  · exact @Eq.trans ℚ _ (-16 : ℚ) _ (by norm_num : (-16 - 0 / 1 * (0) : ℚ) = -16) rfl
  · exact @Eq.trans ℚ _ (4 : ℚ) _ (by norm_num : (4 - 0 / 1 * (0) : ℚ) = 4) rfl

lemma hw_piv3 : pivotRow hwW3 (3 : Fin 8) = (3 : Fin 8) := by
  rw [pivotRow]
  rw [show ((List.finRange 8).filter fun r => (3 : Fin 8) < r) = [(4 : Fin 8), (5 : Fin 8), (6 : Fin 8), (7 : Fin 8)] from by decide]
  show pivotFold hwW3 (3 : Fin 8) [(5 : Fin 8), (6 : Fin 8), (7 : Fin 8)]
      (if |hwW3 (4 : Fin 8) (Fin.castSucc (3 : Fin 8))| > |hwW3 (3 : Fin 8) (Fin.castSucc (3 : Fin 8))| then (4 : Fin 8) else (3 : Fin 8)) = (3 : Fin 8)
  rw [show hwW3 (4 : Fin 8) (Fin.castSucc (3 : Fin 8)) = (0 : ℚ) from rfl]
  rw [show hwW3 (3 : Fin 8) (Fin.castSucc (3 : Fin 8)) = (4 : ℚ) from rfl]
  rw [if_neg (by norm_num)]
  show pivotFold hwW3 (3 : Fin 8) [(6 : Fin 8), (7 : Fin 8)]
      (if |hwW3 (5 : Fin 8) (Fin.castSucc (3 : Fin 8))| > |hwW3 (3 : Fin 8) (Fin.castSucc (3 : Fin 8))| then (5 : Fin 8) else (3 : Fin 8)) = (3 : Fin 8)
  rw [show hwW3 (5 : Fin 8) (Fin.castSucc (3 : Fin 8)) = (4 : ℚ) from rfl]
  rw [show hwW3 (3 : Fin 8) (Fin.castSucc (3 : Fin 8)) = (4 : ℚ) from rfl]
  rw [if_neg (by norm_num)]
  show pivotFold hwW3 (3 : Fin 8) [(7 : Fin 8)]
      (if |hwW3 (6 : Fin 8) (Fin.castSucc (3 : Fin 8))| > |hwW3 (3 : Fin 8) (Fin.castSucc (3 : Fin 8))| then (6 : Fin 8) else (3 : Fin 8)) = (3 : Fin 8)
  rw [show hwW3 (6 : Fin 8) (Fin.castSucc (3 : Fin 8)) = (0 : ℚ) from rfl]
  rw [show hwW3 (3 : Fin 8) (Fin.castSucc (3 : Fin 8)) = (4 : ℚ) from rfl]
  rw [if_neg (by norm_num)]
  show pivotFold hwW3 (3 : Fin 8) []
      (if |hwW3 (7 : Fin 8) (Fin.castSucc (3 : Fin 8))| > |hwW3 (3 : Fin 8) (Fin.castSucc (3 : Fin 8))| then (7 : Fin 8) else (3 : Fin 8)) = (3 : Fin 8)
  rw [show hwW3 (7 : Fin 8) (Fin.castSucc (3 : Fin 8)) = (0 : ℚ) from rfl]
  rw [show hwW3 (3 : Fin 8) (Fin.castSucc (3 : Fin 8)) = (4 : ℚ) from rfl]
  rw [if_neg (by norm_num)]
  rfl

lemma hw_step3 : elimStep hwW3 (3 : Fin 8)
    = some (reduceStep (swapRows hwW3 (3 : Fin 8) (3 : Fin 8)) (3 : Fin 8)) := by
  unfold elimStep
  rw [hw_piv3]
  show (if |swapRows hwW3 (3 : Fin 8) (3 : Fin 8) (3 : Fin 8) (Fin.castSucc (3 : Fin 8))| < eps then none
    else some (reduceStep (swapRows hwW3 (3 : Fin 8) (3 : Fin 8)) (3 : Fin 8)))
    = some (reduceStep (swapRows hwW3 (3 : Fin 8) (3 : Fin 8)) (3 : Fin 8))
  rw [show swapRows hwW3 (3 : Fin 8) (3 : Fin 8) (3 : Fin 8) (Fin.castSucc (3 : Fin 8)) = (4 : ℚ) from rfl]
  rw [if_neg (by norm_num [eps])]

lemma hw_red3 : reduceStep (swapRows hwW3 (3 : Fin 8) (3 : Fin 8)) (3 : Fin 8) = hwW4 := by
  funext r c
  fin_cases r <;> fin_cases c
  · exact @Eq.trans ℚ _ (4 : ℚ) _ rfl rfl
  · exact @Eq.trans ℚ _ (0 : ℚ) _ rfl rfl
  · exact @Eq.trans ℚ _ (1 : ℚ) _ rfl rfl
  · exact @Eq.trans ℚ _ (0 : ℚ) _ rfl rfl
  · exact @Eq.trans ℚ _ (0 : ℚ) _ rfl rfl
  · exact @Eq.trans ℚ _ (0 : ℚ) _ rfl rfl
  · exact @Eq.trans ℚ _ (-16 : ℚ) _ rfl rfl
  · exact @Eq.trans ℚ _ (0 : ℚ) _ rfl rfl
  · exact @Eq.trans ℚ _ (4 : ℚ) _ rfl rfl
  · exact @Eq.trans ℚ _ (0 : ℚ) _ rfl rfl
  · exact @Eq.trans ℚ _ (4 : ℚ) _ rfl rfl
  · exact @Eq.trans ℚ _ (0 : ℚ) _ rfl rfl
  · exact @Eq.trans ℚ _ (0 : ℚ) _ rfl rfl
  · exact @Eq.trans ℚ _ (0 : ℚ) _ rfl rfl
  · exact @Eq.trans ℚ _ (0 : ℚ) _ rfl rfl
  · exact @Eq.trans ℚ _ (0 : ℚ) _ rfl rfl
  · exact @Eq.trans ℚ _ (-16 : ℚ) _ rfl rfl
  · exact @Eq.trans ℚ _ (0 : ℚ) _ rfl rfl
  · exact @Eq.trans ℚ _ (0 : ℚ) _ rfl rfl
  · exact @Eq.trans ℚ _ (0 : ℚ) _ rfl rfl
  · exact @Eq.trans ℚ _ (1 : ℚ) _ rfl rfl
  · exact @Eq.trans ℚ _ (0 : ℚ) _ rfl rfl
  · exact @Eq.trans ℚ _ (0 : ℚ) _ rfl rfl
  · exact @Eq.trans ℚ _ (0 : ℚ) _ rfl rfl
  · exact @Eq.trans ℚ _ (0 : ℚ) _ rfl rfl
  · exact @Eq.trans ℚ _ (0 : ℚ) _ rfl rfl
  · exact @Eq.trans ℚ _ (0 : ℚ) _ rfl rfl
  · exact @Eq.trans ℚ _ (0 : ℚ) _ rfl rfl
  · exact @Eq.trans ℚ _ (0 : ℚ) _ rfl rfl
  · exact @Eq.trans ℚ _ (0 : ℚ) _ rfl rfl
  · exact @Eq.trans ℚ _ (4 : ℚ) _ rfl rfl
  · exact @Eq.trans ℚ _ (0 : ℚ) _ rfl rfl
  · exact @Eq.trans ℚ _ (1 : ℚ) _ rfl rfl
  · exact @Eq.trans ℚ _ (0 : ℚ) _ rfl rfl
  · exact @Eq.trans ℚ _ (0 : ℚ) _ rfl rfl
  · exact @Eq.trans ℚ _ (0 : ℚ) _ rfl rfl
  · exact @Eq.trans ℚ _ (0 : ℚ) _ rfl rfl
  · exact @Eq.trans ℚ _ (0 : ℚ) _ rfl rfl
  · exact @Eq.trans ℚ _ (0 : ℚ) _ rfl rfl
  · exact @Eq.trans ℚ _ (0 : ℚ) _ (by norm_num : (0 - 0 / 4 * (4) : ℚ) = 0) rfl
  · exact @Eq.trans ℚ _ (0 : ℚ) _ (by norm_num : (0 - 0 / 4 * (0) : ℚ) = 0) rfl
  · exact @Eq.trans ℚ _ (1 : ℚ) _ (by norm_num : (1 - 0 / 4 * (1) : ℚ) = 1) rfl
  · exact @Eq.trans ℚ _ (0 : ℚ) _ (by norm_num : (0 - 0 / 4 * (0) : ℚ) = 0) rfl
  · exact @Eq.trans ℚ _ (0 : ℚ) _ (by norm_num : (0 - 0 / 4 * (0) : ℚ) = 0) rfl
  · exact @Eq.trans ℚ _ (0 : ℚ) _ (by norm_num : (0 - 0 / 4 * (0) : ℚ) = 0) rfl
  · exact @Eq.trans ℚ _ (0 : ℚ) _ rfl rfl
  · exact @Eq.trans ℚ _ (0 : ℚ) _ rfl rfl
  · exact @Eq.trans ℚ _ (0 : ℚ) _ rfl rfl
  · exact @Eq.trans ℚ _ (0 : ℚ) _ (by norm_num : (4 - 4 / 4 * (4) : ℚ) = 0) rfl
  · exact @Eq.trans ℚ _ (4 : ℚ) _ (by norm_num : (4 - 4 / 4 * (0) : ℚ) = 4) rfl
  · exact @Eq.trans ℚ _ (0 : ℚ) _ (by norm_num : (1 - 4 / 4 * (1) : ℚ) = 0) rfl
  · exact @Eq.trans ℚ _ (-16 : ℚ) _ (by norm_num : (-16 - 4 / 4 * (0) : ℚ) = -16) rfl
  · exact @Eq.trans ℚ _ (-16 : ℚ) _ (by norm_num : (-16 - 4 / 4 * (0) : ℚ) = -16) rfl
  · exact @Eq.trans ℚ _ (4 : ℚ) _ (by norm_num : (4 - 4 / 4 * (0) : ℚ) = 4) rfl
  · exact @Eq.trans ℚ _ (0 : ℚ) _ rfl rfl
  · exact @Eq.trans ℚ _ (0 : ℚ) _ rfl rfl
  · exact @Eq.trans ℚ _ (0 : ℚ) _ rfl rfl
  · exact @Eq.trans ℚ _ (0 : ℚ) _ (by norm_num : (0 - 0 / 4 * (4) : ℚ) = 0) rfl
  · exact @Eq.trans ℚ _ (0 : ℚ) _ (by norm_num : (0 - 0 / 4 * (0) : ℚ) = 0) rfl
  · exact @Eq.trans ℚ _ (0 : ℚ) _ (by norm_num : (0 - 0 / 4 * (1) : ℚ) = 0) rfl
  · exact @Eq.trans ℚ _ (0 : ℚ) _ (by norm_num : (0 - 0 / 4 * (0) : ℚ) = 0) rfl
  · exact @Eq.trans ℚ _ (16 : ℚ) _ (by norm_num : (16 - 0 / 4 * (0) : ℚ) = 16) rfl
  · exact @Eq.trans ℚ _ (0 : ℚ) _ (by norm_num : (0 - 0 / 4 * (0) : ℚ) = 0) rfl
  · exact @Eq.trans ℚ _ (0 : ℚ) _ rfl rfl
  · exact @Eq.trans ℚ _ (0 : ℚ) _ rfl rfl
  · exact @Eq.trans ℚ _ (0 : ℚ) _ rfl rfl
  · exact @Eq.trans ℚ _ (0 : ℚ) _ (by norm_num : (0 - 0 / 4 * (4) : ℚ) = 0) rfl
  · exact @Eq.trans ℚ _ (4 : ℚ) _ (by norm_num : (4 - 0 / 4 * (0) : ℚ) = 4) rfl
  · exact @Eq.trans ℚ _ (1 : ℚ) _ (by norm_num : (1 - 0 / 4 * (1) : ℚ) = 1) rfl
  · exact @Eq.trans ℚ _ (0 : ℚ) _ (by norm_num : (0 - 0 / 4 * (0) : ℚ) = 0) rfl
  · exact @Eq.trans ℚ _ (-16 : ℚ) _ (by norm_num : (-16 - 0 / 4 * (0) : ℚ) = -16) rfl
  · exact @Eq.trans ℚ _ (4 : ℚ) _ (by norm_num : (4 - 0 / 4 * (0) : ℚ) = 4) rfl

lemma hw_piv4 : pivotRow hwW4 (4 : Fin 8) = (5 : Fin 8) := by
  rw [pivotRow]
  rw [show ((List.finRange 8).filter fun r => (4 : Fin 8) < r) = [(5 : Fin 8), (6 : Fin 8), (7 : Fin 8)] from by decide]
  show pivotFold hwW4 (4 : Fin 8) [(6 : Fin 8), (7 : Fin 8)]
      (if |hwW4 (5 : Fin 8) (Fin.castSucc (4 : Fin 8))| > |hwW4 (4 : Fin 8) (Fin.castSucc (4 : Fin 8))| then (5 : Fin 8) else (4 : Fin 8)) = (5 : Fin 8)
  rw [show hwW4 (5 : Fin 8) (Fin.castSucc (4 : Fin 8)) = (4 : ℚ) from rfl]
  rw [show hwW4 (4 : Fin 8) (Fin.castSucc (4 : Fin 8)) = (0 : ℚ) from rfl]
  rw [if_pos (by norm_num)]
  show pivotFold hwW4 (4 : Fin 8) [(7 : Fin 8)]
      (if |hwW4 (6 : Fin 8) (Fin.castSucc (4 : Fin 8))| > |hwW4 (5 : Fin 8) (Fin.castSucc (4 : Fin 8))| then (6 : Fin 8) else (5 : Fin 8)) = (5 : Fin 8)
  rw [show hwW4 (6 : Fin 8) (Fin.castSucc (4 : Fin 8)) = (0 : ℚ) from rfl]
  rw [show hwW4 (5 : Fin 8) (Fin.castSucc (4 : Fin 8)) = (4 : ℚ) from rfl]
  rw [if_neg (by norm_num)]
  show pivotFold hwW4 (4 : Fin 8) []
      (if |hwW4 (7 : Fin 8) (Fin.castSucc (4 : Fin 8))| > |hwW4 (5 : Fin 8) (Fin.castSucc (4 : Fin 8))| then (7 : Fin 8) else (5 : Fin 8)) = (5 : Fin 8)
  rw [show hwW4 (7 : Fin 8) (Fin.castSucc (4 : Fin 8)) = (4 : ℚ) from rfl]
  rw [show hwW4 (5 : Fin 8) (Fin.castSucc (4 : Fin 8)) = (4 : ℚ) from rfl]
  rw [if_neg (by norm_num)]
  rfl

lemma hw_step4 : elimStep hwW4 (4 : Fin 8)
    = some (reduceStep (swapRows hwW4 (4 : Fin 8) (5 : Fin 8)) (4 : Fin 8)) := by
  unfold elimStep
  rw [hw_piv4]
  show (if |swapRows hwW4 (4 : Fin 8) (5 : Fin 8) (4 : Fin 8) (Fin.castSucc (4 : Fin 8))| < eps then none
    else some (reduceStep (swapRows hwW4 (4 : Fin 8) (5 : Fin 8)) (4 : Fin 8)))
    = some (reduceStep (swapRows hwW4 (4 : Fin 8) (5 : Fin 8)) (4 : Fin 8))
  rw [show swapRows hwW4 (4 : Fin 8) (5 : Fin 8) (4 : Fin 8) (Fin.castSucc (4 : Fin 8)) = (4 : ℚ) from rfl]
  rw [if_neg (by norm_num [eps])]

lemma hw_red4 : reduceStep (swapRows hwW4 (4 : Fin 8) (5 : Fin 8)) (4 : Fin 8) = hwW5 := by
  funext r c
  fin_cases r <;> fin_cases c
  · exact @Eq.trans ℚ _ (4 : ℚ) _ rfl rfl
  · exact @Eq.trans ℚ _ (0 : ℚ) _ rfl rfl
  · exact @Eq.trans ℚ _ (1 : ℚ) _ rfl rfl
  · exact @Eq.trans ℚ _ (0 : ℚ) _ rfl rfl
  · exact @Eq.trans ℚ _ (0 : ℚ) _ rfl rfl
  · exact @Eq.trans ℚ _ (0 : ℚ) _ rfl rfl
  · exact @Eq.trans ℚ _ (-16 : ℚ) _ rfl rfl
  · exact @Eq.trans ℚ _ (0 : ℚ) _ rfl rfl
  · exact @Eq.trans ℚ _ (4 : ℚ) _ rfl rfl
  · exact @Eq.trans ℚ _ (0 : ℚ) _ rfl rfl
  · exact @Eq.trans ℚ _ (4 : ℚ) _ rfl rfl
  · exact @Eq.trans ℚ _ (0 : ℚ) _ rfl rfl
  · exact @Eq.trans ℚ _ (0 : ℚ) _ rfl rfl
  · exact @Eq.trans ℚ _ (0 : ℚ) _ rfl rfl
  · exact @Eq.trans ℚ _ (0 : ℚ) _ rfl rfl
  · exact @Eq.trans ℚ _ (0 : ℚ) _ rfl rfl
  · exact @Eq.trans ℚ _ (-16 : ℚ) _ rfl rfl
  · exact @Eq.trans ℚ _ (0 : ℚ) _ rfl rfl
  · exact @Eq.trans ℚ _ (0 : ℚ) _ rfl rfl
  · exact @Eq.trans ℚ _ (0 : ℚ) _ rfl rfl
  · exact @Eq.trans ℚ _ (1 : ℚ) _ rfl rfl
  · exact @Eq.trans ℚ _ (0 : ℚ) _ rfl rfl
  · exact @Eq.trans ℚ _ (0 : ℚ) _ rfl rfl
  · exact @Eq.trans ℚ _ (0 : ℚ) _ rfl rfl
  · exact @Eq.trans ℚ _ (0 : ℚ) _ rfl rfl
  · exact @Eq.trans ℚ _ (0 : ℚ) _ rfl rfl
  · exact @Eq.trans ℚ _ (0 : ℚ) _ rfl rfl
  · exact @Eq.trans ℚ _ (0 : ℚ) _ rfl rfl
  · exact @Eq.trans ℚ _ (0 : ℚ) _ rfl rfl
  · exact @Eq.trans ℚ _ (0 : ℚ) _ rfl rfl
  · exact @Eq.trans ℚ _ (4 : ℚ) _ rfl rfl
  · exact @Eq.trans ℚ _ (0 : ℚ) _ rfl rfl
  · exact @Eq.trans ℚ _ (1 : ℚ) _ rfl rfl
  · exact @Eq.trans ℚ _ (0 : ℚ) _ rfl rfl
  · exact @Eq.trans ℚ _ (0 : ℚ) _ rfl rfl
  · exact @Eq.trans ℚ _ (0 : ℚ) _ rfl rfl
  · exact @Eq.trans ℚ _ (0 : ℚ) _ rfl rfl
  · exact @Eq.trans ℚ _ (0 : ℚ) _ rfl rfl
  · exact @Eq.trans ℚ _ (0 : ℚ) _ rfl rfl
  · exact @Eq.trans ℚ _ (0 : ℚ) _ rfl rfl
  · exact @Eq.trans ℚ _ (4 : ℚ) _ rfl rfl
  · exact @Eq.trans ℚ _ (0 : ℚ) _ rfl rfl
  · exact @Eq.trans ℚ _ (-16 : ℚ) _ rfl rfl
  · exact @Eq.trans ℚ _ (-16 : ℚ) _ rfl rfl
  · exact @Eq.trans ℚ _ (4 : ℚ) _ rfl rfl
  · exact @Eq.trans ℚ _ (0 : ℚ) _ rfl rfl
  · exact @Eq.trans ℚ _ (0 : ℚ) _ rfl rfl
  · exact @Eq.trans ℚ _ (0 : ℚ) _ rfl rfl
  · exact @Eq.trans ℚ _ (0 : ℚ) _ rfl rfl
  · exact @Eq.trans ℚ _ (0 : ℚ) _ (by norm_num : (0 - 0 / 4 * (4) : ℚ) = 0) rfl
  · exact @Eq.trans ℚ _ (1 : ℚ) _ (by norm_num : (1 - 0 / 4 * (0) : ℚ) = 1) rfl
  · exact @Eq.trans ℚ _ (0 : ℚ) _ (by norm_num : (0 - 0 / 4 * (-16) : ℚ) = 0) rfl
  · exact @Eq.trans ℚ _ (0 : ℚ) _ (by norm_num : (0 - 0 / 4 * (-16) : ℚ) = 0) rfl
  · exact @Eq.trans ℚ _ (0 : ℚ) _ (by norm_num : (0 - 0 / 4 * (4) : ℚ) = 0) rfl
  · exact @Eq.trans ℚ _ (0 : ℚ) _ rfl rfl
  · exact @Eq.trans ℚ _ (0 : ℚ) _ rfl rfl
  · exact @Eq.trans ℚ _ (0 : ℚ) _ rfl rfl
  · exact @Eq.trans ℚ _ (0 : ℚ) _ rfl rfl
  · exact @Eq.trans ℚ _ (0 : ℚ) _ (by norm_num : (0 - 0 / 4 * (4) : ℚ) = 0) rfl
  · exact @Eq.trans ℚ _ (0 : ℚ) _ (by norm_num : (0 - 0 / 4 * (0) : ℚ) = 0) rfl
  · exact @Eq.trans ℚ _ (0 : ℚ) _ (by norm_num : (0 - 0 / 4 * (-16) : ℚ) = 0) rfl
  · exact @Eq.trans ℚ _ (16 : ℚ) _ (by norm_num : (16 - 0 / 4 * (-16) : ℚ) = 16) rfl
  · exact @Eq.trans ℚ _ (0 : ℚ) _ (by norm_num : (0 - 0 / 4 * (4) : ℚ) = 0) rfl
  · exact @Eq.trans ℚ _ (0 : ℚ) _ rfl rfl
  · exact @Eq.trans ℚ _ (0 : ℚ) _ rfl rfl
  · exact @Eq.trans ℚ _ (0 : ℚ) _ rfl rfl
  · exact @Eq.trans ℚ _ (0 : ℚ) _ rfl rfl
  · exact @Eq.trans ℚ _ (0 : ℚ) _ (by norm_num : (4 - 4 / 4 * (4) : ℚ) = 0) rfl
  · exact @Eq.trans ℚ _ (1 : ℚ) _ (by norm_num : (1 - 4 / 4 * (0) : ℚ) = 1) rfl
  · exact @Eq.trans ℚ _ (16 : ℚ) _ (by norm_num : (0 - 4 / 4 * (-16) : ℚ) = 16) rfl
  · exact @Eq.trans ℚ _ (0 : ℚ) _ (by norm_num : (-16 - 4 / 4 * (-16) : ℚ) = 0) rfl
  · exact @Eq.trans ℚ _ (0 : ℚ) _ (by norm_num : (4 - 4 / 4 * (4) : ℚ) = 0) rfl

lemma hw_piv5 : pivotRow hwW5 (5 : Fin 8) = (5 : Fin 8) := by
  rw [pivotRow]
  rw [show ((List.finRange 8).filter fun r => (5 : Fin 8) < r) = [(6 : Fin 8), (7 : Fin 8)] from by decide]
  show pivotFold hwW5 (5 : Fin 8) [(7 : Fin 8)]
      (if |hwW5 (6 : Fin 8) (Fin.castSucc (5 : Fin 8))| > |hwW5 (5 : Fin 8) (Fin.castSucc (5 : Fin 8))| then (6 : Fin 8) else (5 : Fin 8)) = (5 : Fin 8)
  rw [show hwW5 (6 : Fin 8) (Fin.castSucc (5 : Fin 8)) = (0 : ℚ) from rfl]
  rw [show hwW5 (5 : Fin 8) (Fin.castSucc (5 : Fin 8)) = (1 : ℚ) from rfl]
  rw [if_neg (by norm_num)]
  show pivotFold hwW5 (5 : Fin 8) []
      (if |hwW5 (7 : Fin 8) (Fin.castSucc (5 : Fin 8))| > |hwW5 (5 : Fin 8) (Fin.castSucc (5 : Fin 8))| then (7 : Fin 8) else (5 : Fin 8)) = (5 : Fin 8)
  rw [show hwW5 (7 : Fin 8) (Fin.castSucc (5 : Fin 8)) = (1 : ℚ) from rfl]
  rw [show hwW5 (5 : Fin 8) (Fin.castSucc (5 : Fin 8)) = (1 : ℚ) from rfl]
  rw [if_neg (by norm_num)]
  rfl

lemma hw_step5 : elimStep hwW5 (5 : Fin 8)
    = some (reduceStep (swapRows hwW5 (5 : Fin 8) (5 : Fin 8)) (5 : Fin 8)) := by
  unfold elimStep
  rw [hw_piv5]
  show (if |swapRows hwW5 (5 : Fin 8) (5 : Fin 8) (5 : Fin 8) (Fin.castSucc (5 : Fin 8))| < eps then none
    else some (reduceStep (swapRows hwW5 (5 : Fin 8) (5 : Fin 8)) (5 : Fin 8)))
    = some (reduceStep (swapRows hwW5 (5 : Fin 8) (5 : Fin 8)) (5 : Fin 8))
  rw [show swapRows hwW5 (5 : Fin 8) (5 : Fin 8) (5 : Fin 8) (Fin.castSucc (5 : Fin 8)) = (1 : ℚ) from rfl]
  rw [if_neg (by norm_num [eps])]

lemma hw_red5 : reduceStep (swapRows hwW5 (5 : Fin 8) (5 : Fin 8)) (5 : Fin 8) = hwW6 := by
  funext r c
  fin_cases r <;> fin_cases c
  · exact @Eq.trans ℚ _ (4 : ℚ) _ rfl rfl
  · exact @Eq.trans ℚ _ (0 : ℚ) _ rfl rfl
  · exact @Eq.trans ℚ _ (1 : ℚ) _ rfl rfl
  · exact @Eq.trans ℚ _ (0 : ℚ) _ rfl rfl
  · exact @Eq.trans ℚ _ (0 : ℚ) _ rfl rfl
  · exact @Eq.trans ℚ _ (0 : ℚ) _ rfl rfl
  · exact @Eq.trans ℚ _ (-16 : ℚ) _ rfl rfl
  · exact @Eq.trans ℚ _ (0 : ℚ) _ rfl rfl
  · exact @Eq.trans ℚ _ (4 : ℚ) _ rfl rfl
  · exact @Eq.trans ℚ _ (0 : ℚ) _ rfl rfl
  · exact @Eq.trans ℚ _ (4 : ℚ) _ rfl rfl
  · exact @Eq.trans ℚ _ (0 : ℚ) _ rfl rfl
  · exact @Eq.trans ℚ _ (0 : ℚ) _ rfl rfl
  · exact @Eq.trans ℚ _ (0 : ℚ) _ rfl rfl
  · exact @Eq.trans ℚ _ (0 : ℚ) _ rfl rfl
  · exact @Eq.trans ℚ _ (0 : ℚ) _ rfl rfl
  · exact @Eq.trans ℚ _ (-16 : ℚ) _ rfl rfl
  · exact @Eq.trans ℚ _ (0 : ℚ) _ rfl rfl
  · exact @Eq.trans ℚ _ (0 : ℚ) _ rfl rfl
  · exact @Eq.trans ℚ _ (0 : ℚ) _ rfl rfl
  · exact @Eq.trans ℚ _ (1 : ℚ) _ rfl rfl
  · exact @Eq.trans ℚ _ (0 : ℚ) _ rfl rfl
  · exact @Eq.trans ℚ _ (0 : ℚ) _ rfl rfl
  · exact @Eq.trans ℚ _ (0 : ℚ) _ rfl rfl
  · exact @Eq.trans ℚ _ (0 : ℚ) _ rfl rfl
  · exact @Eq.trans ℚ _ (0 : ℚ) _ rfl rfl
  · exact @Eq.trans ℚ _ (0 : ℚ) _ rfl rfl
  · exact @Eq.trans ℚ _ (0 : ℚ) _ rfl rfl
  · exact @Eq.trans ℚ _ (0 : ℚ) _ rfl rfl
  · exact @Eq.trans ℚ _ (0 : ℚ) _ rfl rfl
  · exact @Eq.trans ℚ _ (4 : ℚ) _ rfl rfl
  · exact @Eq.trans ℚ _ (0 : ℚ) _ rfl rfl
  · exact @Eq.trans ℚ _ (1 : ℚ) _ rfl rfl
  · exact @Eq.trans ℚ _ (0 : ℚ) _ rfl rfl
  · exact @Eq.trans ℚ _ (0 : ℚ) _ rfl rfl
  · exact @Eq.trans ℚ _ (0 : ℚ) _ rfl rfl
  · exact @Eq.trans ℚ _ (0 : ℚ) _ rfl rfl
  · exact @Eq.trans ℚ _ (0 : ℚ) _ rfl rfl
  · exact @Eq.trans ℚ _ (0 : ℚ) _ rfl rfl
  · exact @Eq.trans ℚ _ (0 : ℚ) _ rfl rfl
  · exact @Eq.trans ℚ _ (4 : ℚ) _ rfl rfl
  · exact @Eq.trans ℚ _ (0 : ℚ) _ rfl rfl
  · exact @Eq.trans ℚ _ (-16 : ℚ) _ rfl rfl
  · exact @Eq.trans ℚ _ (-16 : ℚ) _ rfl rfl
  · exact @Eq.trans ℚ _ (4 : ℚ) _ rfl rfl
  · exact @Eq.trans ℚ _ (0 : ℚ) _ rfl rfl
  · exact @Eq.trans ℚ _ (0 : ℚ) _ rfl rfl
  · exact @Eq.trans ℚ _ (0 : ℚ) _ rfl rfl
  · exact @Eq.trans ℚ _ (0 : ℚ) _ rfl rfl
  · exact @Eq.trans ℚ _ (0 : ℚ) _ rfl rfl
  · exact @Eq.trans ℚ _ (1 : ℚ) _ rfl rfl
  · exact @Eq.trans ℚ _ (0 : ℚ) _ rfl rfl
  · exact @Eq.trans ℚ _ (0 : ℚ) _ rfl rfl
  · exact @Eq.trans ℚ _ (0 : ℚ) _ rfl rfl
  · exact @Eq.trans ℚ _ (0 : ℚ) _ rfl rfl
  · exact @Eq.trans ℚ _ (0 : ℚ) _ rfl rfl
  · exact @Eq.trans ℚ _ (0 : ℚ) _ rfl rfl
  · exact @Eq.trans ℚ _ (0 : ℚ) _ rfl rfl
  · exact @Eq.trans ℚ _ (0 : ℚ) _ rfl rfl
  · exact @Eq.trans ℚ _ (0 : ℚ) _ (by norm_num : (0 - 0 / 1 * (1) : ℚ) = 0) rfl
  · exact @Eq.trans ℚ _ (0 : ℚ) _ (by norm_num : (0 - 0 / 1 * (0) : ℚ) = 0) rfl
  · exact @Eq.trans ℚ _ (16 : ℚ) _ (by norm_num : (16 - 0 / 1 * (0) : ℚ) = 16) rfl
  · exact @Eq.trans ℚ _ (0 : ℚ) _ (by norm_num : (0 - 0 / 1 * (0) : ℚ) = 0) rfl
  · exact @Eq.trans ℚ _ (0 : ℚ) _ rfl rfl
  · exact @Eq.trans ℚ _ (0 : ℚ) _ rfl rfl
  · exact @Eq.trans ℚ _ (0 : ℚ) _ rfl rfl
  · exact @Eq.trans ℚ _ (0 : ℚ) _ rfl rfl
  · exact @Eq.trans ℚ _ (0 : ℚ) _ rfl rfl
  · exact @Eq.trans ℚ _ (0 : ℚ) _ (by norm_num : (1 - 1 / 1 * (1) : ℚ) = 0) rfl
  · exact @Eq.trans ℚ _ (16 : ℚ) _ (by norm_num : (16 - 1 / 1 * (0) : ℚ) = 16) rfl
  · exact @Eq.trans ℚ _ (0 : ℚ) _ (by norm_num : (0 - 1 / 1 * (0) : ℚ) = 0) rfl
  · exact @Eq.trans ℚ _ (0 : ℚ) _ (by norm_num : (0 - 1 / 1 * (0) : ℚ) = 0) rfl

lemma hw_piv6 : pivotRow hwW6 (6 : Fin 8) = (7 : Fin 8) := by
  rw [pivotRow]
  rw [show ((List.finRange 8).filter fun r => (6 : Fin 8) < r) = [(7 : Fin 8)] from by decide]
  show pivotFold hwW6 (6 : Fin 8) []
      (if |hwW6 (7 : Fin 8) (Fin.castSucc (6 : Fin 8))| > |hwW6 (6 : Fin 8) (Fin.castSucc (6 : Fin 8))| then (7 : Fin 8) else (6 : Fin 8)) = (7 : Fin 8)
  rw [show hwW6 (7 : Fin 8) (Fin.castSucc (6 : Fin 8)) = (16 : ℚ) from rfl]
  rw [show hwW6 (6 : Fin 8) (Fin.castSucc (6 : Fin 8)) = (0 : ℚ) from rfl]
  rw [if_pos (by norm_num)]
  rfl

lemma hw_step6 : elimStep hwW6 (6 : Fin 8)
    = some (reduceStep (swapRows hwW6 (6 : Fin 8) (7 : Fin 8)) (6 : Fin 8)) := by
  unfold elimStep
  rw [hw_piv6]
  show (if |swapRows hwW6 (6 : Fin 8) (7 : Fin 8) (6 : Fin 8) (Fin.castSucc (6 : Fin 8))| < eps then none
    else some (reduceStep (swapRows hwW6 (6 : Fin 8) (7 : Fin 8)) (6 : Fin 8)))
    = some (reduceStep (swapRows hwW6 (6 : Fin 8) (7 : Fin 8)) (6 : Fin 8))
  rw [show swapRows hwW6 (6 : Fin 8) (7 : Fin 8) (6 : Fin 8) (Fin.castSucc (6 : Fin 8)) = (16 : ℚ) from rfl]
  rw [if_neg (by norm_num [eps])]

lemma hw_red6 : reduceStep (swapRows hwW6 (6 : Fin 8) (7 : Fin 8)) (6 : Fin 8) = hwW7 := by
  funext r c
  fin_cases r <;> fin_cases c
  · exact @Eq.trans ℚ _ (4 : ℚ) _ rfl rfl
  · exact @Eq.trans ℚ _ (0 : ℚ) _ rfl rfl
  · exact @Eq.trans ℚ _ (1 : ℚ) _ rfl rfl
  · exact @Eq.trans ℚ _ (0 : ℚ) _ rfl rfl
  · exact @Eq.trans ℚ _ (0 : ℚ) _ rfl rfl
  · exact @Eq.trans ℚ _ (0 : ℚ) _ rfl rfl
  · exact @Eq.trans ℚ _ (-16 : ℚ) _ rfl rfl
  · exact @Eq.trans ℚ _ (0 : ℚ) _ rfl rfl
  · exact @Eq.trans ℚ _ (4 : ℚ) _ rfl rfl
  · exact @Eq.trans ℚ _ (0 : ℚ) _ rfl rfl
  · exact @Eq.trans ℚ _ (4 : ℚ) _ rfl rfl
  · exact @Eq.trans ℚ _ (0 : ℚ) _ rfl rfl
  · exact @Eq.trans ℚ _ (0 : ℚ) _ rfl rfl
  · exact @Eq.trans ℚ _ (0 : ℚ) _ rfl rfl
  · exact @Eq.trans ℚ _ (0 : ℚ) _ rfl rfl
  · exact @Eq.trans ℚ _ (0 : ℚ) _ rfl rfl
  · exact @Eq.trans ℚ _ (-16 : ℚ) _ rfl rfl
  · exact @Eq.trans ℚ _ (0 : ℚ) _ rfl rfl
  · exact @Eq.trans ℚ _ (0 : ℚ) _ rfl rfl
  · exact @Eq.trans ℚ _ (0 : ℚ) _ rfl rfl
  · exact @Eq.trans ℚ _ (1 : ℚ) _ rfl rfl
  · exact @Eq.trans ℚ _ (0 : ℚ) _ rfl rfl
  · exact @Eq.trans ℚ _ (0 : ℚ) _ rfl rfl
  · exact @Eq.trans ℚ _ (0 : ℚ) _ rfl rfl
  · exact @Eq.trans ℚ _ (0 : ℚ) _ rfl rfl
  · exact @Eq.trans ℚ _ (0 : ℚ) _ rfl rfl
  · exact @Eq.trans ℚ _ (0 : ℚ) _ rfl rfl
  · exact @Eq.trans ℚ _ (0 : ℚ) _ rfl rfl
  · exact @Eq.trans ℚ _ (0 : ℚ) _ rfl rfl
  · exact @Eq.trans ℚ _ (0 : ℚ) _ rfl rfl
  · exact @Eq.trans ℚ _ (4 : ℚ) _ rfl rfl
  · exact @Eq.trans ℚ _ (0 : ℚ) _ rfl rfl
  · exact @Eq.trans ℚ _ (1 : ℚ) _ rfl rfl
  · exact @Eq.trans ℚ _ (0 : ℚ) _ rfl rfl
  · exact @Eq.trans ℚ _ (0 : ℚ) _ rfl rfl
  · exact @Eq.trans ℚ _ (0 : ℚ) _ rfl rfl
  · exact @Eq.trans ℚ _ (0 : ℚ) _ rfl rfl
  · exact @Eq.trans ℚ _ (0 : ℚ) _ rfl rfl
  · exact @Eq.trans ℚ _ (0 : ℚ) _ rfl rfl
  · exact @Eq.trans ℚ _ (0 : ℚ) _ rfl rfl
  · exact @Eq.trans ℚ _ (4 : ℚ) _ rfl rfl
  · exact @Eq.trans ℚ _ (0 : ℚ) _ rfl rfl
  · exact @Eq.trans ℚ _ (-16 : ℚ) _ rfl rfl
  · exact @Eq.trans ℚ _ (-16 : ℚ) _ rfl rfl
  · exact @Eq.trans ℚ _ (4 : ℚ) _ rfl rfl
  · exact @Eq.trans ℚ _ (0 : ℚ) _ rfl rfl
  · exact @Eq.trans ℚ _ (0 : ℚ) _ rfl rfl
  · exact @Eq.trans ℚ _ (0 : ℚ) _ rfl rfl
  · exact @Eq.trans ℚ _ (0 : ℚ) _ rfl rfl
  · exact @Eq.trans ℚ _ (0 : ℚ) _ rfl rfl
  · exact @Eq.trans ℚ _ (1 : ℚ) _ rfl rfl
  · exact @Eq.trans ℚ _ (0 : ℚ) _ rfl rfl
  · exact @Eq.trans ℚ _ (0 : ℚ) _ rfl rfl
  · exact @Eq.trans ℚ _ (0 : ℚ) _ rfl rfl
  · exact @Eq.trans ℚ _ (0 : ℚ) _ rfl rfl
  · exact @Eq.trans ℚ _ (0 : ℚ) _ rfl rfl
  · exact @Eq.trans ℚ _ (0 : ℚ) _ rfl rfl
  · exact @Eq.trans ℚ _ (0 : ℚ) _ rfl rfl
  · exact @Eq.trans ℚ _ (0 : ℚ) _ rfl rfl
  · exact @Eq.trans ℚ _ (0 : ℚ) _ rfl rfl
  · exact @Eq.trans ℚ _ (16 : ℚ) _ rfl rfl
  · exact @Eq.trans ℚ _ (0 : ℚ) _ rfl rfl
  · exact @Eq.trans ℚ _ (0 : ℚ) _ rfl rfl
  · exact @Eq.trans ℚ _ (0 : ℚ) _ rfl rfl
  · exact @Eq.trans ℚ _ (0 : ℚ) _ rfl rfl
  · exact @Eq.trans ℚ _ (0 : ℚ) _ rfl rfl
  · exact @Eq.trans ℚ _ (0 : ℚ) _ rfl rfl
  · exact @Eq.trans ℚ _ (0 : ℚ) _ rfl rfl
  · exact @Eq.trans ℚ _ (0 : ℚ) _ rfl rfl
  · exact @Eq.trans ℚ _ (0 : ℚ) _ (by norm_num : (0 - 0 / 16 * (16) : ℚ) = 0) rfl
  · exact @Eq.trans ℚ _ (16 : ℚ) _ (by norm_num : (16 - 0 / 16 * (0) : ℚ) = 16) rfl
  · exact @Eq.trans ℚ _ (0 : ℚ) _ (by norm_num : (0 - 0 / 16 * (0) : ℚ) = 0) rfl

lemma hw_piv7 : pivotRow hwW7 (7 : Fin 8) = (7 : Fin 8) := by
  rw [pivotRow]
  rw [show ((List.finRange 8).filter fun r => (7 : Fin 8) < r) = [] from by decide]
  rfl

lemma hw_step7 : elimStep hwW7 (7 : Fin 8)
    = some (reduceStep (swapRows hwW7 (7 : Fin 8) (7 : Fin 8)) (7 : Fin 8)) := by
  unfold elimStep
  rw [hw_piv7]
  show (if |swapRows hwW7 (7 : Fin 8) (7 : Fin 8) (7 : Fin 8) (Fin.castSucc (7 : Fin 8))| < eps then none
    else some (reduceStep (swapRows hwW7 (7 : Fin 8) (7 : Fin 8)) (7 : Fin 8)))
    = some (reduceStep (swapRows hwW7 (7 : Fin 8) (7 : Fin 8)) (7 : Fin 8))
  rw [show swapRows hwW7 (7 : Fin 8) (7 : Fin 8) (7 : Fin 8) (Fin.castSucc (7 : Fin 8)) = (16 : ℚ) from rfl]
  rw [if_neg (by norm_num [eps])]

lemma hw_red7 : reduceStep (swapRows hwW7 (7 : Fin 8) (7 : Fin 8)) (7 : Fin 8) = hwW8 := by
  funext r c
  fin_cases r <;> fin_cases c
  · exact @Eq.trans ℚ _ (4 : ℚ) _ rfl rfl
  · exact @Eq.trans ℚ _ (0 : ℚ) _ rfl rfl
  · exact @Eq.trans ℚ _ (1 : ℚ) _ rfl rfl
  · exact @Eq.trans ℚ _ (0 : ℚ) _ rfl rfl
  · exact @Eq.trans ℚ _ (0 : ℚ) _ rfl rfl
  · exact @Eq.trans ℚ _ (0 : ℚ) _ rfl rfl
  · exact @Eq.trans ℚ _ (-16 : ℚ) _ rfl rfl
  · exact @Eq.trans ℚ _ (0 : ℚ) _ rfl rfl
  · exact @Eq.trans ℚ _ (4 : ℚ) _ rfl rfl
  · exact @Eq.trans ℚ _ (0 : ℚ) _ rfl rfl
  · exact @Eq.trans ℚ _ (4 : ℚ) _ rfl rfl
  · exact @Eq.trans ℚ _ (0 : ℚ) _ rfl rfl
  · exact @Eq.trans ℚ _ (0 : ℚ) _ rfl rfl
  · exact @Eq.trans ℚ _ (0 : ℚ) _ rfl rfl
  · exact @Eq.trans ℚ _ (0 : ℚ) _ rfl rfl
  · exact @Eq.trans ℚ _ (0 : ℚ) _ rfl rfl
  · exact @Eq.trans ℚ _ (-16 : ℚ) _ rfl rfl
  · exact @Eq.trans ℚ _ (0 : ℚ) _ rfl rfl
  · exact @Eq.trans ℚ _ (0 : ℚ) _ rfl rfl
  · exact @Eq.trans ℚ _ (0 : ℚ) _ rfl rfl
  · exact @Eq.trans ℚ _ (1 : ℚ) _ rfl rfl
  · exact @Eq.trans ℚ _ (0 : ℚ) _ rfl rfl
  · exact @Eq.trans ℚ _ (0 : ℚ) _ rfl rfl
  · exact @Eq.trans ℚ _ (0 : ℚ) _ rfl rfl
  · exact @Eq.trans ℚ _ (0 : ℚ) _ rfl rfl
  · exact @Eq.trans ℚ _ (0 : ℚ) _ rfl rfl
  · exact @Eq.trans ℚ _ (0 : ℚ) _ rfl rfl
  · exact @Eq.trans ℚ _ (0 : ℚ) _ rfl rfl
  · exact @Eq.trans ℚ _ (0 : ℚ) _ rfl rfl
  · exact @Eq.trans ℚ _ (0 : ℚ) _ rfl rfl
  · exact @Eq.trans ℚ _ (4 : ℚ) _ rfl rfl
  · exact @Eq.trans ℚ _ (0 : ℚ) _ rfl rfl
  · exact @Eq.trans ℚ _ (1 : ℚ) _ rfl rfl
  · exact @Eq.trans ℚ _ (0 : ℚ) _ rfl rfl
  · exact @Eq.trans ℚ _ (0 : ℚ) _ rfl rfl
  · exact @Eq.trans ℚ _ (0 : ℚ) _ rfl rfl
  · exact @Eq.trans ℚ _ (0 : ℚ) _ rfl rfl
  · exact @Eq.trans ℚ _ (0 : ℚ) _ rfl rfl
  · exact @Eq.trans ℚ _ (0 : ℚ) _ rfl rfl
  · exact @Eq.trans ℚ _ (0 : ℚ) _ rfl rfl
  · exact @Eq.trans ℚ _ (4 : ℚ) _ rfl rfl
  · exact @Eq.trans ℚ _ (0 : ℚ) _ rfl rfl
  · exact @Eq.trans ℚ _ (-16 : ℚ) _ rfl rfl
  · exact @Eq.trans ℚ _ (-16 : ℚ) _ rfl rfl
  · exact @Eq.trans ℚ _ (4 : ℚ) _ rfl rfl
  · exact @Eq.trans ℚ _ (0 : ℚ) _ rfl rfl
  · exact @Eq.trans ℚ _ (0 : ℚ) _ rfl rfl
  · exact @Eq.trans ℚ _ (0 : ℚ) _ rfl rfl
  · exact @Eq.trans ℚ _ (0 : ℚ) _ rfl rfl
  · exact @Eq.trans ℚ _ (0 : ℚ) _ rfl rfl
  · exact @Eq.trans ℚ _ (1 : ℚ) _ rfl rfl
  · exact @Eq.trans ℚ _ (0 : ℚ) _ rfl rfl
  · exact @Eq.trans ℚ _ (0 : ℚ) _ rfl rfl
  · exact @Eq.trans ℚ _ (0 : ℚ) _ rfl rfl
  · exact @Eq.trans ℚ _ (0 : ℚ) _ rfl rfl
  · exact @Eq.trans ℚ _ (0 : ℚ) _ rfl rfl
  · exact @Eq.trans ℚ _ (0 : ℚ) _ rfl rfl
  · exact @Eq.trans ℚ _ (0 : ℚ) _ rfl rfl
  · exact @Eq.trans ℚ _ (0 : ℚ) _ rfl rfl
  · exact @Eq.trans ℚ _ (0 : ℚ) _ rfl rfl
  · exact @Eq.trans ℚ _ (16 : ℚ) _ rfl rfl
  · exact @Eq.trans ℚ _ (0 : ℚ) _ rfl rfl
  · exact @Eq.trans ℚ _ (0 : ℚ) _ rfl rfl
  · exact @Eq.trans ℚ _ (0 : ℚ) _ rfl rfl
  · exact @Eq.trans ℚ _ (0 : ℚ) _ rfl rfl
  · exact @Eq.trans ℚ _ (0 : ℚ) _ rfl rfl
  · exact @Eq.trans ℚ _ (0 : ℚ) _ rfl rfl
  · exact @Eq.trans ℚ _ (0 : ℚ) _ rfl rfl
  · exact @Eq.trans ℚ _ (0 : ℚ) _ rfl rfl
  · exact @Eq.trans ℚ _ (0 : ℚ) _ rfl rfl
  · exact @Eq.trans ℚ _ (16 : ℚ) _ rfl rfl
  · exact @Eq.trans ℚ _ (0 : ℚ) _ rfl rfl

lemma hw_forward : forwardElim 8 8 0 hwW0 = some hwW8 := by
  rw [forwardElim]
  rw [dif_pos (by norm_num)]
  rw [show (⟨0, by norm_num⟩ : Fin 8) = (0 : Fin 8) from rfl]
  rw [hw_step0]
  show forwardElim 8 7 1 (reduceStep (swapRows hwW0 (0 : Fin 8) (2 : Fin 8)) (0 : Fin 8)) = some hwW8
  rw [hw_red0]
  rw [forwardElim]
  rw [dif_pos (by norm_num)]
  rw [show (⟨1, by norm_num⟩ : Fin 8) = (1 : Fin 8) from rfl]
  rw [hw_step1]
  show forwardElim 8 6 2 (reduceStep (swapRows hwW1 (1 : Fin 8) (4 : Fin 8)) (1 : Fin 8)) = some hwW8
  rw [hw_red1]
  rw [forwardElim]
  rw [dif_pos (by norm_num)]
  rw [show (⟨2, by norm_num⟩ : Fin 8) = (2 : Fin 8) from rfl]
  rw [hw_step2]
  show forwardElim 8 5 3 (reduceStep (swapRows hwW2 (2 : Fin 8) (2 : Fin 8)) (2 : Fin 8)) = some hwW8
  rw [hw_red2]
  rw [forwardElim]
  rw [dif_pos (by norm_num)]
  rw [show (⟨3, by norm_num⟩ : Fin 8) = (3 : Fin 8) from rfl]
  rw [hw_step3]
  show forwardElim 8 4 4 (reduceStep (swapRows hwW3 (3 : Fin 8) (3 : Fin 8)) (3 : Fin 8)) = some hwW8
  rw [hw_red3]
  rw [forwardElim]
  rw [dif_pos (by norm_num)]
  rw [show (⟨4, by norm_num⟩ : Fin 8) = (4 : Fin 8) from rfl]
  rw [hw_step4]
  show forwardElim 8 3 5 (reduceStep (swapRows hwW4 (4 : Fin 8) (5 : Fin 8)) (4 : Fin 8)) = some hwW8
  rw [hw_red4]
  rw [forwardElim]
  rw [dif_pos (by norm_num)]
  rw [show (⟨5, by norm_num⟩ : Fin 8) = (5 : Fin 8) from rfl]
  rw [hw_step5]
  show forwardElim 8 2 6 (reduceStep (swapRows hwW5 (5 : Fin 8) (5 : Fin 8)) (5 : Fin 8)) = some hwW8
  rw [hw_red5]
  rw [forwardElim]
  rw [dif_pos (by norm_num)]
  rw [show (⟨6, by norm_num⟩ : Fin 8) = (6 : Fin 8) from rfl]
  rw [hw_step6]
  show forwardElim 8 1 7 (reduceStep (swapRows hwW6 (6 : Fin 8) (7 : Fin 8)) (6 : Fin 8)) = some hwW8
  rw [hw_red6]
  rw [forwardElim]
  rw [dif_pos (by norm_num)]
  rw [show (⟨7, by norm_num⟩ : Fin 8) = (7 : Fin 8) from rfl]
  rw [hw_step7]
  show forwardElim 8 0 8 (reduceStep (swapRows hwW7 (7 : Fin 8) (7 : Fin 8)) (7 : Fin 8)) = some hwW8
  rw [hw_red7]
  rfl

lemma hw_bs7 : backSub hwW8 (7 : Fin 8) = 0 := by
  rw [backSub_eq]
  rw [show (Finset.univ.filter fun j => (7 : Fin 8) < j) = (∅ : Finset (Fin 8)) from by decide]
  simp only [Finset.sum_empty]
  show ((0 : ℚ) - 0) / 16 = 0
  norm_num

lemma hw_bs6 : backSub hwW8 (6 : Fin 8) = 0 := by
  rw [backSub_eq]
  rw [show (Finset.univ.filter fun j => (6 : Fin 8) < j) = ({(7 : Fin 8)} : Finset (Fin 8)) from by decide]
  rw [Finset.sum_singleton]
  rw [hw_bs7]
  show ((0 : ℚ) - (0 * 0)) / 16 = 0
  norm_num

lemma hw_bs5 : backSub hwW8 (5 : Fin 8) = 0 := by
  rw [backSub_eq]
  rw [show (Finset.univ.filter fun j => (5 : Fin 8) < j) = ({(6 : Fin 8), (7 : Fin 8)} : Finset (Fin 8)) from by decide]
  rw [Finset.sum_insert (by decide), Finset.sum_singleton]
  rw [hw_bs6, hw_bs7]
  show ((0 : ℚ) - (0 * 0 + (0 * 0))) / 1 = 0
  norm_num

lemma hw_bs4 : backSub hwW8 (4 : Fin 8) = 1 := by
  rw [backSub_eq]
  rw [show (Finset.univ.filter fun j => (4 : Fin 8) < j) = ({(5 : Fin 8), (6 : Fin 8), (7 : Fin 8)} : Finset (Fin 8)) from by decide]
  rw [Finset.sum_insert (by decide), Finset.sum_insert (by decide), Finset.sum_singleton]
  rw [hw_bs5, hw_bs6, hw_bs7]
  show ((4 : ℚ) - (0 * 0 + (-16 * 0 + (-16 * 0)))) / 4 = 1
  norm_num

lemma hw_bs3 : backSub hwW8 (3 : Fin 8) = 0 := by
  rw [backSub_eq]
  rw [show (Finset.univ.filter fun j => (3 : Fin 8) < j) = ({(4 : Fin 8), (5 : Fin 8), (6 : Fin 8), (7 : Fin 8)} : Finset (Fin 8)) from by decide]
  rw [Finset.sum_insert (by decide), Finset.sum_insert (by decide), Finset.sum_insert (by decide), Finset.sum_singleton]
  rw [hw_bs4, hw_bs5, hw_bs6, hw_bs7]
  show ((0 : ℚ) - (0 * 1 + (1 * 0 + (0 * 0 + (0 * 0))))) / 4 = 0
  norm_num

lemma hw_bs2 : backSub hwW8 (2 : Fin 8) = 0 := by
  rw [backSub_eq]
  rw [show (Finset.univ.filter fun j => (2 : Fin 8) < j) = ({(3 : Fin 8), (4 : Fin 8), (5 : Fin 8), (6 : Fin 8), (7 : Fin 8)} : Finset (Fin 8)) from by decide]
  rw [Finset.sum_insert (by decide), Finset.sum_insert (by decide), Finset.sum_insert (by decide), Finset.sum_insert (by decide), Finset.sum_singleton]
  rw [hw_bs3, hw_bs4, hw_bs5, hw_bs6, hw_bs7]
  show ((0 : ℚ) - (0 * 0 + (0 * 1 + (0 * 0 + (0 * 0 + (0 * 0)))))) / 1 = 0
  norm_num

lemma hw_bs1 : backSub hwW8 (1 : Fin 8) = 0 := by
  rw [backSub_eq]
  rw [show (Finset.univ.filter fun j => (1 : Fin 8) < j) = ({(2 : Fin 8), (3 : Fin 8), (4 : Fin 8), (5 : Fin 8), (6 : Fin 8), (7 : Fin 8)} : Finset (Fin 8)) from by decide]
  rw [Finset.sum_insert (by decide), Finset.sum_insert (by decide), Finset.sum_insert (by decide), Finset.sum_insert (by decide), Finset.sum_insert (by decide), Finset.sum_singleton]
  rw [hw_bs2, hw_bs3, hw_bs4, hw_bs5, hw_bs6, hw_bs7]
  show ((0 : ℚ) - (0 * 0 + (0 * 0 + (0 * 1 + (0 * 0 + (0 * 0 + (-16 * 0))))))) / 4 = 0
  norm_num

lemma hw_bs0 : backSub hwW8 (0 : Fin 8) = 1 := by
  rw [backSub_eq]
  rw [show (Finset.univ.filter fun j => (0 : Fin 8) < j) = ({(1 : Fin 8), (2 : Fin 8), (3 : Fin 8), (4 : Fin 8), (5 : Fin 8), (6 : Fin 8), (7 : Fin 8)} : Finset (Fin 8)) from by decide]
  rw [Finset.sum_insert (by decide), Finset.sum_insert (by decide), Finset.sum_insert (by decide), Finset.sum_insert (by decide), Finset.sum_insert (by decide), Finset.sum_insert (by decide), Finset.sum_singleton]
  rw [hw_bs1, hw_bs2, hw_bs3, hw_bs4, hw_bs5, hw_bs6, hw_bs7]
  show ((4 : ℚ) - (0 * 0 + (1 * 0 + (0 * 0 + (0 * 1 + (0 * 0 + (-16 * 0 + (0 * 0)))))))) / 4 = 1
  norm_num

lemma hw_solve : solve 8 (dltA hwPts hwPts) (dltB hwPts hwPts) = some hwX := by
  unfold solve
  rw [hw_augment, hw_forward]
  show some (backSub hwW8) = some hwX
  congr 1
  funext i
  fin_cases i
  · exact hw_bs0
  · exact hw_bs1
  · exact hw_bs2
  · exact hw_bs3
  · exact hw_bs4
  · exact hw_bs5
  · exact hw_bs6
  · exact hw_bs7

lemma hw_homography : computeHomography hwPts hwPts = some hwH := by
  unfold computeHomography
  rw [hw_solve]
  show some (fun j : Fin 9 => if hj : (j : ℕ) < 8 then hwX ⟨(j : ℕ), hj⟩ else 1) = some hwH
  congr 1
  funext j
  fin_cases j
  · exact @Eq.trans ℚ _ (1 : ℚ) _ rfl rfl
  · exact @Eq.trans ℚ _ (0 : ℚ) _ rfl rfl
  · exact @Eq.trans ℚ _ (0 : ℚ) _ rfl rfl
  · exact @Eq.trans ℚ _ (0 : ℚ) _ rfl rfl
  · exact @Eq.trans ℚ _ (1 : ℚ) _ rfl rfl
  · exact @Eq.trans ℚ _ (0 : ℚ) _ rfl rfl
  · exact @Eq.trans ℚ _ (0 : ℚ) _ rfl rfl
  · exact @Eq.trans ℚ _ (0 : ℚ) _ rfl rfl
  · exact @Eq.trans ℚ _ (1 : ℚ) _ rfl rfl

/-- Witness for C2: on the concrete square correspondence `hwPts → hwPts`
the homography computation succeeds with the identity matrix, whose
bottom-right entry is 1 and which satisfies the DLT equations of the first
correspondence. -/
theorem computeHomography_dlt_witness :
    hwH 8 = 1 ∧
    (hwH 0 * (hwPts 0).1 + hwH 1 * (hwPts 0).2 + hwH 2
        - hwH 6 * (hwPts 0).1 * (hwPts 0).1 - hwH 7 * (hwPts 0).1 * (hwPts 0).2
      = (hwPts 0).1 ∧
     hwH 3 * (hwPts 0).1 + hwH 4 * (hwPts 0).2 + hwH 5
        - hwH 6 * (hwPts 0).2 * (hwPts 0).1 - hwH 7 * (hwPts 0).2 * (hwPts 0).2
      = (hwPts 0).2) :=
  ⟨(computeHomography_dlt hwPts hwPts hwH hw_homography).1,
   (computeHomography_dlt hwPts hwPts hwH hw_homography).2 0⟩

lemma jsRound_val (x : ℝ) (k : ℤ) (h1 : (k : ℝ) ≤ x + 1 / 2)
    (h2 : x + 1 / 2 < (k : ℝ) + 1) : jsRound x = k := by
  unfold jsRound
  rw [Int.floor_eq_iff]
  constructor
  · exact h1
  · push_cast
    linarith

lemma jsDist_eval (p q : ℝ × ℝ) (d : ℝ) (hd : 0 ≤ d)
    (h : (p.1 - q.1) * (p.1 - q.1) + (p.2 - q.2) * (p.2 - q.2) = d * d) :
    jsDist p q = d := by
  unfold jsDist
  rw [h]
  exact Real.sqrt_mul_self hd

lemma jsDist_nonneg (p q : ℝ × ℝ) : 0 ≤ jsDist p q := Real.sqrt_nonneg _

/-- C1 (amended): the destination dimensions computed by `processImage`
(round of max corner-edge distances, floored to 100, then uniformly downscaled
when either exceeds 3000) are both at most 3000, and both are at least 100
whenever the pre-cap size already fits within 3000 in each dimension (so the
downscale does not run).  The unconditional lower bound of 100 claimed by the
specification is false: the min-100 floor is applied before the 3000 cap, so
downscaling can push the smaller dimension below 100. -/
theorem destSize_bounds (tl tr br bl : ℝ × ℝ) (sw sh : ℝ) :
    (processDestSize tl tr br bl sw sh).1 ≤ 3000 ∧
    (processDestSize tl tr br bl sw sh).2 ≤ 3000 ∧
    ((preSize (toAbs tl sw sh) (toAbs tr sw sh) (toAbs br sw sh)
        (toAbs bl sw sh)).1 ≤ 3000 ∧
     (preSize (toAbs tl sw sh) (toAbs tr sw sh) (toAbs br sw sh)
        (toAbs bl sw sh)).2 ≤ 3000 →
      100 ≤ (processDestSize tl tr br bl sw sh).1 ∧
      100 ≤ (processDestSize tl tr br bl sw sh).2) := by
  unfold processDestSize destSize
  set p := preSize (toAbs tl sw sh) (toAbs tr sw sh) (toAbs br sw sh)
    (toAbs bl sw sh) with hp
  have hp1 : 100 ≤ p.1 := le_max_right _ _
  have hp2 : 100 ≤ p.2 := le_max_right _ _
  by_cases hc : 3000 < p.1 ∨ 3000 < p.2
  · rw [if_pos hc]
    simp only []
    set m : ℤ := max p.1 p.2 with hm
    have hm3000 : 3000 < m := by
      rcases hc with h | h
      · exact lt_of_lt_of_le h (le_max_left _ _)
      · exact lt_of_lt_of_le h (le_max_right _ _)
    have hmpos : (0 : ℝ) < (m : ℝ) := by
      have : (0 : ℤ) < m := by omega
      exact_mod_cast this
    have hbound : ∀ q : ℤ, q ≤ m → jsRound ((q : ℝ) * (3000 / (m : ℝ))) ≤ 3000 := by
      intro q hq
      have hle : (q : ℝ) * (3000 / (m : ℝ)) ≤ 3000 := by
        rw [mul_div_assoc']
        rw [div_le_iff hmpos]
        have hqr : (q : ℝ) ≤ (m : ℝ) := by exact_mod_cast hq
        nlinarith
      have : jsRound ((q : ℝ) * (3000 / (m : ℝ))) ≤ jsRound 3000 :=
        jsRound_mono hle
      have h3 : jsRound (3000 : ℝ) = 3000 := by
        apply jsRound_val
        · norm_num
        · norm_num
      omega
    refine ⟨hbound p.1 (le_max_left _ _), hbound p.2 (le_max_right _ _), ?_⟩
    intro hpre
    exfalso
    rcases hc with h | h
    · omega
    · omega
  · rw [if_neg hc]
    push_neg at hc
    exact ⟨hc.1, hc.2, fun _ => ⟨hp1, hp2⟩⟩

lemma preSize_cx :
    preSize ((0 : ℝ), (0 : ℝ)) ((100 : ℝ), (0 : ℝ)) ((100 : ℝ), (6000 : ℝ))
      ((0 : ℝ), (6000 : ℝ)) = (100, 6000) := by
  have d1 : jsDist ((0 : ℝ), (0 : ℝ)) ((100 : ℝ), (0 : ℝ)) = 100 :=
    jsDist_eval _ _ 100 (by norm_num) (by norm_num)
  have d2 : jsDist ((0 : ℝ), (6000 : ℝ)) ((100 : ℝ), (6000 : ℝ)) = 100 :=
    jsDist_eval _ _ 100 (by norm_num) (by norm_num)
  have d3 : jsDist ((0 : ℝ), (0 : ℝ)) ((0 : ℝ), (6000 : ℝ)) = 6000 :=
    jsDist_eval _ _ 6000 (by norm_num) (by norm_num)
  have d4 : jsDist ((100 : ℝ), (0 : ℝ)) ((100 : ℝ), (6000 : ℝ)) = 6000 :=
    jsDist_eval _ _ 6000 (by norm_num) (by norm_num)
  unfold preSize
  rw [d1, d2, d3, d4]
  have r1 : jsRound (max (100 : ℝ) 100) = 100 := by
    rw [max_self]
    exact jsRound_val _ _ (by norm_num) (by norm_num)
  have r2 : jsRound (max (6000 : ℝ) 6000) = 6000 := by
    rw [max_self]
    exact jsRound_val _ _ (by norm_num) (by norm_num)
  rw [r1, r2]
  norm_num

/-- Counterexample to C1 as stated: the full-image quad of a 100 by 6000
source raster has pre-cap destination size 100 by 6000; the cap downscales
both dimensions by 3000/6000, yielding 50 by 3000, and the resulting width 50
is below the claimed minimum of 100. -/
theorem destSize_bounds_counterexample :
    processDestSize ((0 : ℝ), (0 : ℝ)) ((1 : ℝ), (0 : ℝ)) ((1 : ℝ), (1 : ℝ))
        ((0 : ℝ), (1 : ℝ)) 100 6000 = (50, 3000) ∧ (50 : ℤ) < 100 := by
  constructor
  · unfold processDestSize
    have h1 : toAbs ((0 : ℝ), (0 : ℝ)) 100 6000 = ((0 : ℝ), (0 : ℝ)) := by
      unfold toAbs
      norm_num
    have h2 : toAbs ((1 : ℝ), (0 : ℝ)) 100 6000 = ((100 : ℝ), (0 : ℝ)) := by
      unfold toAbs
      norm_num
    have h3 : toAbs ((1 : ℝ), (1 : ℝ)) 100 6000 = ((100 : ℝ), (6000 : ℝ)) := by
      unfold toAbs
      norm_num
    have h4 : toAbs ((0 : ℝ), (1 : ℝ)) 100 6000 = ((0 : ℝ), (6000 : ℝ)) := by
      unfold toAbs
      norm_num
    rw [h1, h2, h3, h4]
    unfold destSize
    rw [preSize_cx]
    rw [if_pos (by norm_num)]
    simp only []
    have hmax : (max ((100, 6000) : ℤ × ℤ).1 ((100, 6000) : ℤ × ℤ).2) = 6000 := by
      norm_num
    rw [hmax]
    have w1 : jsRound ((((100, 6000) : ℤ × ℤ).1 : ℝ) * ((3000 : ℝ) / ((6000 : ℤ) : ℝ)))
        = 50 := by
      apply jsRound_val
      · norm_num
      · norm_num
    have w2 : jsRound ((((100, 6000) : ℤ × ℤ).2 : ℝ) * ((3000 : ℝ) / ((6000 : ℤ) : ℝ)))
        = 3000 := by
      apply jsRound_val
      · norm_num
      · norm_num
    rw [w1, w2]
  · norm_num

theorem destSize_bounds_witness :
    (processDestSize ((0 : ℝ), (0 : ℝ)) ((1 : ℝ), (0 : ℝ)) ((1 : ℝ), (1 : ℝ))
        ((0 : ℝ), (1 : ℝ)) 640 480).1 ≤ 3000 ∧
    100 ≤ (processDestSize ((0 : ℝ), (0 : ℝ)) ((1 : ℝ), (0 : ℝ)) ((1 : ℝ), (1 : ℝ))
        ((0 : ℝ), (1 : ℝ)) 640 480).1 := by
  have h1 : toAbs ((0 : ℝ), (0 : ℝ)) 640 480 = ((0 : ℝ), (0 : ℝ)) := by
    unfold toAbs
    norm_num
  have h2 : toAbs ((1 : ℝ), (0 : ℝ)) 640 480 = ((640 : ℝ), (0 : ℝ)) := by
    unfold toAbs
    norm_num
  have h3 : toAbs ((1 : ℝ), (1 : ℝ)) 640 480 = ((640 : ℝ), (480 : ℝ)) := by
    unfold toAbs
    norm_num
  have h4 : toAbs ((0 : ℝ), (1 : ℝ)) 640 480 = ((0 : ℝ), (480 : ℝ)) := by
    unfold toAbs
    norm_num
  have d1 : jsDist ((0 : ℝ), (0 : ℝ)) ((640 : ℝ), (0 : ℝ)) = 640 :=
    jsDist_eval _ _ 640 (by norm_num) (by norm_num)
  have d2 : jsDist ((0 : ℝ), (480 : ℝ)) ((640 : ℝ), (480 : ℝ)) = 640 :=
    jsDist_eval _ _ 640 (by norm_num) (by norm_num)
  have d3 : jsDist ((0 : ℝ), (0 : ℝ)) ((0 : ℝ), (480 : ℝ)) = 480 :=
    jsDist_eval _ _ 480 (by norm_num) (by norm_num)
  have d4 : jsDist ((640 : ℝ), (0 : ℝ)) ((640 : ℝ), (480 : ℝ)) = 480 :=
    jsDist_eval _ _ 480 (by norm_num) (by norm_num)
  have hpre : preSize (toAbs ((0 : ℝ), (0 : ℝ)) 640 480)
      (toAbs ((1 : ℝ), (0 : ℝ)) 640 480) (toAbs ((1 : ℝ), (1 : ℝ)) 640 480)
      (toAbs ((0 : ℝ), (1 : ℝ)) 640 480) = (640, 480) := by
    rw [h1, h2, h3, h4]
    unfold preSize
    rw [d1, d2, d3, d4]
    have r1 : jsRound (max (640 : ℝ) 640) = 640 := by
      rw [max_self]
      exact jsRound_val _ _ (by norm_num) (by norm_num)
    have r2 : jsRound (max (480 : ℝ) 480) = 480 := by
      rw [max_self]
      exact jsRound_val _ _ (by norm_num) (by norm_num)
    rw [r1, r2]
    norm_num
  refine ⟨(destSize_bounds ((0 : ℝ), (0 : ℝ)) ((1 : ℝ), (0 : ℝ)) ((1 : ℝ), (1 : ℝ))
      ((0 : ℝ), (1 : ℝ)) 640 480).1,
    ((destSize_bounds ((0 : ℝ), (0 : ℝ)) ((1 : ℝ), (0 : ℝ)) ((1 : ℝ), (1 : ℝ))
      ((0 : ℝ), (1 : ℝ)) 640 480).2.2 ?_).1⟩
  rw [hpre]
  norm_num
